import Mathlib

/-! GwAu3-Reforged RPC bridge: shallow embedding of the request handlers.

Definitions follow `NamedPipeServer.cpp`, `RPCBridge.cpp`, `dllentry.cpp`,
`NamedPipeServer.h`, `RPCBridge.h` and `DLLState.h`.  Conventions of the embedding:

* machine integers are naturals (or integers for signed fields) with explicit wrap-around;
* `uintptr_t` is `ptrBytes` bytes wide, a parameter of every definition that depends on it;
* host memory is a map from addresses to page protection and byte content;
* results of operating-system calls and of the out-of-scope collaborators (pattern scanner,
  detour engine, tick counter) are fields of an environment record `Env`;
* the arms of the request and response unions are separate record fields, each handler
  reading and writing only the arm the source names;
* `std::unordered_map` registries are association lists with unique keys, kept in
  insertion order.
-/

namespace GW

/-! ## Machine integers and formatting -/

/-- Conversion of a signed value to an unsigned integer of `bits` bits. -/
def toUnsigned (bits : Nat) (x : Int) : Nat := (x % (2 ^ bits : Int)).toNat

/-- The C expression `uintptr_t + int32_t`: the signed operand is converted to the unsigned
pointer type and the sum wraps at the pointer width. -/
def ptrAdd (ptrBytes : Nat) (a : Nat) (off : Int) : Nat :=
  (a + toUnsigned (8 * ptrBytes) off) % 2 ^ (8 * ptrBytes)

/-- Unsigned 32-bit subtraction. -/
def sub32 (a b : Nat) : Nat := (a + (2 ^ 32 - b % 2 ^ 32)) % 2 ^ 32

/-- The printf conversion `%08X` applied to the low 32 bits of a value. -/
def hex08 (n : Nat) : String :=
  let digits := (Nat.toDigits 16 (n % 2 ^ 32)).map Char.toUpper
  String.mk (List.replicate (8 - digits.length) '0' ++ digits)

/-! ## Host memory -/

/-- Windows page protection constant `PAGE_EXECUTE`. -/
def PAGE_EXECUTE : Nat := 0x10
/-- Windows page protection constant `PAGE_EXECUTE_READ`. -/
def PAGE_EXECUTE_READ : Nat := 0x20
/-- Windows page protection constant `PAGE_EXECUTE_READWRITE`. -/
def PAGE_EXECUTE_READWRITE : Nat := 0x40
/-- Windows page protection constant `PAGE_EXECUTE_WRITECOPY`. -/
def PAGE_EXECUTE_WRITECOPY : Nat := 0x80
/-- Windows page protection constant `PAGE_READWRITE`. -/
def PAGE_READWRITE : Nat := 0x04
/-- Windows page protection modifier `PAGE_GUARD`. -/
def PAGE_GUARD : Nat := 0x100

/-- Host address space.  `protect a` is the page protection of the committed page holding
address `a`, or `none` when the address is not committed; `byte a` is the content;
`queryable a` is false for the addresses on which a region query itself fails. -/
structure Memory where
  protect : Nat → Option Nat
  byte : Nat → Nat
  queryable : Nat → Bool := fun _ => true

/-- What a region query reports: whether the page is committed (`State == MEM_COMMIT`) and
its protection (zero for a page that is not committed). -/
structure MemInfo where
  committed : Bool
  Protect : Nat

/-- The call `VirtualQuery(a, &mbi, sizeof(mbi))`; `none` stands for the return value 0. -/
def VirtualQuery (m : Memory) (a : Nat) : Option MemInfo :=
  if m.queryable a then
    some { committed := (m.protect a).isSome, Protect := (m.protect a).getD 0 }
  else none

/-- A protection value that lets a load succeed: one of the readable protections
(`PAGE_READONLY`, `PAGE_READWRITE`, `PAGE_WRITECOPY` and the three readable execute
protections) without the guard modifier. -/
def readableProt (p : Nat) : Bool := (p &&& PAGE_GUARD == 0) && (p &&& 0xEE != 0)

/-- A protection value that lets a store succeed. -/
def writableProt (p : Nat) : Bool := (p &&& PAGE_GUARD == 0) && (p &&& 0xCC != 0)

/-- A load of one byte at `a` does not fault. -/
def Memory.canRead (m : Memory) (a : Nat) : Bool :=
  match m.protect a with
  | some p => readableProt p
  | none => false

/-- Every byte of `[a, a + n)` can be loaded. -/
def Memory.rangeReadable (m : Memory) (a n : Nat) : Bool :=
  (List.range n).all (fun i => m.canRead (a + i))

/-- Every byte of `[a, a + n)` is committed with a protection that allows stores. -/
def Memory.rangeWritable (m : Memory) (a n : Nat) : Bool :=
  (List.range n).all (fun i =>
    match m.protect (a + i) with
    | some p => writableProt p
    | none => false)

/-- The probe `IsBadReadPtr(a, n)`: true when some byte of the range cannot be read. -/
def IsBadReadPtr (m : Memory) (a n : Nat) : Bool := !(m.rangeReadable a n)

/-- The `n` bytes stored at `a`, lowest address first. -/
def Memory.bytes (m : Memory) (a n : Nat) : List Nat :=
  (List.range n).map (fun i => m.byte (a + i) % 256)

/-- Little-endian value of a byte list. -/
def leValue : List Nat → Nat
  | [] => 0
  | b :: bs => b + 256 * leValue bs

/-- An unsigned little-endian load of `n` bytes at `a` (the dereference `*(uintN_t*)a`). -/
def Memory.load (m : Memory) (a n : Nat) : Nat := leValue (m.bytes a n)

/-- A guarded load (`__try` around a dereference): `none` when the access faults. -/
def Memory.tryLoad (m : Memory) (a n : Nat) : Option Nat :=
  if m.rangeReadable a n then some (m.load a n) else none

/-- A guarded `memcpy` out of host memory: `none` when the access faults. -/
def Memory.tryCopyOut (m : Memory) (a n : Nat) : Option (List Nat) :=
  if m.rangeReadable a n then some (m.bytes a n) else none

/-- The `memcpy` into host memory: the bytes of `data` are stored from `a` upward. -/
def Memory.store (m : Memory) (a : Nat) (data : List Nat) : Memory :=
  { m with byte := fun x => if a ≤ x ∧ x < a + data.length then data.getD (x - a) 0 % 256
                            else m.byte x }

/-- The call `VirtualProtect(a, n, prot, &old)`: fails when some byte of the range is not
committed; otherwise the range takes protection `prot` and the previous protection of the
first page is returned. -/
def VirtualProtect (m : Memory) (a n prot : Nat) : Option (Memory × Nat) :=
  if (List.range n).all (fun i => (m.protect (a + i)).isSome) then
    match m.protect a with
    | some old =>
        some ({ m with protect := fun x => if a ≤ x ∧ x < a + n then some prot
                                           else m.protect x }, old)
    | none => none
  else none

/-! ## Wire protocol (`NamedPipeServer.h`) -/

@[simp] def SCAN_FIND : Int := 1
@[simp] def SCAN_FIND_ASSERTION : Int := 2
@[simp] def SCAN_FIND_IN_RANGE : Int := 3
@[simp] def SCAN_TO_FUNCTION_START : Int := 4
@[simp] def SCAN_FUNCTION_FROM_NEAR_CALL : Int := 5
@[simp] def READ_MEMORY : Int := 6
@[simp] def GET_SECTION_INFO : Int := 7
@[simp] def READ_POINTER_CHAIN : Int := 8
@[simp] def REGISTER_FUNCTION : Int := 10
@[simp] def UNREGISTER_FUNCTION : Int := 11
@[simp] def CALL_FUNCTION : Int := 12
@[simp] def LIST_FUNCTIONS : Int := 13
@[simp] def ALLOCATE_MEMORY : Int := 20
@[simp] def FREE_MEMORY : Int := 21
@[simp] def WRITE_MEMORY : Int := 22
@[simp] def PROTECT_MEMORY : Int := 23
@[simp] def INSTALL_HOOK : Int := 30
@[simp] def REMOVE_HOOK : Int := 31
@[simp] def ENABLE_HOOK : Int := 32
@[simp] def DISABLE_HOOK : Int := 33
@[simp] def GET_PENDING_EVENTS : Int := 40
@[simp] def REGISTER_EVENT_BUFFER : Int := 41
@[simp] def UNREGISTER_EVENT_BUFFER : Int := 42
@[simp] def READ_MEMORY_ARRAY : Int := 45
@[simp] def BATCH_REQUEST : Int := 48
@[simp] def BATCH_READ_MEMORY : Int := 49
@[simp] def SERVER_STATUS : Int := 50
@[simp] def SERVER_STOP : Int := 51
@[simp] def SERVER_START : Int := 52
@[simp] def SERVER_RESTART : Int := 53
@[simp] def DLL_DETACH : Int := 60
@[simp] def DLL_STATUS : Int := 61
@[simp] def HEARTBEAT : Int := 100

/-- The enumerators of `RequestType`. -/
def requestTypes : List Int :=
  [SCAN_FIND, SCAN_FIND_ASSERTION, SCAN_FIND_IN_RANGE, SCAN_TO_FUNCTION_START,
   SCAN_FUNCTION_FROM_NEAR_CALL, READ_MEMORY, GET_SECTION_INFO, READ_POINTER_CHAIN,
   REGISTER_FUNCTION, UNREGISTER_FUNCTION, CALL_FUNCTION, LIST_FUNCTIONS,
   ALLOCATE_MEMORY, FREE_MEMORY, WRITE_MEMORY, PROTECT_MEMORY,
   INSTALL_HOOK, REMOVE_HOOK, ENABLE_HOOK, DISABLE_HOOK,
   GET_PENDING_EVENTS, REGISTER_EVENT_BUFFER, UNREGISTER_EVENT_BUFFER,
   READ_MEMORY_ARRAY, BATCH_REQUEST, BATCH_READ_MEMORY,
   SERVER_STATUS, SERVER_STOP, SERVER_START, SERVER_RESTART,
   DLL_DETACH, DLL_STATUS, HEARTBEAT]

def PARAM_INT8 : Nat := 1
def PARAM_INT16 : Nat := 2
def PARAM_INT32 : Nat := 3
def PARAM_INT64 : Nat := 4
def PARAM_FLOAT : Nat := 5
def PARAM_DOUBLE : Nat := 6
def PARAM_POINTER : Nat := 7
def PARAM_STRING : Nat := 8
def PARAM_WSTRING : Nat := 9

def CONV_CDECL : Nat := 1
def CONV_STDCALL : Nat := 2
def CONV_FASTCALL : Nat := 3
def CONV_THISCALL : Nat := 4

/-- One `FunctionParam`: the type tag and the 256 bytes of the value union. -/
structure FunctionParam where
  type : Nat
  raw : List Nat

structure ScanArm where
  pattern : List Nat := []
  mask : String := ""
  offset : Int := 0
  sectionId : Nat := 0
  pattern_length : Nat := 0

structure AssertionArm where
  assertion_file : String := ""
  assertion_msg : String := ""
  line_number : Nat := 0
  offset : Int := 0

structure RangeArm where
  start_address : Nat := 0
  end_address : Nat := 0
  pattern : List Nat := []
  mask : String := ""
  offset : Int := 0
  pattern_length : Nat := 0

structure RegisterFuncArm where
  name : String := ""
  address : Nat := 0
  param_count : Nat := 0
  convention : Nat := 0
  has_return : Nat := 0

structure CallFuncArm where
  name : String := ""
  param_count : Nat := 0
  params : List FunctionParam := []

/-- The memory arm.  `data` holds the bytes of the message from the payload field
`data[1024]` on: the field and, when the message is longer, the bytes that follow it (the
request object is as long as its longest arm, so a message can carry 1632 bytes behind the
field). -/
structure MemoryArm where
  address : Nat := 0
  size : Nat := 0
  protection : Nat := 0
  data : List Nat := []

structure HookArm where
  name : String := ""
  target : Nat := 0
  detour : Nat := 0
  length : Nat := 0

structure EventArm where
  name : String := ""
  buffer_address : Nat := 0
  buffer_size : Nat := 0
  max_events : Nat := 0

structure ServerControlArm where
  pipe_name : String := ""
  wait_ms : Nat := 0

/-- The pointer-chain arm.  `offsets` is the 16-slot array of signed 32-bit offsets. -/
structure PointerChainArm where
  base_address : Nat := 0
  offset_count : Nat := 0
  final_size : Nat := 0
  offsets : List Int := []

structure ArrayReadArm where
  address : Nat := 0
  element_type : Nat := 0
  element_count : Nat := 0

/-- The batch-read arm.  `sizes` and `addresses` are the 32-slot arrays. -/
structure BatchReadArm where
  count : Nat := 0
  sizes : List Nat := []
  addresses : List Nat := []

structure HeartbeatArm where
  client_timestamp : Nat := 0

/-- A request frame `PipeRequest`. -/
structure PipeRequest where
  type : Int
  scan : ScanArm := {}
  assertion : AssertionArm := {}
  range : RangeArm := {}
  register_func : RegisterFuncArm := {}
  call_func : CallFuncArm := {}
  memory : MemoryArm := {}
  hook : HookArm := {}
  event : EventArm := {}
  server_control : ServerControlArm := {}
  pointer_chain : PointerChainArm := {}
  array_read : ArrayReadArm := {}
  batch_read : BatchReadArm := {}
  heartbeat : HeartbeatArm := {}

/-! ## Response frame -/

structure MemoryResult where
  address : Nat := 0
  size : Nat := 0
  data : List Nat := []

structure CallResult where
  has_return : Nat := 0
  int_val : Int := 0

structure FunctionList where
  count : Nat := 0
  names : List String := []

structure SectionInfo where
  start : Nat := 0
  end_ : Nat := 0

/-- One `EventData` record: id, tick, byte count and the bytes copied by the producer. -/
structure EventData where
  event_id : Nat
  timestamp : Nat
  data_size : Nat
  data : List Nat
deriving DecidableEq, Repr

structure EventDataResult where
  event_count : Nat := 0
  events : List EventData := []

structure PointerChainResult where
  final_address : Nat := 0
  value : Nat := 0

structure ArrayResult where
  element_type : Nat := 0
  element_count : Nat := 0
  element_size : Nat := 0
  total_size : Nat := 0
  data : List Nat := []

/-- The batch arm: `success_mask` is the 4-byte mask, `values` the 32 value slots. -/
structure BatchResult where
  count : Nat := 0
  success_mask : List Nat := [0, 0, 0, 0]
  values : List Nat := List.replicate 32 0

structure HeartbeatResult where
  client_timestamp : Nat := 0
  server_timestamp : Nat := 0
  latency_ms : Nat := 0

structure ServerStatus where
  status : Int := 0
  client_count : Nat := 0
  uptime_ms : Nat := 0
  pipe_name : String := ""

structure DllStatus where
  status : Int := 0
  version : Nat := 0
  build_info : String := ""

/-- A response frame `PipeResponse`.  The default value is the frame after
`memset(&response, 0, sizeof(response))`. -/
structure PipeResponse where
  success : Nat := 0
  scan_result_address : Nat := 0
  call_result : CallResult := {}
  memory_result : MemoryResult := {}
  function_list : FunctionList := {}
  section_info : SectionInfo := {}
  event_data : EventDataResult := {}
  pointer_chain_result : PointerChainResult := {}
  array_result : ArrayResult := {}
  batch_result : BatchResult := {}
  heartbeat_result : HeartbeatResult := {}
  server_status : ServerStatus := {}
  dll_status : DllStatus := {}
  error_message : String := ""

/-! ## Bridge state (`RPCBridge.h`, `DLLState.h`) -/

inductive DllState where
  | Initializing
  | Running
  | ShuttingDown
  | Stopped
deriving DecidableEq, Repr

/-- The value `static_cast<int>(state)`. -/
def DllState.toInt : DllState → Int
  | .Initializing => 0
  | .Running => 1
  | .ShuttingDown => 2
  | .Stopped => 3

structure FunctionSignature where
  name : String
  address : Nat
  param_count : Nat
  convention : Nat
  has_return : Bool
deriving DecidableEq, Repr

structure MemoryBlock where
  address : Nat
  size : Nat
  original_protection : Nat
deriving DecidableEq, Repr

structure EventBuffer where
  name : String
  address : Nat
  size : Nat
  max_events : Nat
  pending_events : List EventData
deriving DecidableEq, Repr

/-- A queued call: what the closure captures (name and parameter copy), whether a result
slot was supplied, and the deadline. -/
structure PendingCall where
  func_name : String
  params_copy : List FunctionParam
  has_result_ptr : Bool
  timeout : Nat

/-- The members of `RPCBridge`. -/
structure RPCBridge where
  functions : List (String × FunctionSignature) := []
  allocations : List (Nat × MemoryBlock) := []
  hooks : List (String × Nat) := []
  event_buffers : List (String × EventBuffer) := []
  pending_calls : List PendingCall := []

/-- The members of `NamedPipeServer` the handlers read or write. -/
structure NamedPipeServer where
  running : Bool := false
  pipeName : String := ""
  clientCount : Nat := 0
  totalConnections : Nat := 0
  startTime : Nat := 0

/-- The whole process: lifecycle atom, endpoint server, bridge, host memory and the hooks
known to the detour engine (target address and enabled flag). -/
structure Host where
  g_dllState : DllState := .Initializing
  server : NamedPipeServer := {}
  bridge : RPCBridge := {}
  memory : Memory
  engine : List (Nat × Bool) := []

/-! ## Association-list registries -/

/-- The lookup `m.find(k)`. -/
def mapFind {κ β : Type} [DecidableEq κ] (m : List (κ × β)) (k : κ) : Option β :=
  (m.find? (fun e => decide (e.1 = k))).map (fun e => e.2)

/-- The removal `m.erase(k)`. -/
def mapErase {κ β : Type} [DecidableEq κ] (m : List (κ × β)) (k : κ) : List (κ × β) :=
  m.filter (fun e => !decide (e.1 = k))

/-- The assignment `m[k] = v`: replaces the value of an existing key, else adds the entry. -/
def mapAssign {κ β : Type} [DecidableEq κ] (m : List (κ × β)) (k : κ) (v : β) :
    List (κ × β) :=
  if (mapFind m k).isSome then m.map (fun e => if e.1 = k then (k, v) else e)
  else m ++ [(k, v)]

/-! ## Environment: operating system and collaborators -/

/-- How the wait on the promise of a queued call ends: resolved by the drain with a success
flag and the value the drain stored through the result pointer (if any), or timed out. -/
inductive AwaitOutcome where
  | ready (success : Bool) (stored : Option Nat)
  | timedOut

/-- How a call into native code through a trampoline ends: it returns a pointer-sized value,
it raises an access violation (which the structured-fault guard of the marshaller handles),
or it raises anything else (which the guard lets pass). -/
inductive NativeOutcome where
  | returned (retval : Nat)
  | accessViolation
  | thrown
deriving DecidableEq, Repr

/-- Results of the calls a handler makes outside the bridge. -/
structure Env where
  /-- The size `sizeof(uintptr_t)` of the build. -/
  ptrBytes : Nat := 4
  /-- Whether `_DEBUG` is defined. -/
  debugBuild : Bool := false
  /-- The value `GetTickCount()` returns. -/
  tick : Nat := 0
  /-- The reading of the steady clock, in milliseconds. -/
  now : Nat := 0
  /-- The address `VirtualAlloc(NULL, size, MEM_COMMIT | MEM_RESERVE, protection)` returns. -/
  VirtualAlloc : Nat → Nat → Nat := fun _ _ => 0
  /-- Whether `VirtualFree(address, 0, MEM_RELEASE)` succeeds. -/
  VirtualFree : Nat → Bool := fun _ => true
  /-- Whether the detour engine can build a hook from a target to a replacement. -/
  createHookOk : Nat → Nat → Bool := fun _ _ => true
  /-- Whether the detour engine can enable the hook at a target. -/
  enableHookOk : Nat → Bool := fun _ => true
  /-- Whether the detour engine can disable the hook at a target. -/
  disableHookOk : Nat → Bool := fun _ => true
  /-- The collaborator `Scanner::Find`. -/
  Scanner_Find : List Nat → Option String → Int → Nat → Nat := fun _ _ _ _ => 0
  /-- The collaborator `Scanner::FindAssertion`. -/
  Scanner_FindAssertion : String → String → Nat → Int → Nat := fun _ _ _ _ => 0
  /-- The collaborator `Scanner::FindInRange`. -/
  Scanner_FindInRange : List Nat → Option String → Int → Nat → Nat → Nat :=
    fun _ _ _ _ _ => 0
  /-- The collaborator `Scanner::ToFunctionStart`. -/
  Scanner_ToFunctionStart : Nat → Nat → Nat := fun _ _ => 0
  /-- The collaborator `Scanner::FunctionFromNearCall`. -/
  Scanner_FunctionFromNearCall : Nat → Bool → Nat := fun _ _ => 0
  /-- The collaborator `Scanner::GetSectionAddressRange`: start and end it stores. -/
  Scanner_GetSectionAddressRange : Nat → Nat × Nat := fun _ => (0, 0)
  /-- Whether the server thread can be created by `Start`. -/
  threadStartOk : Bool := true
  /-- The endpoint name derived from the host (`GetPipeName()`). -/
  GetPipeName : String := ""
  /-- The text `e.what()` of the `std::system_error` that `std::thread::join` throws when
  a thread joins itself. -/
  selfJoinWhat : String := "resource deadlock would occur"
  /-- How the wait in `CallFunction` ends. -/
  await : AwaitOutcome := .timedOut
  /-- The milliseconds the invoker of a queued call runs on the host thread: from the
  drain calling `call->func()` to the drain setting the promise of the call. -/
  invokeTime : PendingCall → Nat := fun _ => 0
  /-- The milliseconds from the reading of the clock for the deadline in `CallFunction` to
  the start of the wait on the promise (parameter copy, queue lock, purge, enqueue). -/
  submitTime : Nat := 0
  /-- The storage that follows the 1024-byte payload field where the message did not
  reach: what the request buffer held before the read and, past the request object, what
  lies behind it; indexed from the end of the field. -/
  afterPayload : Nat → Nat := fun _ => 0
  /-- What the native code at an address does when called with a calling convention and a
  list of argument words. -/
  native : Nat → Nat → List Nat → NativeOutcome := fun _ _ _ => .returned 0
  /-- The address of the value union of element `i` of the parameter copy of a queued call
  (what `(uintptr_t)params[i].string_val` evaluates to). -/
  paramBuffer : Nat → Nat := fun _ => 0
  /-- The value of byte `i` of the array `data` of a queued event record where the producer
  copied nothing: `PushEvent` builds the record in an uninitialised local. -/
  eventPad : Nat → Nat := fun _ => 0
  /-- The records that follow the 10-element array `params` in the storage of the request
  object, indexed from the end of the array; a copy of more than 10 records reads them. -/
  afterParams : Nat → FunctionParam := fun _ => { type := 0, raw := [] }
  /-- The iteration order of the function registry after a new key was inserted: the
  registry is a `std::unordered_map`, and an insertion may rehash it. The result is a
  rearrangement of the argument. -/
  rehash : List (String × FunctionSignature) → List (String × FunctionSignature) := id

/-! ## Detour engine -/

/-- Modelled from the spec: the native detour engine is an external collaborator (create,
remove, enable, disable by code address).  A hook is created when the engine can build it and
the target has none yet. -/
def MH_CreateHook (env : Env) (engine : List (Nat × Bool)) (target detour : Nat) :
    Bool × List (Nat × Bool) :=
  if env.createHookOk target detour && (mapFind engine target).isNone then
    (true, engine ++ [(target, false)])
  else (false, engine)

/-- Modelled from the spec: enabling succeeds on a created hook the engine can patch. -/
def MH_EnableHook (env : Env) (engine : List (Nat × Bool)) (target : Nat) :
    Bool × List (Nat × Bool) :=
  if (mapFind engine target).isSome && env.enableHookOk target then
    (true, mapAssign engine target true)
  else (false, engine)

/-- Modelled from the spec: disabling succeeds on a created hook the engine can restore. -/
def MH_DisableHook (env : Env) (engine : List (Nat × Bool)) (target : Nat) :
    Bool × List (Nat × Bool) :=
  if (mapFind engine target).isSome && env.disableHookOk target then
    (true, mapAssign engine target false)
  else (false, engine)

/-- Modelled from the spec: removing deletes the hook at the target. -/
def MH_RemoveHook (engine : List (Nat × Bool)) (target : Nat) : List (Nat × Bool) :=
  mapErase engine target

/-! ## Lifecycle (`DLLState.h`) -/

def IsDllRunning (s : DllState) : Bool := decide (s = DllState.Running)

def IsDllShuttingDown (s : DllState) : Bool :=
  decide (s = DllState.ShuttingDown) || decide (s = DllState.Stopped)

/-- The compare-exchange of `RequestShutdown`. -/
def RequestShutdown (s : DllState) : DllState :=
  if s = DllState.Running then DllState.ShuttingDown else s

/-! ## Registry operations (`RPCBridge.cpp`)

The `name` and `data` arguments are arrays inside the request, never null, so the
null-pointer guards of the source on them are omitted. -/

def MAX_WRITE_SIZE : Nat := 0x10000
def MAX_ALLOC_SIZE : Nat := 0x100000

/-- The protection bits `PAGE_EXECUTE | PAGE_EXECUTE_READ | PAGE_EXECUTE_READWRITE |
PAGE_EXECUTE_WRITECOPY`. -/
def executeMask : Nat :=
  PAGE_EXECUTE ||| PAGE_EXECUTE_READ ||| PAGE_EXECUTE_READWRITE ||| PAGE_EXECUTE_WRITECOPY

/-- The effect of a successful `VirtualAlloc` on host memory: the region is committed,
zero-filled, with the requested protection. -/
def Memory.commit (m : Memory) (a n prot : Nat) : Memory :=
  { m with protect := fun x => if a ≤ x ∧ x < a + n then some prot else m.protect x,
           byte := fun x => if a ≤ x ∧ x < a + n then 0 else m.byte x }

/-- The effect of a successful `VirtualFree(.., MEM_RELEASE)` on host memory. -/
def Memory.release (m : Memory) (a n : Nat) : Memory :=
  { m with protect := fun x => if a ≤ x ∧ x < a + n then none else m.protect x }

/-- The assignment `functions[name] = sig` on the function registry: an existing key keeps
its place and gets the new value; a new key is inserted, after which the registry iterates
in the order `env.rehash` gives. -/
def assignFunction (env : Env) (m : List (String × FunctionSignature)) (name : String)
    (sig : FunctionSignature) : List (String × FunctionSignature) :=
  if (mapFind m name).isSome then mapAssign m name sig
  else env.rehash (mapAssign m name sig)

def RPCBridge.RegisterFunction (env : Env) (h : Host) (name : String)
    (address param_count conv : Nat) (has_return : Bool) : Bool × Host :=
  if address = 0 then (false, h)
  else
    match VirtualQuery h.memory address with
    | none => (false, h)
    | some mbi =>
      if mbi.Protect &&& executeMask = 0 then (false, h)
      else
        let sig : FunctionSignature :=
          { name := name, address := address, param_count := param_count,
            convention := conv, has_return := has_return }
        (true, { h with bridge :=
          { h.bridge with functions := assignFunction env h.bridge.functions name sig } })

def RPCBridge.UnregisterFunction (h : Host) (name : String) : Bool × Host :=
  match mapFind h.bridge.functions name with
  | none => (false, h)
  | some _ =>
    (true, { h with bridge :=
      { h.bridge with functions := mapErase h.bridge.functions name } })

def RPCBridge.AllocateMemory (env : Env) (h : Host) (size protection : Nat) : Nat × Host :=
  if size = 0 ∨ size > MAX_ALLOC_SIZE then (0, h)
  else
    let addr := env.VirtualAlloc size protection
    if addr = 0 then (0, h)
    else
      let block : MemoryBlock :=
        { address := addr, size := size, original_protection := protection }
      (addr, { h with
        memory := h.memory.commit addr size protection,
        bridge := { h.bridge with allocations := mapAssign h.bridge.allocations addr block } })

def RPCBridge.FreeMemory (env : Env) (h : Host) (address : Nat) : Bool × Host :=
  if address = 0 then (false, h)
  else
    match mapFind h.bridge.allocations address with
    | none => (false, h)
    | some block =>
      if env.VirtualFree address then
        (true, { h with
          memory := h.memory.release address block.size,
          bridge := { h.bridge with allocations := mapErase h.bridge.allocations address } })
      else (false, h)

/-- The number of bytes of the request object from its payload field `memory.data` on:
`sizeof(PipeRequest)` is `type` plus the longest arm (`call_func`: a name of 64 bytes,
`param_count`, `padding[3]` and ten records of 260 bytes), and the field lies behind
`type`, `address`, `size` and `protection`. -/
def payloadFrameBytes : Nat := (4 + (64 + 1 + 3 + 10 * 260)) - (4 + 4 + 4 + 4)

/-- The `size` bytes a `memcpy` reads starting at the payload field `data` of the request.
`data` holds the bytes of the message from the field on.  The first 1024 bytes are the
field (a byte the message does not give reads as zero); behind the field the copy reads
the bytes of the message as far as it reaches inside the request object, and past those
the storage `env.afterPayload`. -/
def payloadSource (env : Env) (data : List Nat) (size : Nat) : List Nat :=
  (List.range size).map (fun i =>
    if i < 1024 then data.getD i 0
    else if i < data.length ∧ i < payloadFrameBytes then data.getD i 0
    else env.afterPayload (i - 1024))

def RPCBridge.WriteMemory (env : Env) (h : Host) (address : Nat) (data : List Nat)
    (size : Nat) : Bool × Host :=
  if address = 0 ∨ size = 0 ∨ size > MAX_WRITE_SIZE then (false, h)
  else
    match VirtualProtect h.memory address size PAGE_EXECUTE_READWRITE with
    | none => (false, h)
    | some (m1, oldProtect) =>
      let m2 := m1.store address (payloadSource env data size)
      let m3 := match VirtualProtect m2 address size oldProtect with
        | some (m, _) => m
        | none => m2
      (true, { h with memory := m3 })

def RPCBridge.ProtectMemory (h : Host) (address size protection : Nat) : Bool × Host :=
  if address = 0 ∨ size = 0 then (false, h)
  else
    match VirtualQuery h.memory address with
    | none => (false, h)
    | some _ =>
      match VirtualProtect h.memory address size protection with
      | some (m, _) => (true, { h with memory := m })
      | none => (false, h)

def RPCBridge.InstallHook (env : Env) (h : Host) (name : String) (target detour : Nat) :
    Bool × Host :=
  if target = 0 ∨ detour = 0 then (false, h)
  else
    match VirtualQuery h.memory target with
    | none => (false, h)
    | some mbi =>
      if mbi.Protect &&& executeMask = 0 then (false, h)
      else if (mapFind h.bridge.hooks name).isSome then (false, h)
      else
        match MH_CreateHook env h.engine target detour with
        | (false, _) => (false, h)
        | (true, e1) =>
          match MH_EnableHook env e1 target with
          | (false, _) => (false, { h with engine := MH_RemoveHook e1 target })
          | (true, e2) =>
            (true, { h with
              engine := e2,
              bridge := { h.bridge with hooks := mapAssign h.bridge.hooks name target } })

def RPCBridge.RemoveHook (env : Env) (h : Host) (name : String) : Bool × Host :=
  match mapFind h.bridge.hooks name with
  | none => (false, h)
  | some target =>
    let e1 := (MH_DisableHook env h.engine target).2
    (true, { h with
      engine := MH_RemoveHook e1 target,
      bridge := { h.bridge with hooks := mapErase h.bridge.hooks name } })

def RPCBridge.EnableHook (env : Env) (h : Host) (name : String) : Bool × Host :=
  match mapFind h.bridge.hooks name with
  | none => (false, h)
  | some target =>
    let r := MH_EnableHook env h.engine target
    (r.1, { h with engine := r.2 })

def RPCBridge.DisableHook (env : Env) (h : Host) (name : String) : Bool × Host :=
  match mapFind h.bridge.hooks name with
  | none => (false, h)
  | some target =>
    let r := MH_DisableHook env h.engine target
    (r.1, { h with engine := r.2 })

def RPCBridge.ListFunctions (b : RPCBridge) : List String := b.functions.map (fun e => e.1)

/-! ## Event rings -/

def RPCBridge.RegisterEventBuffer (h : Host) (name : String) (buffer size max_events : Nat) :
    Bool × Host :=
  if buffer = 0 ∨ size = 0 then (false, h)
  else
    match VirtualQuery h.memory buffer with
    | none => (false, h)
    | some mbi =>
      if !mbi.committed then (false, h)
      else
        let eb : EventBuffer :=
          { name := name, address := buffer, size := size,
            max_events := if max_events > 0 then max_events else 100,
            pending_events := [] }
        (true, { h with bridge :=
          { h.bridge with event_buffers := mapAssign h.bridge.event_buffers name eb } })

def RPCBridge.UnregisterEventBuffer (h : Host) (name : String) : Bool × Host :=
  match mapFind h.bridge.event_buffers name with
  | none => (false, h)
  | some _ =>
    (true, { h with bridge :=
      { h.bridge with event_buffers := mapErase h.bridge.event_buffers name } })

/-- The loop `while (pending_events.size() > max_events) pending_events.pop();`. -/
def limitQueue (max_events : Nat) : List EventData → List EventData
  | [] => []
  | e :: q => if (e :: q).length > max_events then limitQueue max_events q else e :: q

/-- The record `event` that `PushEvent` builds: the size is clamped to 256 and that many
bytes are copied when `data` is not null (`none`) and `data_size` is positive.  The bytes of
the record behind the copied ones are indeterminate in the source and are not kept. -/
def makeEvent (env : Env) (event_id : Nat) (data : Option (List Nat)) (data_size : Nat) :
    EventData :=
  let size := if data_size < 256 then data_size else 256
  { event_id := event_id, timestamp := env.tick, data_size := size,
    data := match data with
      | some d => if data_size > 0 then d.take size else []
      | none => [] }

/-- The producer entry point `PushEvent`. -/
def RPCBridge.PushEvent (env : Env) (b : RPCBridge) (buffer_name : String) (event_id : Nat)
    (data : Option (List Nat)) (data_size : Nat) : RPCBridge :=
  match mapFind b.event_buffers buffer_name with
  | none => b
  | some eb =>
    let event := makeEvent env event_id data data_size
    let queue := limitQueue eb.max_events (eb.pending_events ++ [event])
    let rings := mapAssign b.event_buffers buffer_name { eb with pending_events := queue }
    { b with event_buffers := rings }

/-- The loop of `GetPendingEvents`: pops from the front while the queue is not empty and
fewer than `max_count` events were taken; returns the events taken and the remaining queue. -/
def popEvents : Nat → List EventData → List EventData × List EventData
  | 0, q => ([], q)
  | _ + 1, [] => ([], [])
  | n + 1, e :: q => ((e :: (popEvents n q).1), (popEvents n q).2)

/-- The consumer entry point `GetPendingEvents`: the events written to `out_events` (their
number is the return value) and the bridge afterwards. -/
def RPCBridge.GetPendingEvents (b : RPCBridge) (buffer_name : String) (max_count : Nat) :
    List EventData × RPCBridge :=
  if max_count = 0 then ([], b)
  else
    match mapFind b.event_buffers buffer_name with
    | none => ([], b)
    | some eb =>
      let r := popEvents max_count eb.pending_events
      let rings := mapAssign b.event_buffers buffer_name { eb with pending_events := r.2 }
      (r.1, { b with event_buffers := rings })

/-! ## Call submission -/

/-- The purge of expired calls at the front of the queue done by `CallFunction`. -/
def purgeExpiredFront (now : Nat) : List PendingCall → List PendingCall
  | [] => []
  | c :: q => if c.timeout < now then purgeExpiredFront now q else c :: q

/-- The `count` records the range `params, params + count` covers: the first 10 are the
slots of the array `params` of the request (a slot the list does not give reads as zero),
any further ones come from the storage behind the array. -/
def paramSource (env : Env) (params : List FunctionParam) (count : Nat) : List FunctionParam :=
  (List.range count).map
    (fun i => if i < 10 then params.getD i { type := 0, raw := [] } else env.afterParams (i - 10))

/-- The worker side of `CallFunction`: the call is queued with a deadline five seconds ahead
and the worker waits for the promise; the drain runs on another thread, its outcome is
`env.await`.  Returns success, the value left in the result slot, and the bridge. -/
def RPCBridge.CallFunction (env : Env) (b : RPCBridge) (name : String)
    (params : List FunctionParam) (param_count : Nat) (has_result_ptr : Bool) :
    Bool × Option Nat × RPCBridge :=
  let pending : PendingCall :=
    { func_name := name,
      params_copy := if param_count > 0 then paramSource env params param_count else [],
      has_result_ptr := has_result_ptr,
      timeout := env.now + 5000 }
  let b1 := { b with pending_calls := purgeExpiredFront env.now b.pending_calls ++ [pending] }
  match env.await with
  | .ready success stored => (success, stored, b1)
  | .timedOut => (false, none, b1)

/-! ## Layout of the response frame (`#pragma pack(1)`) and the event copy

The `memcpy` of the poll-events case is given byte by byte, with the offsets of the packed
frame, because it can run over the end of its target field and over the members that
follow the union. -/

/-- The four bytes of a `uint32_t`, lowest first. -/
def le32 (v : Nat) : List Nat := [v % 256, v / 256 % 256, v / 65536 % 256, v / 16777216 % 256]

/-- The size `sizeof(EventData)`: three `uint32_t` and `data[256]`. -/
def sizeofEventData : Nat := 4 + 4 + 4 + 256

/-- The size of the target field `response.event_data.events`. -/
def eventPayloadCapacity : Nat := 1024

/-- The offset of `response.event_data.events`: behind `success`, `padding[3]` and
`event_count`. -/
def offsetofEventPayload : Nat := 1 + 3 + 4

/-- The size of the union of the result arms: that of its largest arm, `array_result`. -/
def sizeofResultUnion : Nat := 1 + 3 + 4 + 4 + 4 + 2048

/-- The offset of `response.server_status`. -/
def offsetofServerStatus : Nat := 1 + 3 + sizeofResultUnion

/-- The offset of `response.dll_status`: behind `server_status` (an `int32_t`, a `uint32_t`,
a `uint64_t` and `pipe_name[256]`). -/
def offsetofDllStatus : Nat := offsetofServerStatus + (4 + 4 + 8 + 256)

/-- The offset of `response.error_message`: behind `dll_status` (an `int32_t`, a `uint32_t`
and `build_info[256]`). -/
def offsetofErrorMessage : Nat := offsetofDllStatus + (4 + 4 + 256)

/-- The size `sizeof(PipeResponse)`. -/
def sizeofPipeResponse : Nat := offsetofErrorMessage + 256

/-- The byte at offset `j` of one `EventData` record: `event_id`, `timestamp`, `data_size`,
then `data[256]`; `pad` gives the bytes of `data` the producer did not copy. -/
def EventData.byte (pad : Nat → Nat) (e : EventData) (j : Nat) : Nat :=
  if j < 4 then (le32 e.event_id).getD j 0
  else if j < 8 then (le32 e.timestamp).getD (j - 4) 0
  else if j < 12 then (le32 e.data_size).getD (j - 8) 0
  else if j - 12 < e.data.length then e.data.getD (j - 12) 0 % 256
  else pad (j - 12) % 256

/-- The number of bytes `sizeof(EventData) * count` the poll copies. -/
def eventCopySize (count : Nat) : Nat := sizeofEventData * count

/-- The byte at offset `i` of the source of
`memcpy(response.event_data.events, events, sizeof(EventData) * count)`, the local array
`events`: byte `i % sizeof(EventData)` of element `i / sizeof(EventData)`. -/
def eventCopyByte (env : Env) (events : List EventData) (i : Nat) : Nat :=
  match events.get? (i / sizeofEventData) with
  | some e => e.byte env.eventPad (i % sizeofEventData)
  | none => 0

/-- The byte at offset `off` of the response frame when the `GET_PENDING_EVENTS` case is
done: the frame is cleared, `event_count` is stored, the polled records are copied to
`event_data.events` when there are any, and `success` is set to 1. -/
def pollFrameByte (env : Env) (h : Host) (request : PipeRequest) (off : Nat) : Nat :=
  let events := (RPCBridge.GetPendingEvents h.bridge request.event.name 10).1
  let count := events.length
  if off = 0 then 1
  else if 4 ≤ off ∧ off < 8 then (le32 count).getD (off - 4) 0
  else if count > 0 ∧ offsetofEventPayload ≤ off ∧
      off < offsetofEventPayload + eventCopySize count then
    eventCopyByte env events (off - offsetofEventPayload)
  else 0

/-! ## Bridge request handlers

Every handler returns its boolean result, the response and the process state. -/

/-- The value of a `bool` stored into the `success` byte. -/
def boolByte (b : Bool) : Nat := if b then 1 else 0

/-- Reinterpretation of the low 32 bits of a value as `int32_t`. -/
def toInt32 (v : Nat) : Int :=
  if v % 2 ^ 32 < 2 ^ 31 then (v % 2 ^ 32 : Nat) else (v % 2 ^ 32 : Nat) - 2 ^ 32

def RPCBridge.HandleScannerRequest (h : Host) (_request : PipeRequest)
    (response : PipeResponse) : Bool × PipeResponse × Host :=
  (false, { response with
    success := 0,
    error_message := "Internal routing error: scanner request reached RPCBridge" }, h)

def RPCBridge.HandleFunctionRequest (env : Env) (h : Host) (request : PipeRequest)
    (response : PipeResponse) : Bool × PipeResponse × Host :=
  if request.type = REGISTER_FUNCTION then
    if request.register_func.address = 0 then
      (true, { response with error_message := "Invalid function address", success := 0 }, h)
    else
      let r := RPCBridge.RegisterFunction env h request.register_func.name
        request.register_func.address request.register_func.param_count
        request.register_func.convention (request.register_func.has_return != 0)
      let response := { response with success := boolByte r.1 }
      (true, if !r.1 then { response with error_message := "Failed to register function" }
             else response, r.2)
  else if request.type = UNREGISTER_FUNCTION then
    let r := RPCBridge.UnregisterFunction h request.call_func.name
    let response := { response with success := boolByte r.1 }
    (true, if !r.1 then { response with error_message := "Function not found" }
           else response, r.2)
  else if request.type = CALL_FUNCTION then
    let result_buffer : Bool :=
      match mapFind h.bridge.functions request.call_func.name with
      | some sig => sig.has_return
      | none => false
    let r := RPCBridge.CallFunction env h.bridge request.call_func.name
      request.call_func.params request.call_func.param_count result_buffer
    let result := r.1
    let int_result : Int := toInt32 (r.2.1.getD 0)
    let response := { response with success := boolByte result }
    let response :=
      if result && result_buffer then
        { response with call_result := { has_return := 1, int_val := int_result } }
      else if !result then { response with error_message := "Function call failed" }
      else response
    (true, response, { h with bridge := r.2.2 })
  else if request.type = LIST_FUNCTIONS then
    let names := (h.bridge.functions.map (fun e => e.1)).take 20
    (true, { response with
      function_list := { count := names.length, names := names },
      success := 1 }, h)
  else (false, response, h)

def RPCBridge.HandleMemoryRequest (env : Env) (h : Host) (request : PipeRequest)
    (response : PipeResponse) : Bool × PipeResponse × Host :=
  if request.type = ALLOCATE_MEMORY then
    if request.memory.size = 0 ∨ request.memory.size > MAX_ALLOC_SIZE then
      (true, { response with error_message := "Invalid allocation size", success := 0 }, h)
    else
      let r := RPCBridge.AllocateMemory env h request.memory.size request.memory.protection
      let addr := r.1
      let response := { response with
        memory_result := { response.memory_result with
          address := addr, size := request.memory.size },
        success := if addr ≠ 0 then 1 else 0 }
      (true, if addr = 0 then { response with error_message := "Memory allocation failed" }
             else response, r.2)
  else if request.type = FREE_MEMORY then
    if request.memory.address = 0 then
      (true, { response with error_message := "Invalid memory address", success := 0 }, h)
    else
      let r := RPCBridge.FreeMemory env h request.memory.address
      let response := { response with success := boolByte r.1 }
      (true, if !r.1 then { response with error_message := "Failed to free memory" }
             else response, r.2)
  else if request.type = WRITE_MEMORY then
    if request.memory.address = 0 ∨ request.memory.size = 0 ∨
        request.memory.size > MAX_WRITE_SIZE then
      (true, { response with error_message := "Invalid write parameters", success := 0 }, h)
    else
      let r := RPCBridge.WriteMemory env h request.memory.address request.memory.data
        request.memory.size
      let response := { response with success := boolByte r.1 }
      (true, if !r.1 then { response with error_message := "Failed to write memory" }
             else response, r.2)
  else if request.type = PROTECT_MEMORY then
    if request.memory.address = 0 ∨ request.memory.size = 0 then
      (true, { response with error_message := "Invalid protect parameters", success := 0 }, h)
    else
      let r := RPCBridge.ProtectMemory h request.memory.address request.memory.size
        request.memory.protection
      let response := { response with success := boolByte r.1 }
      (true, if !r.1 then { response with error_message := "Failed to protect memory" }
             else response, r.2)
  else (false, response, h)

def RPCBridge.HandleHookRequest (env : Env) (h : Host) (request : PipeRequest)
    (response : PipeResponse) : Bool × PipeResponse × Host :=
  if request.type = INSTALL_HOOK then
    if request.hook.target = 0 ∨ request.hook.detour = 0 then
      (true, { response with error_message := "Invalid hook addresses", success := 0 }, h)
    else
      let r := RPCBridge.InstallHook env h request.hook.name request.hook.target
        request.hook.detour
      let response := { response with success := boolByte r.1 }
      (true, if !r.1 then { response with error_message := "Failed to install hook" }
             else response, r.2)
  else if request.type = REMOVE_HOOK then
    let r := RPCBridge.RemoveHook env h request.hook.name
    let response := { response with success := boolByte r.1 }
    (true, if !r.1 then { response with error_message := "Failed to remove hook" }
           else response, r.2)
  else if request.type = ENABLE_HOOK then
    let r := RPCBridge.EnableHook env h request.hook.name
    let response := { response with success := boolByte r.1 }
    (true, if !r.1 then { response with error_message := "Failed to enable hook" }
           else response, r.2)
  else if request.type = DISABLE_HOOK then
    let r := RPCBridge.DisableHook env h request.hook.name
    let response := { response with success := boolByte r.1 }
    (true, if !r.1 then { response with error_message := "Failed to disable hook" }
           else response, r.2)
  else (false, response, h)

/-- The byte at offset `off` of the response frame after
`memcpy(response.event_data.events, events, sizeof(EventData) * count)`, where the frame
held `old` there before: the copy covers `sizeof(EventData) * count` bytes from the offset
of the field on, whatever the size of the field. -/
def copiedFrameByte (env : Env) (events : List EventData) (off old : Nat) : Nat :=
  if offsetofEventPayload ≤ off ∧ off < offsetofEventPayload + eventCopySize events.length then
    eventCopyByte env events (off - offsetofEventPayload)
  else old

/-- The string a character array holds: its characters before the first NUL. -/
def cString (bytes : List Nat) : String :=
  String.mk ((bytes.takeWhile (fun b => b != 0)).map Char.ofNat)

/-- Byte `j` of a character array of a cleared frame into which the string `s` was copied. -/
def stringByte (s : String) (j : Nat) : Nat := (s.toList.map Char.toNat).getD j 0

/-- A character array of `size` bytes at frame offset `offset`, holding `old`, after the
event copy: unchanged when the copy ends before it. -/
def copiedString (env : Env) (events : List EventData) (offset size : Nat) (old : String) :
    String :=
  if offset < offsetofEventPayload + eventCopySize events.length then
    cString ((List.range size).map
      (fun j => copiedFrameByte env events (offset + j) (stringByte old j)))
  else old

/-- An unsigned integer member of `n` bytes at frame offset `offset`, holding `old`, after
the event copy: unchanged when the copy ends before it. -/
def copiedWord (env : Env) (events : List EventData) (offset n : Nat) (old : Nat) : Nat :=
  if offset < offsetofEventPayload + eventCopySize events.length then
    leValue ((List.range n).map
      (fun j => copiedFrameByte env events (offset + j) (old / 256 ^ j % 256)))
  else old

/-- An `int32_t` member at frame offset `offset`, holding `old`, after the event copy. -/
def copiedInt32 (env : Env) (events : List EventData) (offset : Nat) (old : Int) : Int :=
  if offset < offsetofEventPayload + eventCopySize events.length then
    toInt32 (copiedWord env events offset 4 (toUnsigned 32 old))
  else old

/-- The statement `memcpy(response.event_data.events, events, sizeof(EventData) * count)`
on the members of the frame: `event_data.events` receives the records (from the fourth
record on they lie behind the 1024 bytes of the field, in the rest of the union), and the
members behind the union, `server_status`, `dll_status` and `error_message`, receive the
bytes of the copy that run over them (from 8, 9 and 10 records on). -/
def eventCopy (env : Env) (events : List EventData) (response : PipeResponse) :
    PipeResponse :=
  { response with
    event_data := { response.event_data with events := events },
    server_status :=
      { status := copiedInt32 env events offsetofServerStatus response.server_status.status,
        client_count := copiedWord env events (offsetofServerStatus + 4) 4
          response.server_status.client_count,
        uptime_ms := copiedWord env events (offsetofServerStatus + 8) 8
          response.server_status.uptime_ms,
        pipe_name := copiedString env events (offsetofServerStatus + 16) 256
          response.server_status.pipe_name },
    dll_status :=
      { status := copiedInt32 env events offsetofDllStatus response.dll_status.status,
        version := copiedWord env events (offsetofDllStatus + 4) 4
          response.dll_status.version,
        build_info := copiedString env events (offsetofDllStatus + 8) 256
          response.dll_status.build_info },
    error_message := copiedString env events offsetofErrorMessage 256
      response.error_message }

/-- The event handler.  The poll case copies the polled records into the response with a
byte copy that is sized by the number of records; `eventCopy` gives what it does to the
members of the frame. -/
def RPCBridge.HandleEventRequest (env : Env) (h : Host) (request : PipeRequest)
    (response : PipeResponse) : Bool × PipeResponse × Host :=
  if request.type = REGISTER_EVENT_BUFFER then
    if request.event.buffer_address = 0 ∨ request.event.buffer_size = 0 then
      (true, { response with error_message := "Invalid event buffer parameters",
                             success := 0 }, h)
    else
      let r := RPCBridge.RegisterEventBuffer h request.event.name
        request.event.buffer_address request.event.buffer_size request.event.max_events
      let response := { response with success := boolByte r.1 }
      (true, if !r.1 then { response with error_message := "Failed to register event buffer" }
             else response, r.2)
  else if request.type = UNREGISTER_EVENT_BUFFER then
    let r := RPCBridge.UnregisterEventBuffer h request.event.name
    let response := { response with success := boolByte r.1 }
    (true, if !r.1 then { response with error_message := "Failed to unregister event buffer" }
           else response, r.2)
  else if request.type = GET_PENDING_EVENTS then
    let r := RPCBridge.GetPendingEvents h.bridge request.event.name 10
    let count := r.1.length
    let response := { response with
      event_data := { response.event_data with event_count := count } }
    let response := if count > 0 then eventCopy env r.1 response else response
    (true, { response with success := 1 }, { h with bridge := r.2 })
  else (false, response, h)

/-! ## Endpoint server control -/

/-- The method `NamedPipeServer::Stop`, as far as the modelled members go. -/
def NamedPipeServer.Stop (s : NamedPipeServer) : NamedPipeServer :=
  if !s.running then s else { s with running := false }

/-- The method `NamedPipeServer::Start`. -/
def NamedPipeServer.Start (env : Env) (s : NamedPipeServer) (pipeNameParam : String) :
    Bool × NamedPipeServer :=
  let actualPipeName := if pipeNameParam.isEmpty then env.GetPipeName else pipeNameParam
  if s.running then (false, s)
  else
    let s1 : NamedPipeServer :=
      { s with pipeName := actualPipeName, clientCount := 0, totalConnections := 0,
               startTime := env.now, running := true }
    if env.threadStartOk then (true, s1) else (false, { s1 with running := false })

/-- The method `NamedPipeServer::GetUptimeMs`. -/
def NamedPipeServer.GetUptimeMs (env : Env) (s : NamedPipeServer) : Nat :=
  if !s.running then 0 else env.now - s.startTime

/-- The handler of the server-control requests.  It runs on the per-client worker that
serves the request.  `Stop` clears the running flag and then joins every thread of
`clientThreads`, the calling worker among them: that join throws `std::system_error`, which
leaves `Stop` and the handler; `RPCBridge::HandleRequest` catches it, stores `e.what()` in
the error message and returns false.  A stop or restart of a running server therefore ends
with the server stopped and the result false. -/
def RPCBridge.HandleServerControlRequest (env : Env) (h : Host) (request : PipeRequest)
    (response : PipeResponse) : Bool × PipeResponse × Host :=
  if request.type = SERVER_STATUS then
    (true, { response with
      success := 1,
      server_status :=
        { status := if h.server.running then 1 else 0,
          client_count := h.server.clientCount,
          uptime_ms := h.server.GetUptimeMs env,
          pipe_name := h.server.pipeName.take 255 } }, h)
  else if request.type = SERVER_STOP then
    if h.server.running then
      (false, { response with error_message := env.selfJoinWhat },
        { h with server := h.server.Stop })
    else
      (true, { response with success := 0, error_message := "Server is not running" }, h)
  else if request.type = SERVER_START then
    if !h.server.running then
      let pipeName := if request.server_control.pipe_name.length > 0
        then request.server_control.pipe_name else env.GetPipeName
      let r := h.server.Start env pipeName
      if r.1 then (true, { response with success := 1 }, { h with server := r.2 })
      else (true, { response with success := 0, error_message := "Failed to start server" },
            { h with server := r.2 })
    else
      (true, { response with success := 0, error_message := "Server is already running" }, h)
  else if request.type = SERVER_RESTART then
    if h.server.running then
      (false, { response with error_message := env.selfJoinWhat },
        { h with server := h.server.Stop })
    else
      let pipeName := if request.server_control.pipe_name.length > 0
        then request.server_control.pipe_name else env.GetPipeName
      let r := h.server.Start env pipeName
      if r.1 then (true, { response with success := 1 }, { h with server := r.2 })
      else (true, { response with success := 0, error_message := "Failed to restart server" },
            { h with server := r.2 })
  else (false, response, h)

def DLL_VERSION : Nat := (1 <<< 16) ||| (0 <<< 8) ||| 0

def RPCBridge.HandleDLLControlRequest (env : Env) (h : Host) (request : PipeRequest)
    (response : PipeResponse) : Bool × PipeResponse × Host :=
  if request.type = DLL_STATUS then
    (true, { response with
      success := 1,
      dll_status :=
        { status := h.g_dllState.toInt,
          version := DLL_VERSION,
          build_info := "v1.0.0 " ++ (if env.debugBuild then "Debug" else "Release") } }, h)
  else if request.type = DLL_DETACH then
    (true, { response with success := 1 }, { h with g_dllState := RequestShutdown h.g_dllState })
  else (false, response, h)

/-! ## Bulk reads and heartbeat -/

/-- The inner switch of `HandleArrayRequest`: element size of an element type. -/
def elementSizeOf (env : Env) (elementType : Nat) : Option Nat :=
  if elementType = PARAM_INT8 then some 1
  else if elementType = PARAM_INT16 then some 2
  else if elementType = PARAM_INT32 then some 4
  else if elementType = PARAM_INT64 then some 8
  else if elementType = PARAM_FLOAT then some 4
  else if elementType = PARAM_DOUBLE then some 8
  else if elementType = PARAM_POINTER then some env.ptrBytes
  else none

/-- The array handler.  When the guarded copy faults the payload field keeps its previous
content in the model. -/
def RPCBridge.HandleArrayRequest (env : Env) (h : Host) (request : PipeRequest)
    (response : PipeResponse) : Bool × PipeResponse × Host :=
  if request.type = READ_MEMORY_ARRAY then
    let address := request.array_read.address
    let elementType := request.array_read.element_type
    let elementCount := request.array_read.element_count
    match elementSizeOf env elementType with
    | none => (true, { response with error_message := "Invalid element type", success := 0 }, h)
    | some elementSize =>
      if elementCount > 0 ∧ elementSize > 2048 / elementCount then
        (true, { response with error_message := "Array too large (overflow)",
                               success := 0 }, h)
      else
        let totalSize := (elementSize * elementCount) % 2 ^ 32
        if totalSize > 2048 then
          (true, { response with error_message := "Array too large (max 2048 bytes)",
                                 success := 0 }, h)
        else if address = 0 then
          (true, { response with error_message := "Invalid address (null)", success := 0 }, h)
        else
          match h.memory.tryCopyOut address totalSize with
          | none =>
            (true, { response with error_message := "Memory read exception", success := 0 }, h)
          | some bytes =>
            (true, { response with
              array_result :=
                { element_type := elementType, element_count := elementCount,
                  element_size := elementSize, total_size := totalSize, data := bytes },
              success := 1 }, h)
  else
    (false, { response with error_message := "Unknown array request type", success := 0 }, h)

/-- The loop of `HandleBatchReadRequest` from index `i` with `n` iterations left; the state
is the batch arm of the response and the counter `successCount`. -/
def batchReadLoop (m : Memory) (req : BatchReadArm) :
    Nat → Nat → BatchResult × Nat → BatchResult × Nat
  | 0, _, st => st
  | n + 1, i, st =>
    let addr := req.addresses.getD i 0
    let size := req.sizes.getD i 0
    if size ≠ 1 ∧ size ≠ 2 ∧ size ≠ 4 ∧ size ≠ 8 then batchReadLoop m req n (i + 1) st
    else if addr = 0 then batchReadLoop m req n (i + 1) st
    else
      match m.tryLoad addr size with
      | some value =>
        batchReadLoop m req n (i + 1)
          ({ st.1 with
              values := st.1.values.set i value,
              success_mask := st.1.success_mask.set (i / 8)
                ((st.1.success_mask.getD (i / 8) 0 ||| (1 <<< (i % 8))) % 256) },
           (st.2 + 1) % 256)
      | none => batchReadLoop m req n (i + 1) st

def RPCBridge.HandleBatchReadRequest (h : Host) (request : PipeRequest)
    (response : PipeResponse) : Bool × PipeResponse × Host :=
  let count := request.batch_read.count
  if count = 0 ∨ count > 32 then
    (true, { response with error_message := "Invalid batch count (must be 1-32)",
                           success := 0 }, h)
  else
    let start : BatchResult :=
      { count := count, success_mask := [0, 0, 0, 0], values := List.replicate 32 0 }
    let r := batchReadLoop h.memory request.batch_read count 0 (start, 0)
    (true, { response with batch_result := r.1, success := if r.2 > 0 then 1 else 0 }, h)

def RPCBridge.HandleHeartbeatRequest (env : Env) (h : Host) (request : PipeRequest)
    (response : PipeResponse) : Bool × PipeResponse × Host :=
  let clientTimestamp := request.heartbeat.client_timestamp
  let serverTimestamp := env.tick % 2 ^ 32
  (true, { response with
    heartbeat_result :=
      { client_timestamp := clientTimestamp,
        server_timestamp := serverTimestamp,
        latency_ms := if clientTimestamp > 0 then sub32 serverTimestamp clientTimestamp
                      else 0 },
    success := 1 }, h)

/-! ## Bridge dispatcher (`RPCBridge::HandleRequest`) -/

/-- The handlers a request can be routed to; `inlineCase` stands for a case block of the
switch inside `NamedPipeServer::HandleRequest`. -/
inductive Handler where
  | HandleServerControlRequest
  | HandleDLLControlRequest
  | HandleScannerRequest
  | HandleFunctionRequest
  | HandleMemoryRequest
  | HandleHookRequest
  | HandleEventRequest
  | HandleArrayRequest
  | HandleBatchReadRequest
  | HandleHeartbeatRequest
  | inlineCase (type : Int)
deriving DecidableEq, Repr

/-- Result of a dispatch: response, process state, and the handlers that were invoked. -/
structure Dispatched where
  response : PipeResponse
  host : Host
  handlers : List Handler

/-- The response frame after `memset(&response, 0, sizeof(response))`. -/
def zeroResponse : PipeResponse := {}

/-- The bridge dispatcher.  The incoming response is cleared first (`memset`). -/
def RPCBridge.HandleRequest (env : Env) (h : Host) (request : PipeRequest)
    (_response : PipeResponse) : Bool × Dispatched :=
  let response : PipeResponse := zeroResponse
  let t := request.type
  let run (r : Bool × PipeResponse × Host) (k : Handler) : Bool × Dispatched :=
    (r.1, { response := r.2.1, host := r.2.2, handlers := [k] })
  if t = SERVER_STATUS ∨ t = SERVER_STOP ∨ t = SERVER_START ∨ t = SERVER_RESTART then
    run (RPCBridge.HandleServerControlRequest env h request response)
      Handler.HandleServerControlRequest
  else if t = DLL_DETACH ∨ t = DLL_STATUS then
    run (RPCBridge.HandleDLLControlRequest env h request response)
      Handler.HandleDLLControlRequest
  else if t = SCAN_FIND ∨ t = SCAN_FIND_ASSERTION ∨ t = SCAN_FIND_IN_RANGE ∨
      t = SCAN_TO_FUNCTION_START ∨ t = SCAN_FUNCTION_FROM_NEAR_CALL ∨ t = READ_MEMORY ∨
      t = GET_SECTION_INFO then
    run (RPCBridge.HandleScannerRequest h request response) Handler.HandleScannerRequest
  else if t = REGISTER_FUNCTION ∨ t = UNREGISTER_FUNCTION ∨ t = CALL_FUNCTION ∨
      t = LIST_FUNCTIONS then
    run (RPCBridge.HandleFunctionRequest env h request response) Handler.HandleFunctionRequest
  else if t = ALLOCATE_MEMORY ∨ t = FREE_MEMORY ∨ t = WRITE_MEMORY ∨ t = PROTECT_MEMORY then
    run (RPCBridge.HandleMemoryRequest env h request response) Handler.HandleMemoryRequest
  else if t = INSTALL_HOOK ∨ t = REMOVE_HOOK ∨ t = ENABLE_HOOK ∨ t = DISABLE_HOOK then
    run (RPCBridge.HandleHookRequest env h request response) Handler.HandleHookRequest
  else if t = GET_PENDING_EVENTS ∨ t = REGISTER_EVENT_BUFFER ∨
      t = UNREGISTER_EVENT_BUFFER then
    run (RPCBridge.HandleEventRequest env h request response) Handler.HandleEventRequest
  else if t = READ_MEMORY_ARRAY then
    run (RPCBridge.HandleArrayRequest env h request response) Handler.HandleArrayRequest
  else if t = BATCH_READ_MEMORY then
    run (RPCBridge.HandleBatchReadRequest h request response) Handler.HandleBatchReadRequest
  else if t = HEARTBEAT then
    run (RPCBridge.HandleHeartbeatRequest env h request response)
      Handler.HandleHeartbeatRequest
  else
    (false, { response := { response with error_message := "Unknown request type" },
              host := h, handlers := [] })

/-! ## Endpoint dispatcher (`NamedPipeServer::HandleRequest`) -/

/-- The message `sprintf_s(.., "Invalid pointer at step %d (0x%08X)", i, currentAddress)`. -/
def invalidPointerMessage (i currentAddress : Nat) : String :=
  "Invalid pointer at step " ++ toString i ++ " (0x" ++ hex08 currentAddress ++ ")"

/-- The message `sprintf_s(.., "Invalid final address: 0x%08X", currentAddress)`. -/
def invalidFinalMessage (currentAddress : Nat) : String :=
  "Invalid final address: 0x" ++ hex08 currentAddress

/-- The loop of the `READ_POINTER_CHAIN` case from step `i` with `n` steps left; the state is
`currentAddress` and the response.  `offsets` holds the 16 slots of the request (a slot that
the list does not give reads as 0). -/
def pointerChainLoop (env : Env) (m : Memory) (offsets : List Int) :
    Nat → Nat → Nat × PipeResponse → Nat × PipeResponse
  | 0, _, st => st
  | n + 1, i, st =>
    if IsBadReadPtr m st.1 env.ptrBytes then
      (st.1, { st.2 with success := 0, error_message := invalidPointerMessage i st.1 })
    else
      let nextAddress := m.load st.1 env.ptrBytes
      pointerChainLoop env m offsets n (i + 1)
        (ptrAdd env.ptrBytes nextAddress (offsets.getD i 0), st.2)

/-- The case `READ_POINTER_CHAIN`. -/
def caseReadPointerChain (env : Env) (m : Memory) (request : PipeRequest)
    (response : PipeResponse) : PipeResponse :=
  let pc := request.pointer_chain
  if pc.offset_count > 16 then
    { response with success := 0, error_message := "Too many offsets (max 16)" }
  else if pc.final_size ≠ 1 ∧ pc.final_size ≠ 2 ∧ pc.final_size ≠ 4 ∧ pc.final_size ≠ 8 then
    { response with success := 0,
                    error_message := "Invalid final_size (must be 1, 2, 4, or 8)" }
  else
    let st := pointerChainLoop env m pc.offsets pc.offset_count 0 (pc.base_address, response)
    let currentAddress := st.1
    let response := st.2
    if response.success = 0 ∧ response.error_message.length > 0 then response
    else if IsBadReadPtr m currentAddress pc.final_size then
      { response with success := 0, error_message := invalidFinalMessage currentAddress }
    else
      let value :=
        if pc.final_size = 1 then m.load currentAddress 1
        else if pc.final_size = 2 then m.load currentAddress 2
        else if pc.final_size = 4 then m.load currentAddress 4
        else if pc.final_size = 8 then m.load currentAddress 8
        else 0
      { response with
        pointer_chain_result := { final_address := currentAddress, value := value },
        success := 1 }

/-- The shared tail of the scan cases: store the address, set success, or the message. -/
def scanOutcome (response : PipeResponse) (address : Nat) (notFound : String) :
    PipeResponse :=
  let response := { response with scan_result_address := address,
                                  success := if address ≠ 0 then 1 else 0 }
  if response.success ≠ 0 then response else { response with error_message := notFound }

/-- The case `READ_MEMORY`. -/
def caseReadMemory (m : Memory) (request : PipeRequest) (response : PipeResponse) :
    PipeResponse :=
  if request.memory.address ≠ 0 ∧ request.memory.size > 0 ∧ request.memory.size ≤ 1024 then
    if !IsBadReadPtr m request.memory.address request.memory.size then
      { response with
        memory_result :=
          { data := m.bytes request.memory.address request.memory.size,
            address := request.memory.address, size := request.memory.size },
        success := 1 }
    else { response with success := 0, error_message := "Invalid memory address" }
  else { response with success := 0, error_message := "Invalid read parameters" }

/-- The switch over the scanner request kinds; `none` for the default label. -/
def legacySwitch (env : Env) (m : Memory) (request : PipeRequest) (response : PipeResponse) :
    Option PipeResponse :=
  let t := request.type
  if t = SCAN_FIND then
    let patternLength :=
      if request.scan.pattern_length = 0 ∨ request.scan.pattern_length > 256
      then request.scan.mask.length else request.scan.pattern_length
    some (scanOutcome response
      (env.Scanner_Find (request.scan.pattern.take patternLength)
        (if request.scan.mask.length > 0 then some request.scan.mask else none)
        request.scan.offset request.scan.sectionId) "Pattern not found")
  else if t = SCAN_FIND_ASSERTION then
    some (scanOutcome response
      (env.Scanner_FindAssertion request.assertion.assertion_file
        request.assertion.assertion_msg request.assertion.line_number
        request.assertion.offset) "Assertion not found")
  else if t = SCAN_FIND_IN_RANGE then
    let patternLength :=
      if request.range.pattern_length = 0 ∨ request.range.pattern_length > 256
      then request.range.mask.length else request.range.pattern_length
    some (scanOutcome response
      (env.Scanner_FindInRange (request.range.pattern.take patternLength)
        (if request.range.mask.length > 0 then some request.range.mask else none)
        request.range.offset request.range.start_address request.range.end_address)
      "Pattern not found in range")
  else if t = SCAN_TO_FUNCTION_START then
    some (scanOutcome response
      (env.Scanner_ToFunctionStart request.memory.address
        (if request.memory.size > 0 then request.memory.size else 0xff))
      "Function start not found")
  else if t = SCAN_FUNCTION_FROM_NEAR_CALL then
    some (scanOutcome response
      (env.Scanner_FunctionFromNearCall request.memory.address true)
      "Function address not found")
  else if t = READ_MEMORY then some (caseReadMemory m request response)
  else if t = GET_SECTION_INFO then
    let range := env.Scanner_GetSectionAddressRange request.scan.sectionId
    let response := { response with
      section_info := { start := range.1, end_ := range.2 },
      success := if range.1 ≠ 0 ∧ range.2 ≠ 0 then 1 else 0 }
    some (if response.success ≠ 0 then response
          else { response with error_message := "Section not found" })
  else if t = READ_POINTER_CHAIN then some (caseReadPointerChain env m request response)
  else none

/-- The endpoint dispatcher `NamedPipeServer::HandleRequest`. -/
def NamedPipeServer.HandleRequest (env : Env) (h : Host) (request : PipeRequest)
    (response : PipeResponse) : Dispatched :=
  if !h.server.running || IsDllShuttingDown h.g_dllState then
    { response := { response with success := 0, error_message := "Server is shutting down" },
      host := h, handlers := [] }
  else if request.type ≥ REGISTER_FUNCTION then
    let r := RPCBridge.HandleRequest env h request response
    if r.1 then r.2
    else
      let response := { r.2.response with success := 0 }
      { r.2 with response :=
          if response.error_message.length = 0
          then { response with error_message := "RPC Bridge failed" } else response }
  else
    match legacySwitch env h.memory request response with
    | some response =>
      { response := response, host := h, handlers := [Handler.inlineCase request.type] }
    | none =>
      { response := { response with success := 0, error_message := "Unknown request type" },
        host := h, handlers := [] }

/-- One request as the per-client worker serves it: the response frame is cleared, then
the endpoint dispatcher fills it. -/
def dispatch (env : Env) (h : Host) (request : PipeRequest) : Dispatched :=
  NamedPipeServer.HandleRequest env h request zeroResponse

/-! ## Reference definitions and sample states used by the properties -/

/-- The pointer-chain walk as the specification words it: starting from `cur`, for each
offset the pointer-sized slot at `cur` must be readable, and `cur` becomes the pointer loaded
from it plus the offset, the sum wrapping at the pointer width. -/
def chainWalk (ptrBytes : Nat) (m : Memory) : List Int → Nat → Option Nat
  | [], cur => some cur
  | o :: os, cur =>
    if m.rangeReadable cur ptrBytes then
      chainWalk ptrBytes m os (Int.toNat (((m.load cur ptrBytes : Nat) + o) % 2 ^ (8 * ptrBytes)))
    else none

/-- A memory whose only committed region starts at `base`, holds `content` and has protection
`prot`. -/
def regionMemory (base : Nat) (content : List Nat) (prot : Nat) : Memory :=
  { protect := fun a => if base ≤ a ∧ a < base + content.length then some prot else none,
    byte := fun a => if base ≤ a ∧ a < base + content.length then content.getD (a - base) 0
                     else 0 }

/-- The region of the pointer-chain scenario: 32 bytes at `0x1000` holding the pointer
`0x1008` at offset 0, the pointer `0x1010` at offset 8 and the value `0x11223344` at
offset 16. -/
def chainScenarioMemory : Memory :=
  regionMemory 0x1000
    [0x08, 0x10, 0, 0, 0, 0, 0, 0, 0x10, 0x10, 0, 0, 0, 0, 0, 0,
     0x44, 0x33, 0x22, 0x11, 0, 0, 0, 0, 0, 0, 0, 0, 0, 0, 0, 0] PAGE_READWRITE

/-- A pointer-chain request with the given base, offsets (followed by `rest` in the unused
slots) and final size. -/
def pointerChainRequest (base : Nat) (offs rest : List Int) (w : Nat) : PipeRequest :=
  { type := READ_POINTER_CHAIN,
    pointer_chain := { base_address := base, offset_count := offs.length, final_size := w,
                       offsets := offs ++ rest } }

/-- A running host over the memory of the pointer-chain scenario. -/
def chainScenarioHost : Host :=
  { g_dllState := DllState.Running, server := { running := true },
    memory := chainScenarioMemory }

/-- Bit `i` of the success mask: bit `i % 8` of byte `i / 8`. -/
def maskBit (mask : List Nat) (i : Nat) : Bool := (mask.getD (i / 8) 0).testBit (i % 8)

/-- Entry `i` of a batch read as the specification words it: its size is 1, 2, 4 or 8, its
address is not null and the location is readable. -/
def batchEntryOk (m : Memory) (req : BatchReadArm) (i : Nat) : Bool :=
  (req.sizes.getD i 0 == 1 || req.sizes.getD i 0 == 2 || req.sizes.getD i 0 == 4 ||
    req.sizes.getD i 0 == 8) &&
  (req.addresses.getD i 0 != 0) &&
  m.rangeReadable (req.addresses.getD i 0) (req.sizes.getD i 0)

/-- A batch-read request. -/
def batchReadRequest (arm : BatchReadArm) : PipeRequest :=
  { type := BATCH_READ_MEMORY, batch_read := arm }

/-- The loop invariant of the batch read after the entries below `k` were processed. -/
def BatchInv (m : Memory) (req : BatchReadArm) (k : Nat) (st : BatchResult × Nat) : Prop :=
  st.1.success_mask.length = 4 ∧ st.1.values.length = 32 ∧
  (∀ j, j < 32 → maskBit st.1.success_mask j = (decide (j < k) && batchEntryOk m req j)) ∧
  (∀ j, j < 32 → st.1.values.getD j 0 =
    if j < k ∧ batchEntryOk m req j = true
    then m.load (req.addresses.getD j 0) (req.sizes.getD j 0) else 0) ∧
  st.2 ≤ k ∧ (0 < st.2 ↔ ∃ j, j < k ∧ batchEntryOk m req j = true)

/-- The host of the batch-read scenario: 16 bytes `0x00 .. 0x0F` at `0x2000`. -/
def batchScenarioHost : Host :=
  { g_dllState := DllState.Running, server := { running := true },
    memory := regionMemory 0x2000 (List.range 16) PAGE_READWRITE }

/-- The batch of the scenario: `(A,1), (A+2,2), (A+4,4), (A+8,8), (null,4)`. -/
def batchScenarioArm : BatchReadArm :=
  { count := 5, sizes := [1, 2, 4, 8, 4],
    addresses := [0x2000, 0x2002, 0x2004, 0x2008, 0] }

/-- An array-read request. -/
def arrayReadRequest (address elementType count : Nat) : PipeRequest :=
  { type := READ_MEMORY_ARRAY,
    array_read := { address := address, element_type := elementType, element_count := count } }

/-- The write-memory request that carries the array `arr` to `address` in one message:
the size is the length of the array and its bytes lie in the message from the payload
field on, the first 1024 in the field and the others behind it. -/
def arrayWriteRequest (address : Nat) (arr : List Nat) : PipeRequest :=
  { type := WRITE_MEMORY,
    memory := { address := address, size := arr.length, data := arr } }

/-- A write-memory request whose message ends with the payload field: the size is the
length of `arr` and the field holds the first 1024 bytes of `arr`.  For a longer `arr` the
size announces more bytes than the message carries. -/
def writeRequest (address : Nat) (arr : List Nat) : PipeRequest :=
  { type := WRITE_MEMORY,
    memory := { address := address, size := arr.length, data := arr.take 1024 } }

/-- A running host whose memory is given. -/
def runningHost (m : Memory) : Host :=
  { g_dllState := DllState.Running, server := { running := true }, memory := m }

/-- A memory with nothing committed. -/
def emptyMemory : Memory := { protect := fun _ => none, byte := fun _ => 0 }

/-- A running host with 2048 writable zero bytes at `0x4000`. -/
def roundtripHost : Host :=
  runningHost (regionMemory 0x4000 (List.replicate 2048 0) PAGE_READWRITE)

/-- An array of 1025 one-byte elements: 1024 zeros followed by a one. -/
def longArray : List Nat := List.replicate 1024 0 ++ [1]

/-- One call of the producer: the tick environment, the event id, the data pointer and the
data size. -/
structure Push where
  env : Env
  event_id : Nat
  data : Option (List Nat)
  data_size : Nat

/-- The producer calls `PushEvent` once for every element of `pushes`, in order. -/
def pushAll (b : RPCBridge) (name : String) : List Push → RPCBridge
  | [] => b
  | p :: ps => pushAll (RPCBridge.PushEvent p.env b name p.event_id p.data p.data_size) name ps

/-- The event records of a list of producer calls, in push order. -/
def pushedEvents (pushes : List Push) : List EventData :=
  pushes.map (fun p => makeEvent p.env p.event_id p.data p.data_size)

/-- The queue of the ring registered under `name`, if there is one. -/
def ringEvents (b : RPCBridge) (name : String) : Option (List EventData) :=
  (mapFind b.event_buffers name).map (fun eb => eb.pending_events)

/-- The capacity a ring registered with `c` gets: `c`, or 100 when `c` is 0. -/
def ringCapacity (c : Nat) : Nat := if c = 0 then 100 else c

/-- The last `k` elements of a list, in order. -/
def lastN {α : Type} (k : Nat) (l : List α) : List α := l.drop (l.length - k)

/-- A host with one committed page at `0x5000`, used to register event rings. -/
def ringHost : Host := runningHost (regionMemory 0x5000 (List.replicate 16 0) PAGE_READWRITE)

/-- Five producer calls with the ids 1 to 5 and no payload. -/
def fivePushes : List Push :=
  [1, 2, 3, 4, 5].map (fun i => { env := {}, event_id := i, data := none, data_size := 0 })

/-- The bridge after registering ring `E` with capacity 3 and pushing the ids 1 to 5. -/
def ringScenario : RPCBridge :=
  pushAll (RPCBridge.RegisterEventBuffer ringHost "E" 0x5000 16 3).2.bridge "E" fivePushes

/-- A heartbeat request with client timestamp `t`. -/
def heartbeatRequest (t : Nat) : PipeRequest :=
  { type := HEARTBEAT, heartbeat := { client_timestamp := t } }

/-- A host whose endpoint server still runs while the lifecycle state is `Stopped`. -/
def stoppedHost : Host :=
  { g_dllState := DllState.Stopped, server := { running := true }, memory := emptyMemory }

/-- An allocation request for `size` bytes with protection `protection`. -/
def allocateRequest (size protection : Nat) : PipeRequest :=
  { type := ALLOCATE_MEMORY, memory := { size := size, protection := protection } }

/-- A free request for the block at `address`. -/
def freeRequest (address : Nat) : PipeRequest :=
  { type := FREE_MEMORY, memory := { address := address } }

/-- A running host whose allocation registry holds one 8-byte block at `0x7000`. -/
def oneBlockHost : Host :=
  { g_dllState := DllState.Running, server := { running := true }, memory := emptyMemory,
    bridge := { allocations :=
      [(0x7000, { address := 0x7000, size := 8, original_protection := PAGE_READWRITE })] } }

/-- An environment whose allocator hands out the address `0x7000`. -/
def allocAt7000 : Env := { VirtualAlloc := fun _ _ => 0x7000 }

/-! ## Call marshalling (`CallStdcall`, `CallCdecl`, `CallThiscall`) -/

/-- A parameter record read past the end of a parameter list. -/
def noParam : FunctionParam := { type := 0, raw := [] }

/-- The first `n` bytes of the value union of a parameter. -/
def FunctionParam.bytes (p : FunctionParam) (n : Nat) : List Nat :=
  (List.range n).map (fun i => p.raw.getD i 0 % 256)

/-- The union member `int32_val`. -/
def FunctionParam.int32_val (p : FunctionParam) : Int := toInt32 (leValue (p.bytes 4))

/-- The union member `ptr_val`; `*(uintptr_t*)&float_val` reads the same bytes. -/
def FunctionParam.ptr_val (env : Env) (p : FunctionParam) : Nat := leValue (p.bytes env.ptrBytes)

/-- One native call made by a marshaller. -/
structure Invocation where
  address : Nat
  convention : Nat
  args : List Nat
deriving DecidableEq, Repr

/-- What running a marshaller or an invoker gives: the boolean it returns (`none` when an
exception leaves it), the value stored through the result pointer, and the native calls it
made, in order. -/
structure MarshalResult where
  result : Option Bool
  stored : Option Nat := none
  invocations : List Invocation := []

/-- The body of the parameter switch of `CallStdcall` and `CallCdecl` for parameter `i`:
the argument word, or `none` for the default label (unsupported type). -/
def stdcallArg (env : Env) (i : Nat) (p : FunctionParam) : Option Nat :=
  if p.type = PARAM_INT8 ∨ p.type = PARAM_INT16 ∨ p.type = PARAM_INT32 then
    some (toUnsigned (8 * env.ptrBytes) p.int32_val)
  else if p.type = PARAM_POINTER then some (p.ptr_val env)
  else if p.type = PARAM_FLOAT then some (p.ptr_val env)
  else if p.type = PARAM_STRING then some (env.paramBuffer i)
  else if p.type = PARAM_WSTRING then some (env.paramBuffer i)
  else none

/-- The conversion loop of `CallStdcall` and `CallCdecl` from index `i` with `n` iterations
left: the words stored into `args` so far, or `none` when the loop returns false. -/
def lowerLoop (env : Env) (params : List FunctionParam) : Nat → Nat → List Nat → Option (List Nat)
  | 0, _, args => some args
  | n + 1, i, args =>
    match stdcallArg env i (params.getD i noParam) with
    | none => none
    | some w => lowerLoop env params n (i + 1) (args ++ [w])

/-- The body of the parameter switch of `CallThiscall`: every type other than pointer is
read through `int32_val`. -/
def thiscallArg (env : Env) (p : FunctionParam) : Nat :=
  if p.type = PARAM_INT32 then toUnsigned (8 * env.ptrBytes) p.int32_val
  else if p.type = PARAM_POINTER then p.ptr_val env
  else toUnsigned (8 * env.ptrBytes) p.int32_val

/-- The conversion loop of `CallThiscall`, which has no failure exit. -/
def thiscallLoop (env : Env) (params : List FunctionParam) : Nat → Nat → List Nat → List Nat
  | 0, _, args => args
  | n + 1, i, args =>
    thiscallLoop env params n (i + 1) (args ++ [thiscallArg env (params.getD i noParam)])

/-- The guarded call through the trampoline for `count` arguments: the words `args[0]` to
`args[count - 1]` of the zero-initialised array are passed. -/
def invokeNative (env : Env) (func : FunctionSignature) (conv : Nat) (args : List Nat)
    (count : Nat) (has_result_ptr : Bool) : MarshalResult :=
  let words := (List.range count).map (fun i => args.getD i 0)
  let call : Invocation := { address := func.address, convention := conv, args := words }
  match env.native func.address conv words with
  | .returned retval =>
    { result := some true,
      stored := if has_result_ptr && func.has_return then some retval else none,
      invocations := [call] }
  | .accessViolation => { result := some false, invocations := [call] }
  | .thrown => { result := none, invocations := [call] }

def RPCBridge.CallStdcall (env : Env) (func : FunctionSignature) (params : List FunctionParam)
    (has_result_ptr : Bool) : MarshalResult :=
  match lowerLoop env params (min func.param_count 10) 0 [] with
  | none => { result := some false }
  | some args =>
    if func.param_count ≤ 6 then
      invokeNative env func CONV_STDCALL args func.param_count has_result_ptr
    else { result := some false }

def RPCBridge.CallCdecl (env : Env) (func : FunctionSignature) (params : List FunctionParam)
    (has_result_ptr : Bool) : MarshalResult :=
  match lowerLoop env params (min func.param_count 10) 0 [] with
  | none => { result := some false }
  | some args =>
    if func.param_count ≤ 5 then
      invokeNative env func CONV_CDECL args func.param_count has_result_ptr
    else { result := some false }

def RPCBridge.CallThiscall (env : Env) (m : Memory) (func : FunctionSignature)
    (params : List FunctionParam) (has_result_ptr : Bool) : MarshalResult :=
  if func.param_count < 1 then { result := some false }
  else
    let args := thiscallLoop env params (min func.param_count 10) 0 []
    if args.getD 0 0 = 0 then { result := some false }
    else
      match VirtualQuery m (args.getD 0 0) with
      | none => { result := some false }
      | some mbi =>
        if !mbi.committed then { result := some false }
        else if func.param_count ≤ 6 then
          invokeNative env func CONV_THISCALL args func.param_count has_result_ptr
        else { result := some false }

def RPCBridge.CallFastcall (_env : Env) (_func : FunctionSignature)
    (_params : List FunctionParam) (_has_result_ptr : Bool) : MarshalResult :=
  { result := some false }

/-- The invoker `pending->func` that `CallFunction` builds: it looks the function up, checks
the parameter count, runs the marshaller of the convention, and turns any exception into
false. -/
def PendingCall.func (env : Env) (h : Host) (call : PendingCall) : MarshalResult :=
  match mapFind h.bridge.functions call.func_name with
  | none => { result := some false }
  | some sig =>
    if call.params_copy.length ≠ sig.param_count then { result := some false }
    else
      let r : MarshalResult :=
        if sig.convention = CONV_CDECL then
          RPCBridge.CallCdecl env sig call.params_copy call.has_result_ptr
        else if sig.convention = CONV_STDCALL then
          RPCBridge.CallStdcall env sig call.params_copy call.has_result_ptr
        else if sig.convention = CONV_THISCALL then
          RPCBridge.CallThiscall env h.memory sig call.params_copy call.has_result_ptr
        else if sig.convention = CONV_FASTCALL then { result := some false }
        else { result := some false }
      match r.result with
      | none => { r with result := some false }
      | some _ => r

/-! ## Drain of the pending calls (`ProcessPendingCalls`) -/

/-- A promise set by the drain: the call, the value, and what the invoker stored through
the result pointer. -/
structure Resolution where
  call : PendingCall
  value : Bool
  stored : Option Nat := none

/-- What one drain does: the queue it leaves, the promises it sets in the order it sets
them, the calls whose invoker it runs in the order it runs them, and the native calls
made. -/
structure DrainResult where
  pending_calls : List PendingCall
  resolutions : List Resolution
  invoked : List PendingCall
  invocations : List Invocation

/-- The first loop of `ProcessPendingCalls`: every call is popped; one whose deadline is
earlier than `now` has its promise set to false, any other is moved to the local queue.
Returns the promises set and the local queue. -/
def drainFirstLoop (now : Nat) : List PendingCall → List Resolution × List PendingCall
  | [] => ([], [])
  | c :: q =>
    if c.timeout < now then
      ({ call := c, value := false } :: (drainFirstLoop now q).1, (drainFirstLoop now q).2)
    else ((drainFirstLoop now q).1, c :: (drainFirstLoop now q).2)

/-- The second loop of `ProcessPendingCalls`: each call of the local queue is invoked and
its promise set to the outcome, or to false when the invoker throws. -/
def drainSecondLoop (invoke : PendingCall → MarshalResult) :
    List PendingCall → List Resolution × List Invocation
  | [] => ([], [])
  | c :: q =>
    ({ call := c, value := ((invoke c).result).getD false,
       stored := (invoke c).stored } :: (drainSecondLoop invoke q).1,
     (invoke c).invocations ++ (drainSecondLoop invoke q).2)

/-- The drain `ProcessPendingCalls` at time `now`; `invoke` is what `call->func()` does. -/
def RPCBridge.ProcessPendingCalls (invoke : PendingCall → MarshalResult) (now : Nat)
    (pending_calls : List PendingCall) : DrainResult :=
  let first := drainFirstLoop now pending_calls
  let second := drainSecondLoop invoke first.2
  { pending_calls := [],
    resolutions := first.1 ++ second.1,
    invoked := first.2,
    invocations := second.2 }

/-! ## A call request together with the drain that serves it -/

/-- The result pointer the handler passes for a call request: present when the function is
registered with a return value. -/
def callResultBuffer (h : Host) (request : PipeRequest) : Bool :=
  match mapFind h.bridge.functions request.call_func.name with
  | some sig => sig.has_return
  | none => false

/-- The queue after the worker has submitted the call of a call request. -/
def submittedQueue (env : Env) (h : Host) (request : PipeRequest) : List PendingCall :=
  (RPCBridge.CallFunction env h.bridge request.call_func.name request.call_func.params
    request.call_func.param_count (callResultBuffer h request)).2.2.pending_calls

/-- The time at which the wait `future.wait_for(std::chrono::seconds(5))` of the worker
gives up: five seconds after it started. -/
def waitEnd (env : Env) : Nat := env.now + env.submitTime + 5000

/-- The time at which a drain that starts at `t` sets the promise of the call submitted
last: at once when its first loop finds the call expired, and else when the invokers of the
calls it moved to its local queue, this call being the last of them, have returned. -/
def promiseTime (env : Env) (h : Host) (request : PipeRequest) (t : Nat) : Nat :=
  if env.now + 5000 < t then t
  else t + ((drainFirstLoop t (submittedQueue env h request)).2.map env.invokeTime).sum

/-- How the wait of the worker ends when the host thread drains the queue once, starting
at time `drain` after the submission (`none`: no drain within the wait).  A promise set
after the wait has given up is not seen; a call the drain finds expired has its promise set
to false; any other call has it set to the outcome of its invoker. -/
def awaitAfterDrain (env : Env) (h : Host) (request : PipeRequest) (drain : Option Nat) :
    AwaitOutcome :=
  match drain with
  | none => .timedOut
  | some t =>
    if waitEnd env < promiseTime env h request t then .timedOut
    else if env.now + 5000 < t then .ready false none
    else
      match ((RPCBridge.ProcessPendingCalls (fun c => c.func env h) t
          (submittedQueue env h request)).resolutions).getLast? with
      | some r => .ready r.value r.stored
      | none => .timedOut

/-- A request served by the worker while the host thread drains the queue once at time
`drain` (or not at all): the response and state the dispatcher produces when the wait ends
the way the drain dictates. -/
def serveCall (env : Env) (h : Host) (request : PipeRequest) (drain : Option Nat) :
    Dispatched :=
  dispatch { env with await := awaitAfterDrain env h request drain } h request

/-- The native calls made on the host thread while a call request is served. -/
def serveCallInvocations (env : Env) (h : Host) (request : PipeRequest)
    (drain : Option Nat) : List Invocation :=
  match drain with
  | none => []
  | some t =>
    (RPCBridge.ProcessPendingCalls (fun c => c.func env h) t
      (submittedQueue env h request)).invocations

/-- A call request for `name` with the given parameters. -/
def callRequest (name : String) (params : List FunctionParam) : PipeRequest :=
  { type := CALL_FUNCTION,
    call_func := { name := name, param_count := params.length, params := params } }

/-- A parameter of type i32 holding `v`. -/
def paramInt32 (v : Nat) : FunctionParam :=
  { type := PARAM_INT32,
    raw := [v % 256, v / 256 % 256, v / 65536 % 256, v / 16777216 % 256] }

/-- The types the parameter switch of `CallStdcall` and `CallCdecl` has a case for. -/
def supportedType (t : Nat) : Bool :=
  t == PARAM_INT8 || t == PARAM_INT16 || t == PARAM_INT32 || t == PARAM_FLOAT ||
  t == PARAM_POINTER || t == PARAM_STRING || t == PARAM_WSTRING

/-- The argument words of a parameter list as `CallStdcall` and `CallCdecl` lower them,
in order (0 for a parameter of an unsupported type). -/
def stdcallWords (env : Env) (params : List FunctionParam) : List Nat :=
  (List.range params.length).map (fun i => (stdcallArg env i (params.getD i noParam)).getD 0)

/-- The argument words of a parameter list as `CallThiscall` lowers them, in order. -/
def thiscallWords (env : Env) (params : List FunctionParam) : List Nat :=
  (List.range params.length).map (fun i => thiscallArg env (params.getD i noParam))

/-! ## Requests and scenarios of the function registry -/

/-- A register-function request. -/
def registerRequest (name : String) (address param_count convention has_return : Nat) :
    PipeRequest :=
  { type := REGISTER_FUNCTION,
    register_func := { name := name, address := address, param_count := param_count,
                       convention := convention, has_return := has_return } }

/-- An unregister-function request (the handler reads the name through the call arm). -/
def unregisterRequest (name : String) : PipeRequest :=
  { type := UNREGISTER_FUNCTION, call_func := { name := name } }

/-- A list-functions request. -/
def listRequest : PipeRequest := { type := LIST_FUNCTIONS }

/-- The names a list-functions request returns in state `h`. -/
def listedNames (env : Env) (h : Host) : List String :=
  (dispatch env h listRequest).response.function_list.names

/-- The state after a register-function request, a list request, and an
unregister-function request for the same name, served in this order. -/
def registerListUnregister (env : Env) (h : Host) (name : String)
    (address param_count convention has_return : Nat) : Host :=
  (dispatch env
    (dispatch env
      (dispatch env h (registerRequest name address param_count convention has_return)).host
      listRequest).host
    (unregisterRequest name)).host

/-- A signature record with the given fields. -/
def sampleSignature (name : String) (address param_count convention : Nat)
    (has_return : Bool) : FunctionSignature :=
  { name := name, address := address, param_count := param_count,
    convention := convention, has_return := has_return }

/-- A memory with one committed executable region of 64 bytes at `0x9000`. -/
def codeMemory : Memory := regionMemory 0x9000 (List.replicate 64 0) PAGE_EXECUTE_READ

/-- A running host over `codeMemory` whose function registry holds the given entries. -/
def codeHost (functions : List (String × FunctionSignature)) : Host :=
  { g_dllState := DllState.Running, server := { running := true }, memory := codeMemory,
    bridge := { functions := functions } }

/-- Reference: a registry of 21 functions `f00` .. `f20`, all at `0x9010`. -/
def manyFunctions : List (String × FunctionSignature) :=
  ["f00", "f01", "f02", "f03", "f04", "f05", "f06", "f07", "f08", "f09", "f10",
   "f11", "f12", "f13", "f14", "f15", "f16", "f17", "f18", "f19", "f20"].map
    (fun n => (n, sampleSignature n 0x9010 0 CONV_CDECL false))

/-- Reference: an environment in which an insertion reverses the iteration order of the
function registry. -/
def reversingEnv : Env := { rehash := List.reverse }

/-- The pending call the worker queues for a call request (the `pending` of
`CallFunction`). -/
def pendingOf (env : Env) (h : Host) (request : PipeRequest) : PendingCall :=
  { func_name := request.call_func.name,
    params_copy :=
      if request.call_func.param_count > 0 then
        paramSource env request.call_func.params request.call_func.param_count
      else [],
    has_result_ptr := callResultBuffer h request,
    timeout := env.now + 5000 }

/-- Reference: an environment whose native code returns the sum of its first two argument
words (an `int add(int, int)` at every address). -/
def addEnv : Env :=
  { native := fun _ _ args => .returned ((args.getD 0 0 + args.getD 1 0) % 2 ^ 32) }

/-- Reference: the environment `addEnv` in which the invoker of a queued call runs for
400 ms. -/
def slowEnv : Env := { addEnv with invokeTime := fun _ => 400 }

/-- Reference: a running host with `add` registered as a cdecl function of two parameters
with a return value. -/
def addHost : Host := codeHost [("add", sampleSignature "add" 0x9010 2 CONV_CDECL true)]

/-- Reference: a running host with `F` registered as a cdecl function of six parameters
with a return value. -/
def sixHost : Host := codeHost [("F", sampleSignature "F" 0x9010 6 CONV_CDECL true)]

/-- Reference: six parameters of type i32. -/
def sixParams : List FunctionParam :=
  [paramInt32 1, paramInt32 2, paramInt32 3, paramInt32 4, paramInt32 5, paramInt32 6]

/-- Reference: an environment whose native code raises an access violation. -/
def faultEnv : Env := { native := fun _ _ _ => .accessViolation }

/-- Reference: a running host with `S` registered as a stdcall function of one parameter. -/
def stdHost : Host := codeHost [("S", sampleSignature "S" 0x9010 1 CONV_STDCALL true)]

/-- Reference: a running host with `Q` registered as a fastcall function of one
parameter. -/
def fastHost : Host := codeHost [("Q", sampleSignature "Q" 0x9010 1 CONV_FASTCALL true)]

/-- Reference: a pointer parameter holding `0x9000`, an address inside `codeMemory`. -/
def thisPointer : FunctionParam := { type := PARAM_POINTER, raw := [0x00, 0x90, 0x00, 0x00] }

/-- Reference: an ansi-string parameter holding `"AB"`. -/
def stringAB : FunctionParam := { type := PARAM_STRING, raw := [0x41, 0x42, 0x00] }

/-- Reference: an i64 parameter holding 1. -/
def int64One : FunctionParam := { type := PARAM_INT64, raw := [1, 0, 0, 0, 0, 0, 0, 0] }

/-- Reference: a running host with `G` registered as a cdecl function of one parameter
with a return value. -/
def wideHost : Host := codeHost [("G", sampleSignature "G" 0x9010 1 CONV_CDECL true)]

/-- Reference: an environment in which the parameter copies of a queued call lie at
`0x20000`, `sizeof(FunctionParam)` = 260 bytes apart (the value union starts 4 bytes into a
record), and the native code returns its second argument word. -/
def bufferEnv : Env :=
  { paramBuffer := fun i => 0x20004 + 260 * i,
    native := fun _ _ args => .returned (args.getD 1 0) }

/-- A request of a hook kind that names a detour. -/
def hookRequest (type : Int) (name : String) : PipeRequest :=
  { type := type, hook := { name := name } }

/-- A request of an event kind that names an event ring. -/
def eventRequest (type : Int) (name : String) : PipeRequest :=
  { type := type, event := { name := name } }

/-! ## Sequences of requests -/

/-- The record `RegisterFunction` builds for a register-function request. -/
def registeredRecord (request : PipeRequest) : FunctionSignature :=
  { name := request.register_func.name,
    address := request.register_func.address,
    param_count := request.register_func.param_count,
    convention := request.register_func.convention,
    has_return := request.register_func.has_return != 0 }

/-- The host after a sequence of requests, each served in its own environment. -/
def serveAll (h : Host) : List (Env × PipeRequest) → Host
  | [] => h
  | s :: rest => serveAll (dispatch s.1 h s.2).host rest

/-! ## Lifecycle scenarios -/

/-- Reference: a host whose endpoint server runs, under the name `pipe`, while the lifecycle
state is `ShuttingDown`. -/
def shuttingDownHost : Host :=
  { g_dllState := DllState.ShuttingDown, server := { running := true, pipeName := "pipe" },
    memory := emptyMemory }

/-- A start request for the endpoint server. -/
def serverStartRequest (pipe_name : String) : PipeRequest :=
  { type := SERVER_START, server_control := { pipe_name := pipe_name } }

/-! ## Scenarios of the over-long copies -/

/-- Reference: an environment in which every byte that follows the payload field in the
storage of the request object is `0xEE`. -/
def staleEnv : Env := { afterPayload := fun _ => 0xEE }

/-- Reference: 2048 bytes `0x11`, of which a write-memory request carries the first 1024 in
its payload field. -/
def twoKiB : List Nat := List.replicate 2048 0x11

/-- Reference: an environment in which every record behind the parameter array of the
request object is an i32 with the bytes `0xEE`. -/
def markEnv : Env :=
  { afterParams := fun _ => { type := PARAM_INT32, raw := [0xEE, 0xEE, 0xEE, 0xEE] } }

/-- Reference: a call request for `add` whose parameter array holds ten i32 records and
whose `param_count` is 11. -/
def overlongCall : PipeRequest :=
  { type := CALL_FUNCTION,
    call_func :=
      { name := "add", param_count := 11,
        params := [paramInt32 0, paramInt32 1, paramInt32 2, paramInt32 3, paramInt32 4,
                   paramInt32 5, paramInt32 6, paramInt32 7, paramInt32 8, paramInt32 9] } }

/-! ## Scenarios of the event copy -/

/-- Reference: a producer call with 256 bytes `0x41`. -/
def bigPush : Push :=
  { env := {}, event_id := 7, data := some (List.replicate 256 0x41), data_size := 256 }

/-- Reference: the host `ringHost` after registering ring `E` with the default capacity and
`n` producer calls `bigPush`. -/
def filledHost (n : Nat) : Host :=
  { ringHost with
    bridge := pushAll (RPCBridge.RegisterEventBuffer ringHost "E" 0x5000 16 0).2.bridge "E"
      (List.replicate n bigPush) }

/-- The two conditions on a response frame: the success flag is 0 or 1, and a frame with
success 1 carries no error message. -/
def flagOk (r : PipeResponse) : Prop :=
  (r.success = 0 ∨ r.success = 1) ∧ (r.success = 1 → r.error_message = "")

/-! ## Memory accesses of the pointer-chain case -/

/-- One access of the pointer-chain case to host memory: the probe `IsBadReadPtr(address,
width)` with its answer (readable or not), or the dereference of `width` bytes at `address`.
`step` is the loop index `i`, or `none` for the final value. -/
inductive MemAccess where
  | probe (step : Option Nat) (address width : Nat) (readable : Bool)
  | load (step : Option Nat) (address width : Nat)
deriving DecidableEq, Repr

/-- The accesses of the loop of the `READ_POINTER_CHAIN` case from step `i` with `n` steps
left, `currentAddress` being `a`: each pass probes the pointer-sized slot and, when it is
readable, dereferences it; a failed probe leaves the loop. -/
def pointerChainLoopAccesses (env : Env) (m : Memory) (offsets : List Int) :
    Nat → Nat → Nat → List MemAccess
  | 0, _, _ => []
  | n + 1, i, a =>
    if IsBadReadPtr m a env.ptrBytes then [MemAccess.probe (some i) a env.ptrBytes false]
    else
      MemAccess.probe (some i) a env.ptrBytes true :: MemAccess.load (some i) a env.ptrBytes ::
        pointerChainLoopAccesses env m offsets n (i + 1)
          (ptrAdd env.ptrBytes (m.load a env.ptrBytes) (offsets.getD i 0))

/-- The accesses of the case `READ_POINTER_CHAIN`, in order. -/
def caseReadPointerChainAccesses (env : Env) (m : Memory) (request : PipeRequest)
    (response : PipeResponse) : List MemAccess :=
  let pc := request.pointer_chain
  if pc.offset_count > 16 then []
  else if pc.final_size ≠ 1 ∧ pc.final_size ≠ 2 ∧ pc.final_size ≠ 4 ∧ pc.final_size ≠ 8 then []
  else
    let st := pointerChainLoop env m pc.offsets pc.offset_count 0 (pc.base_address, response)
    let loop := pointerChainLoopAccesses env m pc.offsets pc.offset_count 0 pc.base_address
    if st.2.success = 0 ∧ st.2.error_message.length > 0 then loop
    else if IsBadReadPtr m st.1 pc.final_size then
      loop ++ [MemAccess.probe none st.1 pc.final_size false]
    else
      loop ++ [MemAccess.probe none st.1 pc.final_size true,
               MemAccess.load none st.1 pc.final_size]

/-- A trace in which every dereference comes right after a successful probe of the same
step, address and width, every successful probe is followed by that dereference, and a
failed probe is the last access. -/
def wellProbed : List MemAccess → Bool
  | [] => true
  | [MemAccess.probe _ _ _ false] => true
  | MemAccess.probe s a w true :: MemAccess.load s1 a1 w1 :: rest =>
    decide (s = s1) && decide (a = a1) && decide (w = w1) && wellProbed rest
  | _ => false

/-- A trace made of pairs of a successful probe and the dereference it guards. -/
def probedPairs : List MemAccess → Bool
  | [] => true
  | MemAccess.probe s a w true :: MemAccess.load s1 a1 w1 :: rest =>
    decide (s = s1) && decide (a = a1) && decide (w = w1) && probedPairs rest
  | _ => false

/-- The response of the pointer-chain case as the dispatcher runs it, on the cleared
frame. -/
def chainResponse (env : Env) (m : Memory) (request : PipeRequest) : PipeResponse :=
  caseReadPointerChain env m request zeroResponse

/-- The accesses of the pointer-chain case as the dispatcher runs it. -/
def chainAccesses (env : Env) (m : Memory) (request : PipeRequest) : List MemAccess :=
  caseReadPointerChainAccesses env m request zeroResponse

/-! ## The pending queue under interleaved submissions

`CallFunction` reads the clock twice: once for the deadline, before it takes the queue lock,
and once under the lock for the purge.  The steps below are the parts of `CallFunction` and
`ProcessPendingCalls` that run without interruption; workers are told apart by a number. -/

/-- The shared queue, the latest clock reading, and the calls whose deadline is computed but
which are not queued yet, by worker. -/
structure QueueState where
  now : Nat := 0
  pending_calls : List PendingCall := []
  prepared : List (Nat × PendingCall) := []

/-- One uninterrupted step, with the time elapsed since the previous clock reading: a worker
builds its pending call (deadline five seconds after the reading), a worker takes the lock,
purges the expired front and pushes its call, or the host thread drains the queue. -/
inductive QueueStep where
  | prepare (elapsed worker : Nat) (name : String) (params : List FunctionParam)
      (has_result_ptr : Bool)
  | enqueue (elapsed worker : Nat)
  | drain (elapsed : Nat)

def queueStep (invoke : PendingCall → MarshalResult) (s : QueueState) :
    QueueStep → QueueState
  | .prepare elapsed worker name params has_result_ptr =>
    let now := s.now + elapsed
    let pending : PendingCall :=
      { func_name := name, params_copy := params, has_result_ptr := has_result_ptr,
        timeout := now + 5000 }
    { s with now := now, prepared := mapAssign s.prepared worker pending }
  | .enqueue elapsed worker =>
    let now := s.now + elapsed
    match mapFind s.prepared worker with
    | none => { s with now := now }
    | some pending =>
      { now := now,
        pending_calls := purgeExpiredFront now s.pending_calls ++ [pending],
        prepared := mapErase s.prepared worker }
  | .drain elapsed =>
    let now := s.now + elapsed
    { s with now := now,
             pending_calls :=
               (RPCBridge.ProcessPendingCalls invoke now s.pending_calls).pending_calls }

/-- A run of steps from a state. -/
def queueRun (invoke : PendingCall → MarshalResult) (s : QueueState) :
    List QueueStep → QueueState
  | [] => s
  | x :: xs => queueRun invoke (queueStep invoke s x) xs

/-- An operation that is not interleaved with another: a whole submission by one worker
(`wait0` is the time from the previous reading to the reading for the deadline, `wait1` the
time from there to the reading under the lock), or a drain. -/
inductive QueueOp where
  | submit (wait0 wait1 : Nat) (name : String) (params : List FunctionParam)
      (has_result_ptr : Bool)
  | drain (elapsed : Nat)

/-- The steps of an operation. -/
def QueueOp.steps : QueueOp → List QueueStep
  | .submit wait0 wait1 name params has_result_ptr =>
    [QueueStep.prepare wait0 0 name params has_result_ptr, QueueStep.enqueue wait1 0]
  | .drain elapsed => [QueueStep.drain elapsed]

/-- The state after a sequence of operations, none interleaved with another, from the empty
queue. -/
def queueAfter (invoke : PendingCall → MarshalResult) (ops : List QueueOp) : QueueState :=
  queueRun invoke {} ((ops.map QueueOp.steps).flatten)

/-- Reference: an invoker that fails. -/
def noInvoke : PendingCall → MarshalResult := fun _ => { result := some false }

/-- Reference: two workers compute their deadlines at 0 and at 10, the second takes the lock
first; a third submission follows at 5005. -/
def interleavedRun : List QueueStep :=
  [QueueStep.prepare 0 1 "A" [] false, QueueStep.prepare 10 2 "B" [] false,
   QueueStep.enqueue 0 2, QueueStep.enqueue 0 1,
   QueueStep.prepare 4995 3 "C" [] false, QueueStep.enqueue 0 3]

/-! ## The per-client worker (`NamedPipeServer::ProcessClient`) -/

/-- How the read of one pass of the worker loop ends: `ReadFile` returns at once, the
overlapped read completes (`GetOverlappedResult` succeeds) or fails, the stop event is
signalled, the wait times out (with the pipe still valid or not), the wait fails, or
`ReadFile` fails at once.  A finished read gives the content of the request buffer and the
byte count. -/
inductive ReadOutcome where
  | immediate (request : PipeRequest) (bytesRead : Nat)
  | completed (request : PipeRequest) (bytesRead : Nat)
  | resultFailed
  | stopSignaled
  | timedOut (pipeValid : Bool)
  | waitFailed
  | failed

/-- How the write of one pass ends. -/
inductive WriteOutcome where
  | immediate
  | completed
  | resultFailed
  | stopSignaled
  | timedOut
  | waitFailed
  | failed
deriving DecidableEq, Repr

/-- What one pass of the worker loop meets: the environment of the dispatch, what other
threads do to the process state before the loop condition is evaluated and while the read
is outstanding, the answer of `GetNamedPipeInfo`, and the outcomes of the read and the
write. -/
structure Pass where
  env : Env := {}
  before : Host → Host := id
  pipeInfoOk : Bool := true
  during : Host → Host := id
  read : ReadOutcome
  write : WriteOutcome := WriteOutcome.immediate

/-- The request buffer and byte count of a finished read. -/
def ReadOutcome.frame : ReadOutcome → Option (PipeRequest × Nat)
  | .immediate request bytesRead => some (request, bytesRead)
  | .completed request bytesRead => some (request, bytesRead)
  | _ => none

/-- The read outcome after which the loop continues with its next pass: a timeout with the
pipe still valid. -/
def ReadOutcome.continues : ReadOutcome → Bool
  | .timedOut true => true
  | _ => false

/-- The write outcomes after which the loop goes on: `WriteFile` returned at once or the
overlapped write completed. -/
def WriteOutcome.sent : WriteOutcome → Bool
  | .immediate => true
  | .completed => true
  | _ => false

/-- What the worker does on the pipe: a request frame was read (with the process state and
the environment in which it is then served), or `WriteFile` was called with a response
frame and a byte count, and did or did not complete. -/
inductive PipeEvent where
  | read (request : PipeRequest) (state : Host) (env : Env)
  | write (response : PipeResponse) (size : Nat) (completed : Bool)

def PipeEvent.isRead : PipeEvent → Bool
  | .read _ _ _ => true
  | .write _ _ _ => false

/-- The loop of `ProcessClient` over the passes of a script: the events on the pipe, in
order, and the process state when the loop is left or the script ends. -/
def ProcessClient : List Pass → Host → List PipeEvent × Host
  | [], h => ([], h)
  | p :: ps, h =>
    let h0 := p.before h
    if !(h0.server.running && !IsDllShuttingDown h0.g_dllState) then ([], h0)
    else if !p.pipeInfoOk then ([], h0)
    else
      let h1 := p.during h0
      match p.read.frame with
      | none => if p.read.continues then ProcessClient ps h1 else ([], h1)
      | some (request, bytesRead) =>
        if bytesRead = 0 then ([], h1)
        else if !h1.server.running || IsDllShuttingDown h1.g_dllState then
          ([PipeEvent.read request h1 p.env], h1)
        else
          let d := dispatch p.env h1 request
          if p.write.sent then
            (PipeEvent.read request h1 p.env ::
              PipeEvent.write d.response sizeofPipeResponse true ::
              (ProcessClient ps d.host).1,
             (ProcessClient ps d.host).2)
          else
            ([PipeEvent.read request h1 p.env,
              PipeEvent.write d.response sizeofPipeResponse false], d.host)

/-- A trace made of exchanges: a read followed by one completed write of the dispatcher's
response to it, in the fixed size; the last read may lack its write or have a write that
did not complete. -/
def Alternating : List PipeEvent → Prop
  | [] => True
  | [PipeEvent.read _ _ _] => True
  | [PipeEvent.read request state env, PipeEvent.write response size false] =>
    size = sizeofPipeResponse ∧ response = (dispatch env state request).response
  | PipeEvent.read request state env :: PipeEvent.write response size true :: rest =>
    size = sizeofPipeResponse ∧ response = (dispatch env state request).response ∧
    Alternating rest
  | _ => False

/-- Reference: a script of three passes: a heartbeat, a read timeout with the pipe still
valid, and a second heartbeat. -/
def heartbeatScript : List Pass :=
  [{ read := ReadOutcome.immediate (heartbeatRequest 5) 100 },
   { read := ReadOutcome.timedOut true },
   { env := { tick := 9 }, read := ReadOutcome.completed (heartbeatRequest 7) 100,
     write := WriteOutcome.completed }]

/-- Reference: a producer call with 193 data bytes: 172 bytes `0x41`, then the characters
of "Unknown request type" and a NUL. -/
def forgedPush : Push :=
  { env := {}, event_id := 7,
    data := some (List.replicate 172 0x41 ++
      ("Unknown request type".toList.map Char.toNat ++ [0])),
    data_size := 193 }

/-- Reference: the host `ringHost` after registering ring `E` with the default capacity,
nine producer calls `bigPush` and one producer call `forgedPush`. -/
def forgedHost : Host :=
  { ringHost with
    bridge := pushAll (RPCBridge.RegisterEventBuffer ringHost "E" 0x5000 16 0).2.bridge "E"
      (List.replicate 9 bigPush ++ [forgedPush]) }

/-! ## The life of the process (`dllentry.cpp`)

`DllMain` stores `Initializing` when the library is attached and creates `MainThread`, or
stores `Stopped` when the thread cannot be created.  `MainThread` begins with the store of
`Running`.  Everything that starts the endpoint server runs after that store: `MainThread`
itself further down, the window it creates, and the per-client workers of a server that
was started. -/

/-- The process when `DllMain` has stored `Initializing` on attach: the endpoint server was
constructed with its running flag cleared and nothing is registered. -/
def attachedHost (m : Memory) : Host := { g_dllState := DllState.Initializing, memory := m }

/-- What happens in the process once `MainThread` has begun: a store of `Stopped` (the
failure paths and the end of `MainThread`), a call of `RequestShutdown` (the window, the
detach of the library), a start or a stop of the endpoint server by `MainThread`, the window
or `DllMain`, a change of the connection counters by the server thread, a request served by
a per-client worker, and any change of host memory, bridge and detour engine (host code, the
producer of events, the drain of the pending calls). -/
inductive ProcessStep where
  | storeStopped
  | requestShutdown
  | startServer (env : Env) (pipeName : String)
  | stopServer
  | connections (clientCount totalConnections : Nat)
  | serve (env : Env) (request : PipeRequest)
  | other (memory : Memory) (bridge : RPCBridge) (engine : List (Nat × Bool))

/-- The process after one step. -/
def processStep (h : Host) : ProcessStep → Host
  | .storeStopped => { h with g_dllState := DllState.Stopped }
  | .requestShutdown => { h with g_dllState := RequestShutdown h.g_dllState }
  | .startServer env pipeName => { h with server := (h.server.Start env pipeName).2 }
  | .stopServer => { h with server := h.server.Stop }
  | .connections clientCount totalConnections =>
    { h with server :=
      { h.server with clientCount := clientCount, totalConnections := totalConnections } }
  | .serve env request => (dispatch env h request).host
  | .other memory bridge engine =>
    { h with memory := memory, bridge := bridge, engine := engine }

/-- The process after `MainThread` has stored `Running` and the steps have happened. -/
def processRun (m : Memory) (steps : List ProcessStep) : Host :=
  steps.foldl processStep { attachedHost m with g_dllState := DllState.Running }

/-- The states the process is in: attached with `MainThread` not yet at its first
statement, attached with the thread creation failed, and any state after `MainThread` has
begun. -/
def processStates (m : Memory) (steps : List ProcessStep) : List Host :=
  [attachedHost m, { attachedHost m with g_dllState := DllState.Stopped }, processRun m steps]

/-- Reference: the server is started under the name `pipe` and a shutdown is requested. -/
def shutdownSteps : List ProcessStep :=
  [ProcessStep.startServer {} "pipe", ProcessStep.requestShutdown]

/-! # Properties -/

/-! ## Loads -/

theorem leValue_lt (bs : List Nat) (hb : ∀ b ∈ bs, b < 256) : leValue bs < 256 ^ bs.length := by
  induction bs with
  | nil => simp [leValue]
  | cons b bs ih =>
    have h1 : b < 256 := hb b (List.mem_cons_self _ _)
    have h2 := ih (fun x hx => hb x (List.mem_cons_of_mem _ hx))
    simp only [leValue, List.length_cons, pow_succ]
    omega

theorem Memory.bytes_length (m : Memory) (a n : Nat) : (m.bytes a n).length = n := by
  simp [Memory.bytes]

theorem Memory.load_lt (m : Memory) (a n : Nat) : m.load a n < 256 ^ n := by
  have h := leValue_lt (m.bytes a n) (by
    intro b hb
    simp only [Memory.bytes, List.mem_map] at hb
    obtain ⟨i, _, rfl⟩ := hb
    exact Nat.mod_lt _ (by norm_num))
  rwa [Memory.bytes_length] at h

theorem ptrAdd_eq_wrap (ptrBytes a : Nat) (off : Int) :
    ptrAdd ptrBytes a off = Int.toNat (((a : Int) + off) % 2 ^ (8 * ptrBytes)) := by
  unfold ptrAdd toUnsigned
  have hM : (0 : Int) < 2 ^ (8 * ptrBytes) := by positivity
  have h0 : 0 ≤ off % (2 : Int) ^ (8 * ptrBytes) := Int.emod_nonneg _ (ne_of_gt hM)
  apply Int.ofNat.inj
  rw [Int.ofNat_eq_coe, Int.ofNat_eq_coe, Int.toNat_of_nonneg (Int.emod_nonneg _ (ne_of_gt hM))]
  push_cast
  rw [Int.toNat_of_nonneg h0, Int.add_emod, Int.emod_emod_of_dvd _ (dvd_refl _),
    ← Int.add_emod]

/-! ## Dispatcher routing -/

theorem dispatch_legacy (env : Env) (h : Host) (request : PipeRequest)
    (hrun : h.server.running = true) (hlive : IsDllShuttingDown h.g_dllState = false)
    (hlt : request.type < REGISTER_FUNCTION) :
    dispatch env h request =
      match legacySwitch env h.memory request zeroResponse with
      | some response =>
        { response := response, host := h, handlers := [Handler.inlineCase request.type] }
      | none =>
        { response := { zeroResponse with success := 0,
                                          error_message := "Unknown request type" },
          host := h, handlers := [] } := by
  simp only [dispatch, NamedPipeServer.HandleRequest, hrun, hlive, Bool.not_true, Bool.or_self,
    Bool.false_eq_true, if_false, ge_iff_le, not_le.mpr hlt]

theorem dispatch_bridge (env : Env) (h : Host) (request : PipeRequest)
    (hrun : h.server.running = true) (hlive : IsDllShuttingDown h.g_dllState = false)
    (hge : REGISTER_FUNCTION ≤ request.type) :
    dispatch env h request =
      if (RPCBridge.HandleRequest env h request zeroResponse).1 then
        (RPCBridge.HandleRequest env h request zeroResponse).2
      else
        { (RPCBridge.HandleRequest env h request zeroResponse).2 with response :=
            if (RPCBridge.HandleRequest env h request zeroResponse).2.response.error_message.length
                = 0
            then { (RPCBridge.HandleRequest env h request zeroResponse).2.response with
                    success := 0, error_message := "RPC Bridge failed" }
            else { (RPCBridge.HandleRequest env h request zeroResponse).2.response with
                    success := 0 } } := by
  simp only [dispatch, NamedPipeServer.HandleRequest, hrun, hlive, Bool.not_true, Bool.or_self,
    Bool.false_eq_true, if_false, ge_iff_le, hge, if_true]

/-! ## Pointer chain -/

theorem pointerChainLoop_walk (env : Env) (m : Memory) (offs : List Int) :
    ∀ (pre rest : List Int) (cur final : Nat) (resp : PipeResponse),
      chainWalk env.ptrBytes m offs cur = some final →
      pointerChainLoop env m (pre ++ offs ++ rest) offs.length pre.length (cur, resp)
        = (final, resp) := by
  induction offs with
  | nil =>
    intro pre rest cur final resp h
    simp only [chainWalk, Option.some.injEq] at h
    simp [pointerChainLoop, h]
  | cons o os ih =>
    intro pre rest cur final resp h
    simp only [chainWalk] at h
    split at h
    · rename_i hr
      have hget : (pre ++ o :: os ++ rest).getD pre.length 0 = o := by
        rw [List.getD_eq_getElem?_getD, List.append_assoc,
          List.getElem?_append_right (le_refl _)]
        simp
      have hstep := ih (pre ++ [o]) rest _ final resp h
      simp only [List.length_cons, pointerChainLoop, IsBadReadPtr, hr, Bool.not_true,
        Bool.false_eq_true, if_false, hget, ptrAdd_eq_wrap]
      simpa [List.append_assoc] using hstep
    · exact absurd h (by simp)

theorem legacySwitch_pointer_chain (env : Env) (m : Memory) (request : PipeRequest)
    (response : PipeResponse) (ht : request.type = READ_POINTER_CHAIN) :
    legacySwitch env m request response = some (caseReadPointerChain env m request response) := by
  simp [legacySwitch, ht, READ_POINTER_CHAIN, SCAN_FIND, SCAN_FIND_ASSERTION, SCAN_FIND_IN_RANGE,
    SCAN_TO_FUNCTION_START, SCAN_FUNCTION_FROM_NEAR_CALL, READ_MEMORY, GET_SECTION_INFO]

/-- C1: for a running host, a pointer-chain request with at most 16 offsets and a final size
in {1,2,4,8}, such that every pointer-sized slot of the walk and the final `w` bytes are
readable, is answered with success 1, the final address of the walk (wrapping addition at
the pointer width, the base itself when there is no offset) and the little-endian value of
the `w` bytes there, which is below 2^64; the message stays empty and the state unchanged. -/
theorem pointer_chain_correct (env : Env) (h : Host) (base : Nat) (offs rest : List Int)
    (w final : Nat)
    (hrun : h.server.running = true) (hlive : IsDllShuttingDown h.g_dllState = false)
    (hn : offs.length ≤ 16) (hw : w = 1 ∨ w = 2 ∨ w = 4 ∨ w = 8)
    (hwalk : chainWalk env.ptrBytes h.memory offs base = some final)
    (hfinal : h.memory.rangeReadable final w = true) :
    (dispatch env h (pointerChainRequest base offs rest w)).response.success = 1 ∧
    (dispatch env h (pointerChainRequest base offs rest w)).response.pointer_chain_result.final_address
      = final ∧
    (dispatch env h (pointerChainRequest base offs rest w)).response.pointer_chain_result.value
      = leValue (h.memory.bytes final w) ∧
    (dispatch env h (pointerChainRequest base offs rest w)).response.pointer_chain_result.value
      < 2 ^ 64 ∧
    (dispatch env h (pointerChainRequest base offs rest w)).response.error_message = "" ∧
    (dispatch env h (pointerChainRequest base offs rest w)).host = h ∧
    (offs = [] → final = base) := by
  have hloop := pointerChainLoop_walk env h.memory offs [] rest base final zeroResponse hwalk
  have hd : dispatch env h (pointerChainRequest base offs rest w) =
      { response := caseReadPointerChain env h.memory (pointerChainRequest base offs rest w)
          zeroResponse,
        host := h, handlers := [Handler.inlineCase READ_POINTER_CHAIN] } := by
    rw [dispatch_legacy env h _ hrun hlive
        (show READ_POINTER_CHAIN < REGISTER_FUNCTION by decide),
      legacySwitch_pointer_chain env h.memory _ _ rfl]
    rfl
  have hcase : caseReadPointerChain env h.memory (pointerChainRequest base offs rest w)
      zeroResponse =
      { zeroResponse with
        pointer_chain_result := { final_address := final, value := h.memory.load final w },
        success := 1 } := by
    simp only [List.nil_append, List.length_nil] at hloop
    simp only [caseReadPointerChain, pointerChainRequest, hloop, IsBadReadPtr, hfinal]
    rcases hw with rfl | rfl | rfl | rfl <;> simp [Nat.not_lt.mpr hn, zeroResponse]
  have hlt : h.memory.load final w < 2 ^ 64 := by
    have := h.memory.load_lt final w
    rcases hw with rfl | rfl | rfl | rfl <;> omega
  rw [hd, hcase]
  refine ⟨rfl, rfl, rfl, hlt, rfl, rfl, ?_⟩
  intro he
  subst he
  simpa [chainWalk] using hwalk.symm

/-- C1 at the scenario of the specification: base `R = 0x1000`, offsets `[0, 0]`, final
size 4 gives success, final address `R + 16` and value `0x11223344`. -/
theorem pointer_chain_correct_witness :
    (chainWalk 4 chainScenarioMemory [0, 0] 0x1000 = some 0x1010 ∧
      chainScenarioMemory.rangeReadable 0x1010 4 = true) ∧
    (dispatch {} chainScenarioHost (pointerChainRequest 0x1000 [0, 0] [] 4)).response.success = 1 ∧
    (dispatch {} chainScenarioHost
      (pointerChainRequest 0x1000 [0, 0] [] 4)).response.pointer_chain_result.final_address
        = 0x1010 ∧
    (dispatch {} chainScenarioHost
      (pointerChainRequest 0x1000 [0, 0] [] 4)).response.pointer_chain_result.value
        = 0x11223344 :=
  have hw : chainWalk 4 chainScenarioMemory [0, 0] 0x1000 = some 0x1010 := by decide
  have hf : chainScenarioMemory.rangeReadable 0x1010 4 = true := by decide
  have h := pointer_chain_correct {} chainScenarioHost 0x1000 [0, 0] [] 4 0x1010 rfl rfl
    (by decide) (by decide) hw hf
  ⟨⟨hw, hf⟩, h.1, h.2.1, h.2.2.1.trans (by decide)⟩

/-! ## Batch read -/

theorem batchEntryOk_iff (m : Memory) (req : BatchReadArm) (i : Nat) :
    batchEntryOk m req i = true ↔
      (req.sizes.getD i 0 = 1 ∨ req.sizes.getD i 0 = 2 ∨ req.sizes.getD i 0 = 4 ∨
        req.sizes.getD i 0 = 8) ∧
      req.addresses.getD i 0 ≠ 0 ∧
      m.rangeReadable (req.addresses.getD i 0) (req.sizes.getD i 0) = true := by
  simp only [batchEntryOk, Bool.and_eq_true, Bool.or_eq_true, beq_iff_eq, bne_iff_ne, ne_eq]
  tauto

theorem BatchInv_skip (m : Memory) (req : BatchReadArm) (i : Nat) (st : BatchResult × Nat)
    (hno : batchEntryOk m req i = false) (hinv : BatchInv m req i st) :
    BatchInv m req (i + 1) st := by
  obtain ⟨h1, h2, h3, h4, h5, h6⟩ := hinv
  refine ⟨h1, h2, ?_, ?_, by omega, ?_⟩
  · intro j hj
    rw [h3 j hj]
    by_cases hji : j = i
    · subst hji; simp [hno]
    · have : (j < i + 1) = (j < i) := by apply propext; omega
      simp [this]
  · intro j hj
    rw [h4 j hj]
    by_cases hji : j = i
    · subst hji; simp [hno]
    · have : (j < i + 1) = (j < i) := by apply propext; omega
      simp [this]
  · rw [h6]
    constructor
    · rintro ⟨j, hj, hok⟩; exact ⟨j, by omega, hok⟩
    · rintro ⟨j, hj, hok⟩
      have hji : j ≠ i := by rintro rfl; simp [hno] at hok
      exact ⟨j, by omega, hok⟩

theorem BatchInv_hit (m : Memory) (req : BatchReadArm) (i : Nat) (st : BatchResult × Nat)
    (hi : i < 32) (hok : batchEntryOk m req i = true) (hinv : BatchInv m req i st) :
    BatchInv m req (i + 1)
      ({ st.1 with
          values := st.1.values.set i (m.load (req.addresses.getD i 0) (req.sizes.getD i 0)),
          success_mask := st.1.success_mask.set (i / 8)
            ((st.1.success_mask.getD (i / 8) 0 ||| (1 <<< (i % 8))) % 256) },
       (st.2 + 1) % 256) := by
  obtain ⟨h1, h2, h3, h4, h5, h6⟩ := hinv
  refine ⟨by simp [h1], by simp [h2], ?_, ?_, ?_, ?_⟩
  · intro j hj
    have hold := h3 j hj
    simp only [maskBit] at hold ⊢
    simp only [List.getD_eq_getElem?_getD, List.getElem?_set, h1] at hold ⊢
    by_cases hq : i / 8 = j / 8
    · have hlt : i / 8 < 4 := by omega
      rw [if_pos hq, if_pos hlt, Option.getD_some, show (256 : Nat) = 2 ^ 8 by norm_num,
        Nat.testBit_mod_two_pow, Nat.testBit_or, Nat.one_shiftLeft, Nat.testBit_two_pow, hq, hold]
      have h8 : j % 8 < 8 := Nat.mod_lt _ (by norm_num)
      by_cases hji : j = i
      · subst hji; simp [hok, h8]
      · have hr : i % 8 ≠ j % 8 := by omega
        have : (j < i + 1) = (j < i) := by apply propext; omega
        simp [h8, hr, this]
    · rw [if_neg hq, hold]
      have hji : j ≠ i := by rintro rfl; exact hq rfl
      have : (j < i + 1) = (j < i) := by apply propext; omega
      simp [this]
  · intro j hj
    have hold := h4 j hj
    simp only [List.getD_eq_getElem?_getD, List.getElem?_set, h2] at hold ⊢
    by_cases hji : i = j
    · subst hji; simp [hi, hok]
    · rw [if_neg hji, hold]
      have : (j < i + 1) = (j < i) := by apply propext; omega
      simp [this]
  · show (st.2 + 1) % 256 ≤ i + 1
    omega
  · show 0 < (st.2 + 1) % 256 ↔ _
    constructor
    · intro _; exact ⟨i, by omega, hok⟩
    · intro _; omega

theorem batchReadLoop_inv (m : Memory) (req : BatchReadArm) :
    ∀ (n i : Nat) (st : BatchResult × Nat), i + n ≤ 32 → BatchInv m req i st →
      BatchInv m req (i + n) (batchReadLoop m req n i st) := by
  intro n
  induction n with
  | zero => intro i st _ hinv; simpa [batchReadLoop] using hinv
  | succ n ih =>
    intro i st hle hinv
    have hi : i < 32 := by omega
    rw [show i + (n + 1) = (i + 1) + n by omega]
    simp only [batchReadLoop]
    by_cases hsz : req.sizes.getD i 0 ≠ 1 ∧ req.sizes.getD i 0 ≠ 2 ∧ req.sizes.getD i 0 ≠ 4 ∧
        req.sizes.getD i 0 ≠ 8
    · rw [if_pos hsz]
      exact ih (i + 1) st (by omega)
        (BatchInv_skip m req i st
          (Bool.eq_false_iff.mpr (fun hc => by
            have := ((batchEntryOk_iff m req i).mp hc).1
            omega)) hinv)
    · rw [if_neg hsz]
      have hsz2 : req.sizes.getD i 0 = 1 ∨ req.sizes.getD i 0 = 2 ∨ req.sizes.getD i 0 = 4 ∨
          req.sizes.getD i 0 = 8 := by omega
      by_cases ha : req.addresses.getD i 0 = 0
      · rw [if_pos ha]
        exact ih (i + 1) st (by omega) (BatchInv_skip m req i st
          (Bool.eq_false_iff.mpr (fun hc => ((batchEntryOk_iff m req i).mp hc).2.1 ha)) hinv)
      · rw [if_neg ha]
        by_cases hr : m.rangeReadable (req.addresses.getD i 0) (req.sizes.getD i 0) = true
        · simp only [Memory.tryLoad, hr, if_true]
          refine ih (i + 1) _ (by omega) (BatchInv_hit m req i st hi ?_ hinv)
          exact (batchEntryOk_iff m req i).mpr ⟨hsz2, ha, hr⟩
        · simp only [Memory.tryLoad, hr, if_false, Bool.false_eq_true]
          exact ih (i + 1) st (by omega) (BatchInv_skip m req i st
            (Bool.eq_false_iff.mpr (fun hc => hr ((batchEntryOk_iff m req i).mp hc).2.2)) hinv)

theorem bridge_route_batch (env : Env) (h : Host) (request : PipeRequest)
    (response : PipeResponse) (ht : request.type = BATCH_READ_MEMORY) :
    RPCBridge.HandleRequest env h request response =
      ((RPCBridge.HandleBatchReadRequest h request zeroResponse).1,
       { response := (RPCBridge.HandleBatchReadRequest h request zeroResponse).2.1,
         host := (RPCBridge.HandleBatchReadRequest h request zeroResponse).2.2,
         handlers := [Handler.HandleBatchReadRequest] }) := by
  simp [RPCBridge.HandleRequest, ht]

theorem BatchInv_start (m : Memory) (req : BatchReadArm) (c : Nat) :
    BatchInv m req 0
      (({ count := c, success_mask := [0, 0, 0, 0], values := List.replicate 32 0 } :
        BatchResult), 0) := by
  refine ⟨rfl, by simp, ?_, ?_, le_refl _, by simp⟩
  · intro j hj
    have : j / 8 < 4 := by omega
    interval_cases hq : j / 8 <;> simp [maskBit, hq]
  · intro j hj
    show (List.replicate 32 0).getD j 0 = _
    rw [List.getD_eq_getElem?_getD, List.getElem?_replicate]
    simp [hj]

theorem dispatch_batch (env : Env) (h : Host) (arm : BatchReadArm)
    (hrun : h.server.running = true) (hlive : IsDllShuttingDown h.g_dllState = false)
    (hc1 : 1 ≤ arm.count) (hc2 : arm.count ≤ 32) :
    dispatch env h (batchReadRequest arm) =
      { response := { zeroResponse with
          batch_result := (batchReadLoop h.memory arm arm.count 0
            (({ count := arm.count, success_mask := [0, 0, 0, 0],
                values := List.replicate 32 0 } : BatchResult), 0)).1,
          success := if (batchReadLoop h.memory arm arm.count 0
            (({ count := arm.count, success_mask := [0, 0, 0, 0],
                values := List.replicate 32 0 } : BatchResult), 0)).2 > 0 then 1 else 0 },
        host := h, handlers := [Handler.HandleBatchReadRequest] } := by
  rw [dispatch_bridge env h _ hrun hlive (show REGISTER_FUNCTION ≤ BATCH_READ_MEMORY by decide),
    bridge_route_batch env h _ _ rfl]
  have hnot : ¬ (arm.count = 0 ∨ arm.count > 32) := by omega
  simp only [RPCBridge.HandleBatchReadRequest, batchReadRequest, hnot, if_false, if_true]

/-- C2: for a running host and a batch-read request with a count in 1..32, bit `i` below the
count of the success mask is set exactly when entry `i` has a size in {1,2,4,8}, a non-null
address and a readable location; slot `i` of the values then holds the little-endian value of
that many bytes (below 2^64) and holds 0 otherwise; the mask bits from the count up to 31
are clear; the success flag is 1 exactly when some mask bit is set, and is 0 otherwise. -/
theorem batch_read_correct (env : Env) (h : Host) (arm : BatchReadArm)
    (hrun : h.server.running = true) (hlive : IsDllShuttingDown h.g_dllState = false)
    (hc1 : 1 ≤ arm.count) (hc2 : arm.count ≤ 32) :
    (∀ i, i < arm.count →
      (maskBit (dispatch env h (batchReadRequest arm)).response.batch_result.success_mask i = true
        ↔ batchEntryOk h.memory arm i = true)) ∧
    (∀ i, i < arm.count →
      (dispatch env h (batchReadRequest arm)).response.batch_result.values.getD i 0 =
        (if batchEntryOk h.memory arm i = true
         then leValue (h.memory.bytes (arm.addresses.getD i 0) (arm.sizes.getD i 0)) else 0) ∧
      (dispatch env h (batchReadRequest arm)).response.batch_result.values.getD i 0 < 2 ^ 64) ∧
    (∀ i, arm.count ≤ i → i < 32 →
      maskBit (dispatch env h (batchReadRequest arm)).response.batch_result.success_mask i
        = false) ∧
    ((dispatch env h (batchReadRequest arm)).response.success = 1 ↔
      ∃ i, i < 32 ∧
        maskBit (dispatch env h (batchReadRequest arm)).response.batch_result.success_mask i
          = true) ∧
    ((dispatch env h (batchReadRequest arm)).response.success = 0 ∨
      (dispatch env h (batchReadRequest arm)).response.success = 1) := by
  have hinv := batchReadLoop_inv h.memory arm arm.count 0 _ (by omega)
    (BatchInv_start h.memory arm arm.count)
  rw [Nat.zero_add] at hinv
  obtain ⟨_, _, h3, h4, _, h6⟩ := hinv
  rw [dispatch_batch env h arm hrun hlive hc1 hc2]
  refine ⟨?_, ?_, ?_, ?_, ?_⟩
  · intro i hi
    show maskBit _ i = true ↔ _
    rw [h3 i (by omega)]
    simp [hi]
  · intro i hi
    show List.getD _ i 0 = _ ∧ List.getD _ i 0 < 2 ^ 64
    rw [h4 i (by omega)]
    by_cases hok : batchEntryOk h.memory arm i = true
    · simp only [hi, hok, and_self, if_true, Memory.load, true_and]
      have hlt := h.memory.load_lt (arm.addresses.getD i 0) (arm.sizes.getD i 0)
      simp only [Memory.load] at hlt
      rcases ((batchEntryOk_iff h.memory arm i).mp hok).1 with hs | hs | hs | hs <;>
        rw [hs] at hlt ⊢ <;> omega
    · simp [hok]
  · intro i hi1 hi2
    show maskBit _ i = false
    rw [h3 i hi2]
    simp [Nat.not_lt.mpr hi1]
  · show (if _ > 0 then 1 else 0) = 1 ↔ _
    constructor
    · intro hs
      have hpos : 0 < (batchReadLoop h.memory arm arm.count 0
          (({ count := arm.count, success_mask := [0, 0, 0, 0],
              values := List.replicate 32 0 } : BatchResult), 0)).2 := by
        by_contra hc
        rw [if_neg hc] at hs
        exact absurd hs (by decide)
      obtain ⟨j, hj, hok⟩ := h6.mp hpos
      exact ⟨j, by omega, by rw [h3 j (by omega)]; simp [hj, hok]⟩
    · rintro ⟨j, hj, hbit⟩
      rw [h3 j hj] at hbit
      simp only [Bool.and_eq_true, decide_eq_true_eq] at hbit
      rw [if_pos (h6.mpr ⟨j, hbit.1, hbit.2⟩)]
  · show (if _ > 0 then 1 else 0) = 0 ∨ (if _ > 0 then 1 else 0) = 1
    split <;> simp

/-- C2 at the scenario of the specification: bits 0..3 set, bit 4 clear, and the values
`0x00, 0x0302, 0x07060504, 0x0F0E0D0C0B0A0908`. -/
theorem batch_read_correct_witness :
    (1 ≤ batchScenarioArm.count ∧ batchScenarioArm.count ≤ 32) ∧
    maskBit (dispatch {} batchScenarioHost
      (batchReadRequest batchScenarioArm)).response.batch_result.success_mask 0 = true ∧
    maskBit (dispatch {} batchScenarioHost
      (batchReadRequest batchScenarioArm)).response.batch_result.success_mask 3 = true ∧
    maskBit (dispatch {} batchScenarioHost
      (batchReadRequest batchScenarioArm)).response.batch_result.success_mask 4 = false ∧
    (dispatch {} batchScenarioHost
      (batchReadRequest batchScenarioArm)).response.batch_result.values.getD 1 0 = 0x0302 ∧
    (dispatch {} batchScenarioHost
      (batchReadRequest batchScenarioArm)).response.batch_result.values.getD 2 0 = 0x07060504 ∧
    (dispatch {} batchScenarioHost
      (batchReadRequest batchScenarioArm)).response.batch_result.values.getD 3 0
        = 0x0F0E0D0C0B0A0908 ∧
    (dispatch {} batchScenarioHost
      (batchReadRequest batchScenarioArm)).response.batch_result.values.getD 4 0 = 0 :=
  have h := batch_read_correct {} batchScenarioHost batchScenarioArm rfl rfl
    (by decide) (by decide)
  ⟨⟨by decide, by decide⟩,
   (h.1 0 (by decide)).mpr (by decide),
   (h.1 3 (by decide)).mpr (by decide),
   Bool.eq_false_iff.mpr (fun hc => absurd ((h.1 4 (by decide)).mp hc) (by decide)),
   ((h.2.1 1 (by decide)).1).trans (by decide),
   ((h.2.1 2 (by decide)).1).trans (by decide),
   ((h.2.1 3 (by decide)).1).trans (by decide),
   ((h.2.1 4 (by decide)).1).trans (by decide)⟩

/-! ## Array read -/

theorem bridge_route_array (env : Env) (h : Host) (request : PipeRequest)
    (response : PipeResponse) (ht : request.type = READ_MEMORY_ARRAY) :
    RPCBridge.HandleRequest env h request response =
      ((RPCBridge.HandleArrayRequest env h request zeroResponse).1,
       { response := (RPCBridge.HandleArrayRequest env h request zeroResponse).2.1,
         host := (RPCBridge.HandleArrayRequest env h request zeroResponse).2.2,
         handlers := [Handler.HandleArrayRequest] }) := by
  simp [RPCBridge.HandleRequest, ht]

theorem overflow_check_iff (s c : Nat) : (c > 0 ∧ s > 2048 / c) ↔ c * s > 2048 := by
  constructor
  · rintro ⟨hc, hs⟩
    have h1 : 2048 / c < s := hs
    have h2 := (Nat.div_lt_iff_lt_mul hc).mp h1
    rw [Nat.mul_comm] at h2
    exact h2
  · intro h
    have hc : c > 0 := by
      rcases Nat.eq_zero_or_pos c with h0 | h0
      · subst h0; simp at h
      · exact h0
    refine ⟨hc, ?_⟩
    show 2048 / c < s
    rw [Nat.div_lt_iff_lt_mul hc, Nat.mul_comm]
    exact h

theorem dispatch_array (env : Env) (h : Host) (address elementType count s : Nat)
    (hrun : h.server.running = true) (hlive : IsDllShuttingDown h.g_dllState = false)
    (hs : elementSizeOf env elementType = some s) (haddr : address ≠ 0) :
    dispatch env h (arrayReadRequest address elementType count) =
      { response :=
          if count * s > 2048 then
            { zeroResponse with
                error_message := "Array too large (overflow)", success := 0 }
          else
            match h.memory.tryCopyOut address (count * s) with
            | none => { zeroResponse with error_message := "Memory read exception",
                                          success := 0 }
            | some bytes =>
              { zeroResponse with
                  array_result :=
                    { element_type := elementType, element_count := count,
                      element_size := s, total_size := count * s, data := bytes },
                  success := 1 },
        host := h, handlers := [Handler.HandleArrayRequest] } := by
  rw [dispatch_bridge env h _ hrun hlive (show REGISTER_FUNCTION ≤ READ_MEMORY_ARRAY by decide),
    bridge_route_array env h _ _ rfl]
  simp only [RPCBridge.HandleArrayRequest, arrayReadRequest, if_true, hs]
  by_cases hbig : count * s > 2048
  · have hov := (overflow_check_iff s count).mpr hbig
    simp [hbig, hov]
  · have hov : ¬ (count > 0 ∧ s > 2048 / count) := fun hc =>
      hbig ((overflow_check_iff s count).mp hc)
    have hmod : s * count % 2 ^ 32 = count * s := by
      rw [Nat.mul_comm, Nat.mod_eq_of_lt]
      omega
    have hle : ¬ (count * s > 2048) := hbig
    simp only [hov, if_false, hmod, hle, haddr]
    cases h.memory.tryCopyOut address (count * s) <;> simp

/-- C3, amended: for a running host and an array-read request with a valid element type of
size `s` and a non-null address, the request is rejected exactly when `count * s > 2048` over
the naturals or the `count * s` bytes at the address are not all readable; when it is
accepted, `total_size` is `count * s` without wrap-around, `element_size` is `s`,
`element_count` is the count and the payload holds the bytes read. -/
theorem array_read_reject_iff (env : Env) (h : Host) (address elementType count s : Nat)
    (hrun : h.server.running = true) (hlive : IsDllShuttingDown h.g_dllState = false)
    (hs : elementSizeOf env elementType = some s) (haddr : address ≠ 0) :
    ((dispatch env h (arrayReadRequest address elementType count)).response.success = 0 ↔
      (count * s > 2048 ∨ h.memory.rangeReadable address (count * s) = false)) ∧
    ((dispatch env h (arrayReadRequest address elementType count)).response.success = 0 ∨
      (dispatch env h (arrayReadRequest address elementType count)).response.success = 1) ∧
    ((dispatch env h (arrayReadRequest address elementType count)).response.success = 1 →
      (dispatch env h (arrayReadRequest address elementType count)).response.array_result.total_size
        = count * s ∧
      (dispatch env h (arrayReadRequest address elementType count)).response.array_result.element_size
        = s ∧
      (dispatch env h (arrayReadRequest address elementType count)).response.array_result.element_count
        = count ∧
      (dispatch env h (arrayReadRequest address elementType count)).response.array_result.data
        = h.memory.bytes address (count * s)) := by
  rw [dispatch_array env h address elementType count s hrun hlive hs haddr]
  by_cases hbig : count * s > 2048
  · simp [hbig, zeroResponse]
  · by_cases hr : h.memory.rangeReadable address (count * s) = true
    · simp [hbig, hr, Memory.tryCopyOut, zeroResponse]
    · simp [hbig, hr, Memory.tryCopyOut, zeroResponse]

/-- C3 (amended) at a concrete input: 3 elements of type i32 at a readable address. -/
theorem array_read_reject_iff_witness :
    (elementSizeOf {} PARAM_INT32 = some 4 ∧ (0x2000 : Nat) ≠ 0) ∧
    (dispatch {} batchScenarioHost (arrayReadRequest 0x2000 PARAM_INT32 3)).response.success = 1 ∧
    (dispatch {} batchScenarioHost
      (arrayReadRequest 0x2000 PARAM_INT32 3)).response.array_result.total_size = 12 :=
  have h := array_read_reject_iff {} batchScenarioHost 0x2000 PARAM_INT32 3 4 rfl rfl rfl
    (by decide)
  have hs : (dispatch {} batchScenarioHost
      (arrayReadRequest 0x2000 PARAM_INT32 3)).response.success = 1 :=
    h.2.1.resolve_left (fun h0 => absurd (h.1.mp h0) (by decide))
  ⟨⟨rfl, by decide⟩, hs, (h.2.2 hs).1⟩

/-- C3 as stated fails: one element of type i8 at an address that is not committed is
rejected although `1 * 1` does not exceed 2048. -/
theorem array_read_rejects_unreadable :
    ¬ ((dispatch {} (runningHost emptyMemory)
          (arrayReadRequest 0x1000 PARAM_INT8 1)).response.success = 0 ↔ 1 * 1 > 2048) := by
  have h0 : (dispatch {} (runningHost emptyMemory)
      (arrayReadRequest 0x1000 PARAM_INT8 1)).response.success = 0 := by decide
  intro hiff
  exact absurd (hiff.mp h0) (by decide)

/-! ## Write then read -/

theorem writable_readable (p : Nat) (hp : writableProt p = true) : readableProt p = true := by
  simp only [writableProt, readableProt, Bool.and_eq_true, beq_iff_eq, bne_iff_ne, ne_eq] at hp ⊢
  refine ⟨hp.1, fun h0 => hp.2 ?_⟩
  have : p &&& 0xCC = (p &&& 0xEE) &&& 0xCC := by
    rw [Nat.land_assoc]
    rfl
  rw [this, h0]
  rfl

theorem rangeWritable_at (m : Memory) (a n i : Nat) (hw : m.rangeWritable a n = true)
    (hi : i < n) : ∃ p, m.protect (a + i) = some p ∧ writableProt p = true := by
  simp only [Memory.rangeWritable, List.all_eq_true, List.mem_range] at hw
  have h := hw i hi
  cases hp : m.protect (a + i) with
  | none => simp [hp] at h
  | some p => exact ⟨p, rfl, by simpa [hp] using h⟩

theorem payloadSource_length (env : Env) (data : List Nat) (n : Nat) :
    (payloadSource env data n).length = n := by
  simp [payloadSource]

theorem payloadSource_getD (env : Env) (data : List Nat) (n i : Nat) (hi : i < n) :
    (payloadSource env data n).getD i 0 =
      if i < 1024 then data.getD i 0
      else if i < data.length ∧ i < payloadFrameBytes then data.getD i 0
      else env.afterPayload (i - 1024) := by
  simp [payloadSource, List.getD_eq_getElem?_getD, List.getElem?_map, List.getElem?_range hi]

/-- Behind a message that ends with the payload field the copy reads the storage. -/
theorem payloadSource_getD_field (env : Env) (data : List Nat) (n i : Nat) (hi : i < n)
    (hd : data.length ≤ 1024) :
    (payloadSource env data n).getD i 0 =
      if i < 1024 then data.getD i 0 else env.afterPayload (i - 1024) := by
  rw [payloadSource_getD env data n i hi]
  by_cases h1 : i < 1024
  · rw [if_pos h1, if_pos h1]
  · rw [if_neg h1, if_neg h1, if_neg (by omega)]

/-- A message that carries all the bytes copied, inside the request object: the copy takes
exactly these bytes. -/
theorem payloadSource_message (env : Env) (data : List Nat)
    (hd : data.length ≤ payloadFrameBytes) :
    payloadSource env data data.length = data := by
  apply List.ext_getElem
  · simp [payloadSource]
  · intro i h1 h2
    simp only [payloadSource, List.getElem_map, List.getElem_range]
    by_cases hi : i < 1024
    · rw [if_pos hi]
      exact List.getD_eq_getElem _ _ h2
    · rw [if_neg hi, if_pos ⟨h2, by omega⟩]
      exact List.getD_eq_getElem _ _ h2

/-- What `WriteMemory` does on a writable range: it succeeds, only host memory changes, the
range is readable afterwards and holds the copied bytes. -/
theorem WriteMemory_writable (env : Env) (h : Host) (a n : Nat) (data : List Nat)
    (ha : a ≠ 0) (hn0 : 0 < n) (hn : n ≤ MAX_WRITE_SIZE)
    (hw : h.memory.rangeWritable a n = true) :
    (RPCBridge.WriteMemory env h a data n).1 = true ∧
    (RPCBridge.WriteMemory env h a data n).2.server = h.server ∧
    (RPCBridge.WriteMemory env h a data n).2.g_dllState = h.g_dllState ∧
    (RPCBridge.WriteMemory env h a data n).2.bridge = h.bridge ∧
    (RPCBridge.WriteMemory env h a data n).2.memory.rangeReadable a n = true ∧
    (RPCBridge.WriteMemory env h a data n).2.memory.bytes a n =
      (payloadSource env data n).map (fun b => b % 256) := by
  obtain ⟨p0, hp0, hwp0⟩ := rangeWritable_at h.memory a n 0 hw hn0
  rw [Nat.add_zero] at hp0
  have hall : (List.range n).all (fun i => (h.memory.protect (a + i)).isSome) = true := by
    simp only [List.all_eq_true, List.mem_range]
    intro i hi
    obtain ⟨p, hp, _⟩ := rangeWritable_at h.memory a n i hw hi
    simp [hp]
  have hguard : ¬ (a = 0 ∨ n = 0 ∨ n > MAX_WRITE_SIZE) := by omega
  have hin : a ≤ a ∧ a < a + n := ⟨le_refl _, by omega⟩
  have hall2 : (List.range n).all (fun i =>
      (if a ≤ a + i ∧ a + i < a + n then some PAGE_EXECUTE_READWRITE
        else h.memory.protect (a + i)).isSome) = true := by
    simp only [List.all_eq_true, List.mem_range]
    intro i hi
    have : a ≤ a + i ∧ a + i < a + n := ⟨by omega, by omega⟩
    simp [this]
  have hW : RPCBridge.WriteMemory env h a data n =
      (true, { h with memory :=
        { h.memory with
          protect := fun x => if a ≤ x ∧ x < a + n then some p0
            else if a ≤ x ∧ x < a + n then some PAGE_EXECUTE_READWRITE
            else h.memory.protect x,
          byte := fun x => if a ≤ x ∧ x < a + (payloadSource env data n).length
            then (payloadSource env data n).getD (x - a) 0 % 256 else h.memory.byte x } }) := by
    simp only [RPCBridge.WriteMemory, hguard, if_false, VirtualProtect, hall, if_true, hp0,
      Memory.store, hall2, hin, and_self]
  rw [hW]
  refine ⟨rfl, rfl, rfl, rfl, ?_, ?_⟩
  · simp only [Memory.rangeReadable, Memory.canRead, List.all_eq_true, List.mem_range]
    intro i hi
    have : a ≤ a + i ∧ a + i < a + n := ⟨by omega, by omega⟩
    simp only [this, and_self, if_true]
    exact writable_readable p0 hwp0
  · simp only [Memory.bytes, payloadSource_length]
    apply List.ext_getElem
    · simp [payloadSource_length]
    · intro i h1 h2
      simp only [List.length_map, List.length_range] at h1
      have : a ≤ a + i ∧ a + i < a + n := ⟨by omega, by omega⟩
      simp only [List.getElem_map, List.getElem_range, this, and_self, if_true,
        Nat.add_sub_cancel_left, Nat.mod_mod]
      rw [List.getD_eq_getElem?_getD, List.getElem?_eq_getElem (by simpa [payloadSource_length] using h1)]
      rfl

theorem bridge_route_memory (env : Env) (h : Host) (request : PipeRequest)
    (response : PipeResponse)
    (ht : request.type = ALLOCATE_MEMORY ∨ request.type = FREE_MEMORY ∨
      request.type = WRITE_MEMORY ∨ request.type = PROTECT_MEMORY) :
    RPCBridge.HandleRequest env h request response =
      ((RPCBridge.HandleMemoryRequest env h request zeroResponse).1,
       { response := (RPCBridge.HandleMemoryRequest env h request zeroResponse).2.1,
         host := (RPCBridge.HandleMemoryRequest env h request zeroResponse).2.2,
         handlers := [Handler.HandleMemoryRequest] }) := by
  rcases ht with ht | ht | ht | ht <;> simp [RPCBridge.HandleRequest, ht]

theorem dispatch_write (env : Env) (h : Host) (addr : Nat) (arr : List Nat)
    (hrun : h.server.running = true) (hlive : IsDllShuttingDown h.g_dllState = false) :
    dispatch env h (writeRequest addr arr) =
      if addr = 0 ∨ arr.length = 0 ∨ arr.length > MAX_WRITE_SIZE then
        { response := { zeroResponse with error_message := "Invalid write parameters",
                                          success := 0 },
          host := h, handlers := [Handler.HandleMemoryRequest] }
      else
        { response :=
            if (RPCBridge.WriteMemory env h addr (arr.take 1024) arr.length).1 = true
            then { zeroResponse with success := 1 }
            else { zeroResponse with success := 0, error_message := "Failed to write memory" },
          host := (RPCBridge.WriteMemory env h addr (arr.take 1024) arr.length).2,
          handlers := [Handler.HandleMemoryRequest] } := by
  rw [dispatch_bridge env h _ hrun hlive (show REGISTER_FUNCTION ≤ WRITE_MEMORY by decide),
    bridge_route_memory env h _ _ (Or.inr (Or.inr (Or.inl rfl)))]
  by_cases hg : addr = 0 ∨ arr.length = 0 ∨ arr.length > MAX_WRITE_SIZE
  · have hg2 := hg
    simp only [List.length_eq_zero, gt_iff_lt] at hg2
    simp [RPCBridge.HandleMemoryRequest, writeRequest, hg, hg2]
  · have hg2 := hg
    simp only [List.length_eq_zero, gt_iff_lt] at hg2
    cases hr : (RPCBridge.WriteMemory env h addr (List.take 1024 arr) arr.length).1 <;>
      simp [RPCBridge.HandleMemoryRequest, writeRequest, hg, hg2, hr, boolByte]

theorem dispatch_array_write (env : Env) (h : Host) (addr : Nat) (arr : List Nat)
    (hrun : h.server.running = true) (hlive : IsDllShuttingDown h.g_dllState = false) :
    dispatch env h (arrayWriteRequest addr arr) =
      if addr = 0 ∨ arr.length = 0 ∨ arr.length > MAX_WRITE_SIZE then
        { response := { zeroResponse with error_message := "Invalid write parameters",
                                          success := 0 },
          host := h, handlers := [Handler.HandleMemoryRequest] }
      else
        { response :=
            if (RPCBridge.WriteMemory env h addr arr arr.length).1 = true
            then { zeroResponse with success := 1 }
            else { zeroResponse with success := 0, error_message := "Failed to write memory" },
          host := (RPCBridge.WriteMemory env h addr arr arr.length).2,
          handlers := [Handler.HandleMemoryRequest] } := by
  rw [dispatch_bridge env h _ hrun hlive (show REGISTER_FUNCTION ≤ WRITE_MEMORY by decide),
    bridge_route_memory env h _ _ (Or.inr (Or.inr (Or.inl rfl)))]
  by_cases hg : addr = 0 ∨ arr.length = 0 ∨ arr.length > MAX_WRITE_SIZE
  · have hg2 := hg
    simp only [List.length_eq_zero, gt_iff_lt] at hg2
    simp [RPCBridge.HandleMemoryRequest, arrayWriteRequest, hg, hg2]
  · have hg2 := hg
    simp only [List.length_eq_zero, gt_iff_lt] at hg2
    cases hr : (RPCBridge.WriteMemory env h addr arr arr.length).1 <;>
      simp [RPCBridge.HandleMemoryRequest, arrayWriteRequest, hg, hg2, hr, boolByte]

/-- Writing an array of at most 2048 bytes to a writable range with one write-memory request
and reading it back with an array-read request: the read succeeds and returns the bytes the
copy took from the message. -/
theorem write_then_read (env : Env) (h : Host) (addr elementType k s : Nat) (arr : List Nat)
    (hrun : h.server.running = true) (hlive : IsDllShuttingDown h.g_dllState = false)
    (hs : elementSizeOf env elementType = some s) (hlen : arr.length = k * s)
    (hle : arr.length ≤ 2048) (haddr : addr ≠ 0)
    (hw : h.memory.rangeWritable addr arr.length = true) :
    (dispatch env (dispatch env h (arrayWriteRequest addr arr)).host
      (arrayReadRequest addr elementType k)).response.success = 1 ∧
    (dispatch env (dispatch env h (arrayWriteRequest addr arr)).host
      (arrayReadRequest addr elementType k)).response.array_result.data =
        (payloadSource env arr arr.length).map (fun b => b % 256) ∧
    (arr ≠ [] → (dispatch env h (arrayWriteRequest addr arr)).response.success = 1) := by
  rw [dispatch_array_write env h addr arr hrun hlive]
  by_cases h0 : arr.length = 0
  · have hg : addr = 0 ∨ arr.length = 0 ∨ arr.length > MAX_WRITE_SIZE := Or.inr (Or.inl h0)
    rw [if_pos hg]
    rw [dispatch_array env h addr elementType k s hrun hlive hs haddr]
    have hk : k * s = 0 := by omega
    have hnil : arr = [] := List.length_eq_zero.mp h0
    simp [hk, Memory.tryCopyOut, Memory.rangeReadable, Memory.bytes, zeroResponse, h0,
      payloadSource, hnil]
  · have hpos : 0 < arr.length := Nat.pos_of_ne_zero h0
    have hmax : arr.length ≤ MAX_WRITE_SIZE := by
      have : (2048 : Nat) ≤ MAX_WRITE_SIZE := by decide
      omega
    have hg : ¬ (addr = 0 ∨ arr.length = 0 ∨ arr.length > MAX_WRITE_SIZE) := by omega
    rw [if_neg hg]
    obtain ⟨w1, w2, w3, _, w5, w6⟩ :=
      WriteMemory_writable env h addr arr.length arr haddr hpos hmax hw
    rw [dispatch_array env _ addr elementType k s (by rw [w2]; exact hrun)
      (by rw [w3]; exact hlive) hs haddr]
    have hbig : ¬ (arr.length > 2048) := by omega
    simp only [hbig, if_false, Memory.tryCopyOut, ← hlen, w5, if_true, w6, w1]
    exact ⟨trivial, trivial, fun _ => trivial⟩

theorem getD_map_mod (l : List Nat) (i : Nat) (hi : i < l.length) :
    (l.map (fun b => b % 256)).getD i 0 = l.getD i 0 % 256 := by
  simp [List.getD_eq_getElem?_getD, List.getElem?_eq_getElem hi]

theorem regionMemory_rangeWritable (base : Nat) (content : List Nat) (prot n : Nat)
    (hp : writableProt prot = true) (hn : n ≤ content.length) :
    (regionMemory base content prot).rangeWritable base n = true := by
  simp only [Memory.rangeWritable, regionMemory, List.all_eq_true, List.mem_range]
  intro i hi
  have : base ≤ base + i ∧ base + i < base + content.length := ⟨by omega, by omega⟩
  simp [this, hp]

/-- C4: for a running host, an array of bytes of `k` elements of a valid element type of
size `s` with `k * s ≤ 2048`, and a writable target address (a target is not the null
address), one write-memory request that carries the array, followed by an array-read
request of `k` elements at the same address, yields success and returns exactly the
original bytes; the write request itself succeeds when the array is not empty. -/
theorem write_read_roundtrip (env : Env) (h : Host) (addr elementType k s : Nat)
    (arr : List Nat)
    (hrun : h.server.running = true) (hlive : IsDllShuttingDown h.g_dllState = false)
    (hbytes : ∀ b ∈ arr, b < 256)
    (hs : elementSizeOf env elementType = some s) (hlen : arr.length = k * s)
    (hle : k * s ≤ 2048) (haddr : addr ≠ 0)
    (hw : h.memory.rangeWritable addr arr.length = true) :
    (dispatch env (dispatch env h (arrayWriteRequest addr arr)).host
      (arrayReadRequest addr elementType k)).response.success = 1 ∧
    (dispatch env (dispatch env h (arrayWriteRequest addr arr)).host
      (arrayReadRequest addr elementType k)).response.array_result.data = arr ∧
    (arr ≠ [] → (dispatch env h (arrayWriteRequest addr arr)).response.success = 1) := by
  have hle2 : arr.length ≤ 2048 := by omega
  obtain ⟨r1, r2, r3⟩ := write_then_read env h addr elementType k s arr hrun hlive hs hlen
    hle2 haddr hw
  refine ⟨r1, ?_, r3⟩
  have hcap : arr.length ≤ payloadFrameBytes := by
    have : (2048 : Nat) ≤ payloadFrameBytes := by decide
    omega
  rw [r2, payloadSource_message env arr hcap]
  apply List.ext_getElem
  · simp
  · intro i h1 h2
    have hb : arr[i] < 256 := hbytes _ (List.getElem_mem h2)
    simp only [List.getElem_map]
    exact Nat.mod_eq_of_lt hb

/-- C4 at a concrete input: the array of 1025 one-byte elements, 1024 zeros followed by a
one, is written to `0x4000` and read back; its last byte lies behind the payload field. -/
theorem write_read_roundtrip_witness :
    (longArray.length = 1025 * 1 ∧
      roundtripHost.memory.rangeWritable 0x4000 longArray.length = true) ∧
    (dispatch {} (dispatch {} roundtripHost (arrayWriteRequest 0x4000 longArray)).host
      (arrayReadRequest 0x4000 PARAM_INT8 1025)).response.success = 1 ∧
    (dispatch {} (dispatch {} roundtripHost (arrayWriteRequest 0x4000 longArray)).host
      (arrayReadRequest 0x4000 PARAM_INT8 1025)).response.array_result.data = longArray :=
  have hlen : longArray.length = 1025 * 1 := by
    simp only [longArray, List.length_append, List.length_replicate, List.length_singleton]
  have hb : ∀ b ∈ longArray, b < 256 := by
    intro b hb
    simp only [longArray, List.mem_append, List.mem_replicate, List.mem_singleton] at hb
    rcases hb with hb | hb
    · rw [hb.2]; decide
    · rw [hb]; decide
  have hw : roundtripHost.memory.rangeWritable 0x4000 longArray.length = true :=
    regionMemory_rangeWritable 0x4000 _ _ _ (by decide)
      (by rw [hlen, List.length_replicate]; decide)
  have h := write_read_roundtrip {} roundtripHost 0x4000 PARAM_INT8 1025 1 longArray
    rfl rfl hb rfl hlen (by decide) (by decide) hw
  ⟨⟨hlen, hw⟩, h.1, h.2.1⟩

/-- A short array: three i16 elements written to `0x4000` and read back. -/
theorem short_array_roundtrip :
    (dispatch {} (dispatch {} roundtripHost (arrayWriteRequest 0x4000 [1, 2, 3, 4, 5, 255])).host
      (arrayReadRequest 0x4000 PARAM_INT16 3)).response.success = 1 ∧
    (dispatch {} (dispatch {} roundtripHost (arrayWriteRequest 0x4000 [1, 2, 3, 4, 5, 255])).host
      (arrayReadRequest 0x4000 PARAM_INT16 3)).response.array_result.data
        = [1, 2, 3, 4, 5, 255] :=
  have hw : roundtripHost.memory.rangeWritable 0x4000 6 = true :=
    regionMemory_rangeWritable 0x4000 _ _ 6 (by decide) (by rw [List.length_replicate]; decide)
  have h := write_then_read {} roundtripHost 0x4000 PARAM_INT16 3 2 [1, 2, 3, 4, 5, 255]
    rfl rfl rfl rfl (by decide) (by decide) hw
  ⟨h.1, h.2.1.trans (by decide)⟩

/-! ## Registries as association lists -/

theorem mapFind_mapAssign_self {κ β : Type} [DecidableEq κ] (m : List (κ × β)) (k : κ) (v : β) :
    mapFind (mapAssign m k v) k = some v := by
  unfold mapAssign
  split
  · rename_i hs
    induction m with
    | nil => simp [mapFind] at hs
    | cons e m ih =>
      by_cases hek : e.1 = k
      · simp [mapFind, List.find?, hek]
      · have hs2 : (mapFind m k).isSome = true := by
          simpa [mapFind, List.find?, hek] using hs
        have := ih hs2
        simp only [mapFind, List.map_cons, hek, if_false, List.find?, decide_False] at this ⊢
        exact this
  · rename_i hs
    induction m with
    | nil => simp [mapFind, List.find?]
    | cons e m ih =>
      by_cases hek : e.1 = k
      · simp [mapFind, List.find?, hek] at hs
      · have hs2 : ¬ (mapFind m k).isSome = true := by
          simpa [mapFind, List.find?, hek] using hs
        have := ih hs2
        simp only [mapFind, List.cons_append, List.find?, hek, decide_False] at this ⊢
        exact this

/-! ## Event rings -/

theorem limitQueue_eq_lastN (cap : Nat) (l : List EventData) :
    limitQueue cap l = lastN cap l := by
  induction l with
  | nil => simp [limitQueue, lastN]
  | cons e q ih =>
    simp only [limitQueue, lastN, List.length_cons] at ih ⊢
    split
    · rename_i hgt
      rw [ih, show q.length + 1 - cap = (q.length - cap) + 1 by omega, List.drop_succ_cons]
    · rename_i hle
      rw [show q.length + 1 - cap = 0 by omega, List.drop_zero]

theorem popEvents_eq (n : Nat) (q : List EventData) : popEvents n q = (q.take n, q.drop n) := by
  induction n generalizing q with
  | zero => simp [popEvents]
  | succ n ih =>
    cases q with
    | nil => simp [popEvents]
    | cons e q => simp [popEvents, ih]

theorem lastN_append_singleton {α : Type} (cap : Nat) (l : List α) (e : α) :
    lastN cap (lastN cap l ++ [e]) = lastN cap (l ++ [e]) := by
  simp only [lastN, List.length_append, List.length_drop, List.length_singleton]
  by_cases hle : l.length ≤ cap
  · rw [show l.length - cap = 0 by omega, List.drop_zero]
    simp
  · have h1 : l.length - (l.length - cap) + 1 - cap = 1 := by omega
    have h2 : l.length + 1 - cap = (l.length - cap) + 1 := by omega
    rw [h1, h2, ← List.drop_drop,
      List.drop_append_of_le_length (by omega : l.length - cap ≤ l.length)]

theorem PushEvent_ring (env : Env) (b : RPCBridge) (name : String) (eb : EventBuffer)
    (event_id : Nat) (data : Option (List Nat)) (data_size : Nat)
    (hfind : mapFind b.event_buffers name = some eb) :
    mapFind (RPCBridge.PushEvent env b name event_id data data_size).event_buffers name =
      some
        { eb with
          pending_events :=
            lastN eb.max_events (eb.pending_events ++ [makeEvent env event_id data data_size]) } := by
  simp only [RPCBridge.PushEvent, hfind, mapFind_mapAssign_self, limitQueue_eq_lastN]

theorem pushAll_ring (name : String) (pushes : List Push) :
    ∀ (b : RPCBridge) (eb : EventBuffer) (es0 : List EventData),
      mapFind b.event_buffers name = some eb →
      eb.pending_events = lastN eb.max_events es0 →
      mapFind (pushAll b name pushes).event_buffers name =
        some { eb with pending_events := lastN eb.max_events (es0 ++ pushedEvents pushes) } := by
  induction pushes with
  | nil =>
    intro b eb es0 hfind hq
    simp only [pushAll, pushedEvents, List.map_nil, List.append_nil, hfind, ← hq]
  | cons p ps ih =>
    intro b eb es0 hfind hq
    have hstep := PushEvent_ring p.env b name eb p.event_id p.data p.data_size hfind
    have hnext := ih _ _ (es0 ++ [makeEvent p.env p.event_id p.data p.data_size]) hstep
      (by simp only [hq, lastN_append_singleton])
    simp only [pushAll, hnext, pushedEvents, List.map_cons, List.append_assoc,
      List.singleton_append]

theorem RegisterEventBuffer_ring (h0 : Host) (name : String) (buffer size c : Nat)
    (hreg : (RPCBridge.RegisterEventBuffer h0 name buffer size c).1 = true) :
    mapFind (RPCBridge.RegisterEventBuffer h0 name buffer size c).2.bridge.event_buffers name =
      some { name := name, address := buffer, size := size, max_events := ringCapacity c,
             pending_events := [] } := by
  unfold RPCBridge.RegisterEventBuffer at hreg ⊢
  split at hreg
  · exact absurd hreg (by simp)
  · rename_i hg
    rw [if_neg hg]
    cases hq : VirtualQuery h0.memory buffer with
    | none => simp [hq] at hreg
    | some mbi =>
      simp only [hq] at hreg ⊢
      split at hreg
      · exact absurd hreg (by simp)
      · rename_i hc
        rw [if_neg hc]
        simp only [mapFind_mapAssign_self, ringCapacity]
        by_cases h0c : c = 0
        · simp [h0c]
        · simp [h0c, Nat.pos_of_ne_zero h0c]

/-- C5: when a ring is registered with capacity `c` (0 standing for 100) and the producer
then pushes `n` events, the ring holds exactly the last `min n c` pushed events in push
order; a following poll with limit `m` returns the oldest `min m (min n c)` of them in that
order and leaves the rest queued. -/
theorem event_ring_fifo (h0 : Host) (name : String) (buffer size c : Nat)
    (pushes : List Push) (m : Nat)
    (hreg : (RPCBridge.RegisterEventBuffer h0 name buffer size c).1 = true) :
    ringEvents (pushAll (RPCBridge.RegisterEventBuffer h0 name buffer size c).2.bridge name
        pushes) name
      = some (lastN (min pushes.length (ringCapacity c)) (pushedEvents pushes)) ∧
    (lastN (min pushes.length (ringCapacity c)) (pushedEvents pushes)).length
      = min pushes.length (ringCapacity c) ∧
    (RPCBridge.GetPendingEvents
        (pushAll (RPCBridge.RegisterEventBuffer h0 name buffer size c).2.bridge name pushes)
        name m).1
      = (lastN (min pushes.length (ringCapacity c)) (pushedEvents pushes)).take m ∧
    (RPCBridge.GetPendingEvents
        (pushAll (RPCBridge.RegisterEventBuffer h0 name buffer size c).2.bridge name pushes)
        name m).1.length
      = min m (min pushes.length (ringCapacity c)) ∧
    ringEvents (RPCBridge.GetPendingEvents
        (pushAll (RPCBridge.RegisterEventBuffer h0 name buffer size c).2.bridge name pushes)
        name m).2 name
      = some ((lastN (min pushes.length (ringCapacity c)) (pushedEvents pushes)).drop m) := by
  have hring := pushAll_ring name pushes _ _ [] (RegisterEventBuffer_ring h0 name buffer size c hreg)
    (by simp [lastN])
  simp only [List.nil_append] at hring
  have hlen : (pushedEvents pushes).length = pushes.length := by simp [pushedEvents]
  have hlast : lastN (min pushes.length (ringCapacity c)) (pushedEvents pushes) =
      lastN (ringCapacity c) (pushedEvents pushes) := by
    simp only [lastN, hlen]
    congr 1
    omega
  have hl : (lastN (ringCapacity c) (pushedEvents pushes)).length
      = min pushes.length (ringCapacity c) := by
    simp only [lastN, List.length_drop, hlen]
    omega
  rw [hlast]
  refine ⟨by simp only [ringEvents, hring, Option.map_some'], hl, ?_, ?_, ?_⟩
  · by_cases hm : m = 0
    · simp [RPCBridge.GetPendingEvents, hm]
    · simp only [RPCBridge.GetPendingEvents, hm, if_false, hring, popEvents_eq]
  · by_cases hm : m = 0
    · simp [RPCBridge.GetPendingEvents, hm]
    · simp only [RPCBridge.GetPendingEvents, hm, if_false, hring, popEvents_eq,
        List.length_take, hl]
  · by_cases hm : m = 0
    · simp [RPCBridge.GetPendingEvents, hm, ringEvents, hring]
    · simp only [RPCBridge.GetPendingEvents, hm, if_false, hring, popEvents_eq, ringEvents,
        mapFind_mapAssign_self, Option.map_some']

/-- C5 at the scenario of the specification: ring `E` with capacity 3, ids 1..5 pushed, a
poll with limit 10 returns 3 events with the ids 3, 4, 5. -/
theorem event_ring_fifo_witness :
    (RPCBridge.RegisterEventBuffer ringHost "E" 0x5000 16 3).1 = true ∧
    (RPCBridge.GetPendingEvents ringScenario "E" 10).1.length = 3 ∧
    (RPCBridge.GetPendingEvents ringScenario "E" 10).1.map (fun e => e.event_id) = [3, 4, 5] ∧
    ringEvents (RPCBridge.GetPendingEvents ringScenario "E" 10).2 "E" = some [] :=
  have hreg : (RPCBridge.RegisterEventBuffer ringHost "E" 0x5000 16 3).1 = true := by decide
  have h := event_ring_fifo ringHost "E" 0x5000 16 3 fivePushes 10 hreg
  ⟨hreg, h.2.2.2.1.trans (by decide),
   (congrArg (fun l => l.map (fun e => e.event_id)) h.2.2.1).trans (by decide),
   h.2.2.2.2.trans (by decide)⟩

/-! ## Heartbeat -/

theorem sub32_eq (a b : Nat) :
    sub32 a b = Int.toNat (((a : Int) - (b : Int)) % 2 ^ 32) := by
  unfold sub32
  norm_num
  omega

theorem bridge_route_heartbeat (env : Env) (h : Host) (request : PipeRequest)
    (response : PipeResponse) (ht : request.type = HEARTBEAT) :
    RPCBridge.HandleRequest env h request response =
      ((RPCBridge.HandleHeartbeatRequest env h request zeroResponse).1,
       { response := (RPCBridge.HandleHeartbeatRequest env h request zeroResponse).2.1,
         host := (RPCBridge.HandleHeartbeatRequest env h request zeroResponse).2.2,
         handlers := [Handler.HandleHeartbeatRequest] }) := by
  simp [RPCBridge.HandleRequest, ht]

theorem dispatch_heartbeat (env : Env) (h : Host) (t : Nat)
    (hrun : h.server.running = true) (hlive : IsDllShuttingDown h.g_dllState = false) :
    dispatch env h (heartbeatRequest t) =
      { response := { zeroResponse with
          heartbeat_result :=
            { client_timestamp := t, server_timestamp := env.tick % 2 ^ 32,
              latency_ms := if t > 0 then sub32 (env.tick % 2 ^ 32) t else 0 },
          success := 1 },
        host := h, handlers := [Handler.HandleHeartbeatRequest] } := by
  rw [dispatch_bridge env h _ hrun hlive (show REGISTER_FUNCTION ≤ HEARTBEAT by decide),
    bridge_route_heartbeat env h _ _ rfl]
  simp only [RPCBridge.HandleHeartbeatRequest, heartbeatRequest, if_true]

/-- C6, amended: for a running host, a client timestamp `t` and a 32-bit server tick `s`,
the heartbeat handler returns success 1, echoes `t`, reports `s`, and reports the
latency `(s - t) mod 2^32` when `t` is not 0, and the latency 0 when `t` is 0. -/
theorem heartbeat_latency (env : Env) (h : Host) (t : Nat)
    (hrun : h.server.running = true) (hlive : IsDllShuttingDown h.g_dllState = false)
    (hs : env.tick < 2 ^ 32) :
    (dispatch env h (heartbeatRequest t)).response.success = 1 ∧
    (dispatch env h (heartbeatRequest t)).response.heartbeat_result.client_timestamp = t ∧
    (dispatch env h (heartbeatRequest t)).response.heartbeat_result.server_timestamp
      = env.tick ∧
    (dispatch env h (heartbeatRequest t)).response.heartbeat_result.latency_ms
      = (if t = 0 then 0 else Int.toNat (((env.tick : Int) - (t : Int)) % 2 ^ 32)) ∧
    (dispatch env h (heartbeatRequest t)).host = h := by
  rw [dispatch_heartbeat env h t hrun hlive]
  have hmod : env.tick % 2 ^ 32 = env.tick := Nat.mod_eq_of_lt hs
  refine ⟨rfl, rfl, hmod, ?_, rfl⟩
  show (if t > 0 then sub32 (env.tick % 2 ^ 32) t else 0) = _
  by_cases h0 : t = 0
  · simp [h0]
  · rw [if_pos (Nat.pos_of_ne_zero h0), if_neg h0, hmod, sub32_eq]

/-- C6 (amended) at a concrete input: a tick counter that wrapped (`s = 5`, `t = 2^32 - 10`)
gives the latency 15. -/
theorem heartbeat_latency_witness :
    (5 : Nat) < 2 ^ 32 ∧
    (dispatch { tick := 5 } (runningHost emptyMemory)
      (heartbeatRequest 4294967286)).response.heartbeat_result.latency_ms = 15 :=
  have h := heartbeat_latency { tick := 5 } (runningHost emptyMemory) 4294967286 rfl rfl
    (by decide)
  ⟨by decide, h.2.2.2.1.trans (by decide)⟩

/-- C6 as stated fails: with client timestamp 0 and server tick 5 the reported latency is 0,
not `(5 - 0) mod 2^32`. -/
theorem heartbeat_zero_timestamp :
    (dispatch { tick := 5 } (runningHost emptyMemory)
      (heartbeatRequest 0)).response.heartbeat_result.latency_ms
      ≠ Int.toNat (((5 : Int) - 0) % 2 ^ 32) := by
  decide

/-! ## Shutdown gate -/

/-- C7: when the lifecycle state is ShuttingDown or Stopped, the endpoint dispatcher answers
every request with success 0 and the message "Server is shutting down", invokes no handler
and leaves the whole process state (function, allocation, detour and event registries,
pending-call queue, memory, detour engine) unchanged. -/
theorem shutdown_gate (env : Env) (h : Host) (request : PipeRequest) (response : PipeResponse)
    (hstate : h.g_dllState = DllState.ShuttingDown ∨ h.g_dllState = DllState.Stopped) :
    (NamedPipeServer.HandleRequest env h request response).response.success = 0 ∧
    (NamedPipeServer.HandleRequest env h request response).response.error_message
      = "Server is shutting down" ∧
    (NamedPipeServer.HandleRequest env h request response).handlers = [] ∧
    (NamedPipeServer.HandleRequest env h request response).host = h ∧
    (dispatch env h request).response.success = 0 ∧
    (dispatch env h request).response.error_message = "Server is shutting down" ∧
    (dispatch env h request).handlers = [] ∧
    (dispatch env h request).host = h := by
  have hgate : ∀ r, NamedPipeServer.HandleRequest env h request r =
      { response := { r with success := 0, error_message := "Server is shutting down" },
        host := h, handlers := [] } := by
    intro r
    have hs : IsDllShuttingDown h.g_dllState = true := by
      rcases hstate with hs | hs <;> simp [IsDllShuttingDown, hs]
    simp only [NamedPipeServer.HandleRequest, hs, Bool.or_true, if_true]
  rw [dispatch, hgate response, hgate zeroResponse]
  exact ⟨rfl, rfl, rfl, rfl, rfl, rfl, rfl, rfl⟩

/-- C7 at a concrete input: an allocation request at a stopped host. -/
theorem shutdown_gate_witness :
    (stoppedHost.g_dllState = DllState.ShuttingDown ∨ stoppedHost.g_dllState = DllState.Stopped) ∧
    (dispatch { VirtualAlloc := fun _ _ => 0x7000 } stoppedHost
      (allocateRequest 64 PAGE_READWRITE)).response.success = 0 ∧
    (dispatch { VirtualAlloc := fun _ _ => 0x7000 } stoppedHost
      (allocateRequest 64 PAGE_READWRITE)).host.bridge.allocations = [] :=
  have hs : stoppedHost.g_dllState = DllState.ShuttingDown ∨
      stoppedHost.g_dllState = DllState.Stopped := Or.inr rfl
  have h := shutdown_gate { VirtualAlloc := fun _ _ => 0x7000 } stoppedHost
    (allocateRequest 64 PAGE_READWRITE) zeroResponse hs
  ⟨hs, h.2.2.2.2.1, by rw [h.2.2.2.2.2.2.2]; rfl⟩

/-! ## Unknown request kinds -/

theorem bridge_default (env : Env) (h : Host) (request : PipeRequest) (response : PipeResponse)
    (hk : request.type ∉ requestTypes ∨ request.type = BATCH_REQUEST) :
    RPCBridge.HandleRequest env h request response =
      (false, { response := { zeroResponse with error_message := "Unknown request type" },
                host := h, handlers := [] }) := by
  rcases hk with hk | hk
  · simp only [requestTypes, List.mem_cons, List.mem_singleton, not_or, List.not_mem_nil,
      not_false_eq_true, and_true] at hk
    obtain ⟨h1, h2, h3, h4, h5, h6, h7, h8, h10, h11, h12, h13, h20, h21, h22, h23, h30, h31,
      h32, h33, h40, h41, h42, h45, h48, h49, h50, h51, h52, h53, h60, h61, h100⟩ := hk
    simp only [RPCBridge.HandleRequest, h1, h2, h3, h4, h5, h6, h7, h10, h11, h12, h13, h20, h21,
      h22, h23, h30, h31, h32, h33, h40, h41, h42, h45, h49, h50, h51, h52, h53, h60, h61, h100,
      or_self, if_false]
  · simp [RPCBridge.HandleRequest, hk]

theorem legacy_default (env : Env) (m : Memory) (request : PipeRequest) (response : PipeResponse)
    (hk : request.type ∉ requestTypes) :
    legacySwitch env m request response = none := by
  simp only [requestTypes, List.mem_cons, List.mem_singleton, not_or, List.not_mem_nil,
    not_false_eq_true, and_true] at hk
  obtain ⟨h1, h2, h3, h4, h5, h6, h7, h8, _⟩ := hk
  simp only [legacySwitch, h1, h2, h3, h4, h5, h6, h7, h8, if_false]

theorem dispatch_unknown (env : Env) (h : Host) (request : PipeRequest)
    (hrun : h.server.running = true) (hlive : IsDllShuttingDown h.g_dllState = false)
    (hk : request.type ∉ requestTypes ∨ request.type = BATCH_REQUEST) :
    dispatch env h request =
      { response := { zeroResponse with success := 0, error_message := "Unknown request type" },
        host := h, handlers := [] } := by
  by_cases hge : REGISTER_FUNCTION ≤ request.type
  · rw [dispatch_bridge env h request hrun hlive hge, bridge_default env h request _ hk]
    simp only [Bool.false_eq_true, if_false]
    rw [if_neg (by decide)]
  · have hlt : request.type < REGISTER_FUNCTION := not_le.mp hge
    have hk2 : request.type ∉ requestTypes := by
      rcases hk with hk | hk
      · exact hk
      · rw [hk] at hlt
        exact absurd hlt (by decide)
    rw [dispatch_legacy env h request hrun hlive hlt, legacy_default env h.memory request _ hk2]

/-! ## Messages of the handlers -/

theorem HandleFunctionRequest_message (env : Env) (h : Host) (request : PipeRequest)
    (response : PipeResponse) (hr : response.error_message ≠ "Unknown request type") :
    (RPCBridge.HandleFunctionRequest env h request response).2.1.error_message
      ≠ "Unknown request type" := by
  simp only [RPCBridge.HandleFunctionRequest]
  split_ifs <;> (try dsimp only) <;> first | exact hr | decide

theorem HandleMemoryRequest_message (env : Env) (h : Host) (request : PipeRequest)
    (response : PipeResponse) (hr : response.error_message ≠ "Unknown request type") :
    (RPCBridge.HandleMemoryRequest env h request response).2.1.error_message
      ≠ "Unknown request type" := by
  simp only [RPCBridge.HandleMemoryRequest]
  split_ifs <;> (try dsimp only) <;> first | exact hr | decide

theorem HandleHookRequest_message (env : Env) (h : Host) (request : PipeRequest)
    (response : PipeResponse) (hr : response.error_message ≠ "Unknown request type") :
    (RPCBridge.HandleHookRequest env h request response).2.1.error_message
      ≠ "Unknown request type" := by
  simp only [RPCBridge.HandleHookRequest]
  split_ifs <;> (try dsimp only) <;> first | exact hr | decide

/-- The offsets of the members behind the union, as numbers. -/
theorem frame_offsets :
    offsetofEventPayload = 8 ∧ sizeofEventData = 268 ∧ offsetofServerStatus = 2068 ∧
    offsetofDllStatus = 2340 ∧ offsetofErrorMessage = 2604 ∧ sizeofPipeResponse = 2860 := by
  decide

/-- The event copy of fewer than ten records ends before the error message. -/
theorem eventCopy_message (env : Env) (events : List EventData) (response : PipeResponse)
    (hlen : events.length < 10) :
    (eventCopy env events response).error_message = response.error_message := by
  obtain ⟨h1, h2, _, _, h5, _⟩ := frame_offsets
  simp only [eventCopy, copiedString, eventCopySize, h1, h2, h5]
  rw [if_neg (by omega)]

theorem HandleEventRequest_message (env : Env) (h : Host) (request : PipeRequest)
    (response : PipeResponse) (hr : response.error_message ≠ "Unknown request type")
    (hpoll : request.type = GET_PENDING_EVENTS →
      (RPCBridge.GetPendingEvents h.bridge request.event.name 10).1.length < 10) :
    (RPCBridge.HandleEventRequest env h request response).2.1.error_message
      ≠ "Unknown request type" := by
  simp only [RPCBridge.HandleEventRequest]
  by_cases h1 : request.type = REGISTER_EVENT_BUFFER
  · rw [if_pos h1]
    split_ifs <;> (try dsimp only) <;> first | exact hr | decide
  rw [if_neg h1]
  by_cases h2 : request.type = UNREGISTER_EVENT_BUFFER
  · rw [if_pos h2]
    split_ifs <;> (try dsimp only) <;> first | exact hr | decide
  rw [if_neg h2]
  by_cases h3 : request.type = GET_PENDING_EVENTS
  · rw [if_pos h3]
    dsimp only
    by_cases hc : (RPCBridge.GetPendingEvents h.bridge request.event.name 10).1.length > 0
    · rw [if_pos hc, eventCopy_message _ _ _ (hpoll h3)]
      exact hr
    · rw [if_neg hc]
      exact hr
  · rw [if_neg h3]
    exact hr

theorem HandleServerControlRequest_message (env : Env) (h : Host) (request : PipeRequest)
    (response : PipeResponse) (hr : response.error_message ≠ "Unknown request type")
    (hwhat : env.selfJoinWhat ≠ "Unknown request type") :
    (RPCBridge.HandleServerControlRequest env h request response).2.1.error_message
      ≠ "Unknown request type" := by
  simp only [RPCBridge.HandleServerControlRequest]
  split_ifs <;> (try dsimp only) <;> first | exact hr | exact hwhat | decide

theorem HandleDLLControlRequest_message (env : Env) (h : Host) (request : PipeRequest)
    (response : PipeResponse) (hr : response.error_message ≠ "Unknown request type") :
    (RPCBridge.HandleDLLControlRequest env h request response).2.1.error_message
      ≠ "Unknown request type" := by
  simp only [RPCBridge.HandleDLLControlRequest]
  split_ifs <;> exact hr

theorem HandleArrayRequest_message (env : Env) (h : Host) (request : PipeRequest)
    (response : PipeResponse) (hr : response.error_message ≠ "Unknown request type") :
    (RPCBridge.HandleArrayRequest env h request response).2.1.error_message
      ≠ "Unknown request type" := by
  simp only [RPCBridge.HandleArrayRequest]
  by_cases ht : request.type = READ_MEMORY_ARRAY
  · rw [if_pos ht]
    cases elementSizeOf env request.array_read.element_type with
    | none => dsimp only; decide
    | some s =>
      dsimp only
      split_ifs
      · dsimp only; decide
      · dsimp only; decide
      · dsimp only; decide
      · cases h.memory.tryCopyOut request.array_read.address
          (s * request.array_read.element_count % 2 ^ 32) with
        | none => dsimp only; decide
        | some bytes => exact hr
  · rw [if_neg ht]
    dsimp only
    decide

theorem HandleBatchReadRequest_message (h : Host) (request : PipeRequest)
    (response : PipeResponse) (hr : response.error_message ≠ "Unknown request type") :
    (RPCBridge.HandleBatchReadRequest h request response).2.1.error_message
      ≠ "Unknown request type" := by
  simp only [RPCBridge.HandleBatchReadRequest]
  split_ifs <;> (try dsimp only) <;> first | exact hr | decide

theorem HandleHeartbeatRequest_message (env : Env) (h : Host) (request : PipeRequest)
    (response : PipeResponse) (hr : response.error_message ≠ "Unknown request type") :
    (RPCBridge.HandleHeartbeatRequest env h request response).2.1.error_message
      ≠ "Unknown request type" := by
  simp only [RPCBridge.HandleHeartbeatRequest]
  exact hr

theorem append_ne_of_head (p s u : String) (hp : p.data.head? ≠ u.data.head?)
    (hne : p.data ≠ []) : p ++ s ≠ u := by
  intro h
  have h2 := congrArg (fun x => x.data.head?) h
  simp only [String.data_append, List.head?_append_of_ne_nil _ hne] at h2
  exact hp h2

theorem invalidPointerMessage_ne (i cur : Nat) :
    invalidPointerMessage i cur ≠ "Unknown request type" := by
  unfold invalidPointerMessage
  rw [String.append_assoc, String.append_assoc, String.append_assoc]
  exact append_ne_of_head _ _ _ (by decide) (by decide)

theorem invalidFinalMessage_ne (cur : Nat) :
    invalidFinalMessage cur ≠ "Unknown request type" := by
  unfold invalidFinalMessage
  exact append_ne_of_head _ _ _ (by decide) (by decide)

theorem pointerChainLoop_message (env : Env) (m : Memory) (offsets : List Int) :
    ∀ (n i : Nat) (st : Nat × PipeResponse),
      st.2.error_message ≠ "Unknown request type" →
      (pointerChainLoop env m offsets n i st).2.error_message ≠ "Unknown request type" := by
  intro n
  induction n with
  | zero => intro i st hst; exact hst
  | succ n ih =>
    intro i st hst
    simp only [pointerChainLoop]
    split_ifs
    · exact invalidPointerMessage_ne i st.1
    · exact ih _ _ hst

theorem caseReadPointerChain_message (env : Env) (m : Memory) (request : PipeRequest)
    (response : PipeResponse) (hr : response.error_message ≠ "Unknown request type") :
    (caseReadPointerChain env m request response).error_message ≠ "Unknown request type" := by
  have hloop := pointerChainLoop_message env m request.pointer_chain.offsets
    request.pointer_chain.offset_count 0 (request.pointer_chain.base_address, response) hr
  simp only [caseReadPointerChain]
  split_ifs <;> (try dsimp only) <;>
    first | exact hloop | exact invalidFinalMessage_ne _ | decide

theorem scanOutcome_message (response : PipeResponse) (address : Nat) (notFound : String)
    (hr : response.error_message ≠ "Unknown request type")
    (hn : notFound ≠ "Unknown request type") :
    (scanOutcome response address notFound).error_message ≠ "Unknown request type" := by
  simp only [scanOutcome]
  split_ifs <;> (try dsimp only) <;> first | exact hr | exact hn

theorem caseReadMemory_message (m : Memory) (request : PipeRequest)
    (response : PipeResponse) (hr : response.error_message ≠ "Unknown request type") :
    (caseReadMemory m request response).error_message ≠ "Unknown request type" := by
  simp only [caseReadMemory]
  split_ifs <;> (try dsimp only) <;> first | exact hr | decide

theorem legacySwitch_message (env : Env) (m : Memory) (request : PipeRequest)
    (response r : PipeResponse) (hr : response.error_message ≠ "Unknown request type")
    (hsw : legacySwitch env m request response = some r) :
    r.error_message ≠ "Unknown request type" := by
  simp only [legacySwitch] at hsw
  by_cases h1 : request.type = SCAN_FIND
  · rw [if_pos h1] at hsw
    cases hsw
    exact scanOutcome_message _ _ _ hr (by decide)
  rw [if_neg h1] at hsw
  by_cases h2 : request.type = SCAN_FIND_ASSERTION
  · rw [if_pos h2] at hsw
    cases hsw
    exact scanOutcome_message _ _ _ hr (by decide)
  rw [if_neg h2] at hsw
  by_cases h3 : request.type = SCAN_FIND_IN_RANGE
  · rw [if_pos h3] at hsw
    cases hsw
    exact scanOutcome_message _ _ _ hr (by decide)
  rw [if_neg h3] at hsw
  by_cases h4 : request.type = SCAN_TO_FUNCTION_START
  · rw [if_pos h4] at hsw
    cases hsw
    exact scanOutcome_message _ _ _ hr (by decide)
  rw [if_neg h4] at hsw
  by_cases h5 : request.type = SCAN_FUNCTION_FROM_NEAR_CALL
  · rw [if_pos h5] at hsw
    cases hsw
    exact scanOutcome_message _ _ _ hr (by decide)
  rw [if_neg h5] at hsw
  by_cases h6 : request.type = READ_MEMORY
  · rw [if_pos h6] at hsw
    cases hsw
    exact caseReadMemory_message m request response hr
  rw [if_neg h6] at hsw
  by_cases h7 : request.type = GET_SECTION_INFO
  · rw [if_pos h7] at hsw
    cases hsw
    split_ifs <;> (try dsimp only) <;> first | exact hr | decide
  rw [if_neg h7] at hsw
  by_cases h8 : request.type = READ_POINTER_CHAIN
  · rw [if_pos h8] at hsw
    cases hsw
    exact caseReadPointerChain_message env m request response hr
  rw [if_neg h8] at hsw
  exact absurd hsw (by simp)

theorem bridge_route_function (env : Env) (h : Host) (request : PipeRequest)
    (response : PipeResponse)
    (ht : request.type = REGISTER_FUNCTION ∨ request.type = UNREGISTER_FUNCTION ∨
      request.type = CALL_FUNCTION ∨ request.type = LIST_FUNCTIONS) :
    RPCBridge.HandleRequest env h request response =
      ((RPCBridge.HandleFunctionRequest env h request zeroResponse).1,
       { response := (RPCBridge.HandleFunctionRequest env h request zeroResponse).2.1,
         host := (RPCBridge.HandleFunctionRequest env h request zeroResponse).2.2,
         handlers := [Handler.HandleFunctionRequest] }) := by
  rcases ht with ht | ht | ht | ht <;> simp [RPCBridge.HandleRequest, ht]

theorem bridge_route_hook (env : Env) (h : Host) (request : PipeRequest)
    (response : PipeResponse)
    (ht : request.type = INSTALL_HOOK ∨ request.type = REMOVE_HOOK ∨
      request.type = ENABLE_HOOK ∨ request.type = DISABLE_HOOK) :
    RPCBridge.HandleRequest env h request response =
      ((RPCBridge.HandleHookRequest env h request zeroResponse).1,
       { response := (RPCBridge.HandleHookRequest env h request zeroResponse).2.1,
         host := (RPCBridge.HandleHookRequest env h request zeroResponse).2.2,
         handlers := [Handler.HandleHookRequest] }) := by
  rcases ht with ht | ht | ht | ht <;> simp [RPCBridge.HandleRequest, ht]

theorem bridge_route_event (env : Env) (h : Host) (request : PipeRequest)
    (response : PipeResponse)
    (ht : request.type = GET_PENDING_EVENTS ∨ request.type = REGISTER_EVENT_BUFFER ∨
      request.type = UNREGISTER_EVENT_BUFFER) :
    RPCBridge.HandleRequest env h request response =
      ((RPCBridge.HandleEventRequest env h request zeroResponse).1,
       { response := (RPCBridge.HandleEventRequest env h request zeroResponse).2.1,
         host := (RPCBridge.HandleEventRequest env h request zeroResponse).2.2,
         handlers := [Handler.HandleEventRequest] }) := by
  rcases ht with ht | ht | ht <;> simp [RPCBridge.HandleRequest, ht]

theorem bridge_route_server (env : Env) (h : Host) (request : PipeRequest)
    (response : PipeResponse)
    (ht : request.type = SERVER_STATUS ∨ request.type = SERVER_STOP ∨
      request.type = SERVER_START ∨ request.type = SERVER_RESTART) :
    RPCBridge.HandleRequest env h request response =
      ((RPCBridge.HandleServerControlRequest env h request zeroResponse).1,
       { response := (RPCBridge.HandleServerControlRequest env h request zeroResponse).2.1,
         host := (RPCBridge.HandleServerControlRequest env h request zeroResponse).2.2,
         handlers := [Handler.HandleServerControlRequest] }) := by
  rcases ht with ht | ht | ht | ht <;> simp [RPCBridge.HandleRequest, ht]

theorem bridge_route_dll (env : Env) (h : Host) (request : PipeRequest)
    (response : PipeResponse)
    (ht : request.type = DLL_DETACH ∨ request.type = DLL_STATUS) :
    RPCBridge.HandleRequest env h request response =
      ((RPCBridge.HandleDLLControlRequest env h request zeroResponse).1,
       { response := (RPCBridge.HandleDLLControlRequest env h request zeroResponse).2.1,
         host := (RPCBridge.HandleDLLControlRequest env h request zeroResponse).2.2,
         handlers := [Handler.HandleDLLControlRequest] }) := by
  rcases ht with ht | ht <;> simp [RPCBridge.HandleRequest, ht]

theorem zeroResponse_message : zeroResponse.error_message ≠ "Unknown request type" := by
  decide

theorem bridge_routed (env : Env) (h : Host) (request : PipeRequest) (response : PipeResponse)
    (hmem : request.type ∈ requestTypes) (hge : REGISTER_FUNCTION ≤ request.type)
    (hne : request.type ≠ BATCH_REQUEST) :
    ∃ k, (RPCBridge.HandleRequest env h request response).2.handlers = [k] := by
  simp only [requestTypes, List.mem_cons, List.mem_singleton, List.not_mem_nil, or_false] at hmem
  rcases hmem with h1 | h1 | h1 | h1 | h1 | h1 | h1 | h1 | h1 | h1 | h1 | h1 | h1 | h1 | h1 | h1 |
    h1 | h1 | h1 | h1 | h1 | h1 | h1 | h1 | h1 | h1 | h1 | h1 | h1 | h1 | h1 | h1 | h1
  any_goals (exfalso; rw [h1] at hge; revert hge; decide)
  any_goals (exfalso; contradiction)
  all_goals simp [RPCBridge.HandleRequest, h1]

theorem bridge_known (env : Env) (h : Host) (request : PipeRequest) (response : PipeResponse)
    (hmem : request.type ∈ requestTypes) (hge : REGISTER_FUNCTION ≤ request.type)
    (hne : request.type ≠ BATCH_REQUEST)
    (hpoll : request.type = GET_PENDING_EVENTS →
      (RPCBridge.GetPendingEvents h.bridge request.event.name 10).1.length < 10)
    (hwhat : env.selfJoinWhat ≠ "Unknown request type") :
    (∃ k, (RPCBridge.HandleRequest env h request response).2.handlers = [k]) ∧
    (RPCBridge.HandleRequest env h request response).2.response.error_message
      ≠ "Unknown request type" := by
  simp only [requestTypes, List.mem_cons, List.mem_singleton, List.not_mem_nil, or_false] at hmem
  have hz := zeroResponse_message
  rcases hmem with h1 | h1 | h1 | h1 | h1 | h1 | h1 | h1 | h1 | h1 | h1 | h1 | h1 | h1 | h1 | h1 |
    h1 | h1 | h1 | h1 | h1 | h1 | h1 | h1 | h1 | h1 | h1 | h1 | h1 | h1 | h1 | h1 | h1
  any_goals (exfalso; rw [h1] at hge; revert hge; decide)
  any_goals (exfalso; contradiction)
  · rw [bridge_route_function env h request response (by simp only [h1]; decide)]
    exact ⟨⟨_, rfl⟩, HandleFunctionRequest_message env h request _ hz⟩
  · rw [bridge_route_function env h request response (by simp only [h1]; decide)]
    exact ⟨⟨_, rfl⟩, HandleFunctionRequest_message env h request _ hz⟩
  · rw [bridge_route_function env h request response (by simp only [h1]; decide)]
    exact ⟨⟨_, rfl⟩, HandleFunctionRequest_message env h request _ hz⟩
  · rw [bridge_route_function env h request response (by simp only [h1]; decide)]
    exact ⟨⟨_, rfl⟩, HandleFunctionRequest_message env h request _ hz⟩
  · rw [bridge_route_memory env h request response (by simp only [h1]; decide)]
    exact ⟨⟨_, rfl⟩, HandleMemoryRequest_message env h request _ hz⟩
  · rw [bridge_route_memory env h request response (by simp only [h1]; decide)]
    exact ⟨⟨_, rfl⟩, HandleMemoryRequest_message env h request _ hz⟩
  · rw [bridge_route_memory env h request response (by simp only [h1]; decide)]
    exact ⟨⟨_, rfl⟩, HandleMemoryRequest_message env h request _ hz⟩
  · rw [bridge_route_memory env h request response (by simp only [h1]; decide)]
    exact ⟨⟨_, rfl⟩, HandleMemoryRequest_message env h request _ hz⟩
  · rw [bridge_route_hook env h request response (by simp only [h1]; decide)]
    exact ⟨⟨_, rfl⟩, HandleHookRequest_message env h request _ hz⟩
  · rw [bridge_route_hook env h request response (by simp only [h1]; decide)]
    exact ⟨⟨_, rfl⟩, HandleHookRequest_message env h request _ hz⟩
  · rw [bridge_route_hook env h request response (by simp only [h1]; decide)]
    exact ⟨⟨_, rfl⟩, HandleHookRequest_message env h request _ hz⟩
  · rw [bridge_route_hook env h request response (by simp only [h1]; decide)]
    exact ⟨⟨_, rfl⟩, HandleHookRequest_message env h request _ hz⟩
  · rw [bridge_route_event env h request response (by simp only [h1]; decide)]
    exact ⟨⟨_, rfl⟩, HandleEventRequest_message env h request _ hz hpoll⟩
  · rw [bridge_route_event env h request response (by simp only [h1]; decide)]
    exact ⟨⟨_, rfl⟩, HandleEventRequest_message env h request _ hz hpoll⟩
  · rw [bridge_route_event env h request response (by simp only [h1]; decide)]
    exact ⟨⟨_, rfl⟩, HandleEventRequest_message env h request _ hz hpoll⟩
  · rw [bridge_route_array env h request response h1]
    exact ⟨⟨_, rfl⟩, HandleArrayRequest_message env h request _ hz⟩
  · rw [bridge_route_batch env h request response h1]
    exact ⟨⟨_, rfl⟩, HandleBatchReadRequest_message h request _ hz⟩
  · rw [bridge_route_server env h request response (by simp only [h1]; decide)]
    exact ⟨⟨_, rfl⟩, HandleServerControlRequest_message env h request _ hz hwhat⟩
  · rw [bridge_route_server env h request response (by simp only [h1]; decide)]
    exact ⟨⟨_, rfl⟩, HandleServerControlRequest_message env h request _ hz hwhat⟩
  · rw [bridge_route_server env h request response (by simp only [h1]; decide)]
    exact ⟨⟨_, rfl⟩, HandleServerControlRequest_message env h request _ hz hwhat⟩
  · rw [bridge_route_server env h request response (by simp only [h1]; decide)]
    exact ⟨⟨_, rfl⟩, HandleServerControlRequest_message env h request _ hz hwhat⟩
  · rw [bridge_route_dll env h request response (by simp only [h1]; decide)]
    exact ⟨⟨_, rfl⟩, HandleDLLControlRequest_message env h request _ hz⟩
  · rw [bridge_route_dll env h request response (by simp only [h1]; decide)]
    exact ⟨⟨_, rfl⟩, HandleDLLControlRequest_message env h request _ hz⟩
  · rw [bridge_route_heartbeat env h request response h1]
    exact ⟨⟨_, rfl⟩, HandleHeartbeatRequest_message env h request _ hz⟩

theorem legacy_known (env : Env) (m : Memory) (request : PipeRequest) (response : PipeResponse)
    (hmem : request.type ∈ requestTypes) (hlt : request.type < REGISTER_FUNCTION) :
    ∃ r, legacySwitch env m request response = some r := by
  simp only [requestTypes, List.mem_cons, List.mem_singleton, List.not_mem_nil, or_false] at hmem
  rcases hmem with h1 | h1 | h1 | h1 | h1 | h1 | h1 | h1 | h1 | h1 | h1 | h1 | h1 | h1 | h1 | h1 |
    h1 | h1 | h1 | h1 | h1 | h1 | h1 | h1 | h1 | h1 | h1 | h1 | h1 | h1 | h1 | h1 | h1
  any_goals (exfalso; rw [h1] at hlt; revert hlt; decide)
  all_goals simp [legacySwitch, h1]

/-- Routing of the request kinds while the endpoint server runs.  A request whose kind is
outside the enumerated set, or is the reserved kind BATCH_REQUEST (48), is answered with
success 0 and the message "Unknown request type", with no handler invoked and the process
state unchanged.  A request of any other enumerated kind is routed to exactly one handler;
its response does not carry that message, provided that a poll returns fewer than ten
events (the copy of ten events runs over the error message) and that the text of the
exception of a self-join is not that message. -/
theorem kind_routing (env : Env) (h : Host) (request : PipeRequest)
    (hrun : h.server.running = true) (hlive : IsDllShuttingDown h.g_dllState = false) :
    ((request.type ∉ requestTypes ∨ request.type = BATCH_REQUEST) →
      (dispatch env h request).response.success = 0 ∧
      (dispatch env h request).response.error_message = "Unknown request type" ∧
      (dispatch env h request).host = h ∧
      (dispatch env h request).handlers = []) ∧
    ((request.type ∈ requestTypes ∧ request.type ≠ BATCH_REQUEST) →
      (∃ k, (dispatch env h request).handlers = [k]) ∧
      ((request.type = GET_PENDING_EVENTS →
          (RPCBridge.GetPendingEvents h.bridge request.event.name 10).1.length < 10) →
        env.selfJoinWhat ≠ "Unknown request type" →
        (dispatch env h request).response.error_message ≠ "Unknown request type")) := by
  constructor
  · intro hk
    rw [dispatch_unknown env h request hrun hlive hk]
    exact ⟨rfl, rfl, rfl, rfl⟩
  · rintro ⟨hmem, hne⟩
    by_cases hge : REGISTER_FUNCTION ≤ request.type
    · obtain ⟨k, hk⟩ := bridge_routed env h request zeroResponse hmem hge hne
      rw [dispatch_bridge env h request hrun hlive hge]
      refine ⟨?_, ?_⟩
      · split_ifs
        · exact ⟨k, hk⟩
        · exact ⟨k, hk⟩
        · exact ⟨k, hk⟩
      · intro hpoll hwhat
        have hmsg := (bridge_known env h request zeroResponse hmem hge hne hpoll hwhat).2
        split_ifs with h1 h2
        · exact hmsg
        · dsimp only; decide
        · exact hmsg
    · have hlt : request.type < REGISTER_FUNCTION := not_le.mp hge
      obtain ⟨r, hr⟩ := legacy_known env h.memory request zeroResponse hmem hlt
      rw [dispatch_legacy env h request hrun hlive hlt, hr]
      exact ⟨⟨_, rfl⟩, fun _ _ => legacySwitch_message env h.memory request zeroResponse r
        zeroResponse_message hr⟩

/-- The routing at concrete inputs: the reserved kind 48 and the kind 9 are unknown, a
heartbeat is routed to its handler. -/
theorem kind_routing_examples :
    ((runningHost emptyMemory).server.running = true ∧
      IsDllShuttingDown (runningHost emptyMemory).g_dllState = false) ∧
    (dispatch {} (runningHost emptyMemory) { type := BATCH_REQUEST }).response.error_message
      = "Unknown request type" ∧
    (dispatch {} (runningHost emptyMemory) { type := 9 }).response.error_message
      = "Unknown request type" ∧
    (dispatch {} (runningHost emptyMemory) (heartbeatRequest 7)).response.error_message
      ≠ "Unknown request type" :=
  ⟨⟨rfl, rfl⟩,
   ((kind_routing {} (runningHost emptyMemory) { type := BATCH_REQUEST } rfl rfl).1
      (Or.inr rfl)).2.1,
   ((kind_routing {} (runningHost emptyMemory) { type := 9 } rfl rfl).1
      (Or.inl (by decide))).2.1,
   ((kind_routing {} (runningHost emptyMemory) (heartbeatRequest 7) rfl rfl).2
      ⟨by decide, by decide⟩).2 (fun hc => absurd hc (by decide)) (by decide)⟩

/-! ## Allocation registry -/

theorem mapFind_eq_none_iff {κ β : Type} [DecidableEq κ] (m : List (κ × β)) (k : κ) :
    mapFind m k = none ↔ ∀ e ∈ m, e.1 ≠ k := by
  simp [mapFind, List.find?_eq_none]

theorem mapFind_mapErase_self {κ β : Type} [DecidableEq κ] (m : List (κ × β)) (k : κ) :
    mapFind (mapErase m k) k = none := by
  rw [mapFind_eq_none_iff]
  intro e he
  simp only [mapErase, List.mem_filter, Bool.not_eq_true', decide_eq_false_iff_not] at he
  exact he.2

theorem mapFind_mapErase_ne {κ β : Type} [DecidableEq κ] (m : List (κ × β)) (k j : κ)
    (hjk : j ≠ k) : mapFind (mapErase m k) j = mapFind m j := by
  induction m with
  | nil => rfl
  | cons e m ih =>
    by_cases hek : e.1 = k
    · have hej : e.1 ≠ j := fun h => hjk (h ▸ hek)
      simp only [mapErase, List.filter, hek, decide_True, Bool.not_true] at ih ⊢
      simp only [mapFind, List.find?, hej, decide_False] at ih ⊢
      exact ih
    · simp only [mapErase, List.filter, hek, decide_False, Bool.not_false] at ih ⊢
      by_cases hej : e.1 = j
      · simp [mapFind, List.find?, hej]
      · simp only [mapFind, List.find?, hej, decide_False] at ih ⊢
        exact ih

theorem mapErase_of_not_mem {κ β : Type} [DecidableEq κ] (m : List (κ × β)) (k : κ)
    (hk : mapFind m k = none) : mapErase m k = m := by
  rw [mapFind_eq_none_iff] at hk
  simp only [mapErase, List.filter_eq_self, Bool.not_eq_true', decide_eq_false_iff_not]
  exact hk

theorem mapErase_mapAssign_fresh {κ β : Type} [DecidableEq κ] (m : List (κ × β)) (k : κ)
    (v : β) (hk : mapFind m k = none) : mapErase (mapAssign m k v) k = m := by
  have hm := mapErase_of_not_mem m k hk
  simp only [mapAssign, hk, Option.isSome_none, Bool.false_eq_true, if_false]
  simp only [mapErase, List.filter_append] at hm ⊢
  rw [hm]
  simp

/-- C9: `FreeMemory` on an address that is not a key of the allocation registry fails and
leaves the whole state, the registry included, unchanged; whenever `FreeMemory` succeeds the
address was a key, and the registry afterwards is the prior one without the entry of that
address: the address is no longer a key and every other key keeps its entry. -/
theorem free_memory_registry (env : Env) (h : Host) (address : Nat) :
    (mapFind h.bridge.allocations address = none →
      (RPCBridge.FreeMemory env h address).1 = false ∧
      (RPCBridge.FreeMemory env h address).2 = h) ∧
    ((RPCBridge.FreeMemory env h address).1 = true →
      (mapFind h.bridge.allocations address).isSome = true ∧
      (RPCBridge.FreeMemory env h address).2.bridge.allocations
        = mapErase h.bridge.allocations address ∧
      mapFind (RPCBridge.FreeMemory env h address).2.bridge.allocations address = none ∧
      ∀ k, k ≠ address →
        mapFind (RPCBridge.FreeMemory env h address).2.bridge.allocations k
          = mapFind h.bridge.allocations k) := by
  constructor
  · intro hnone
    unfold RPCBridge.FreeMemory
    by_cases h0 : address = 0
    · rw [if_pos h0]
      exact ⟨rfl, rfl⟩
    · rw [if_neg h0, hnone]
      exact ⟨rfl, rfl⟩
  · intro hok
    by_cases h0 : address = 0
    · have hf : RPCBridge.FreeMemory env h address = (false, h) := by
        unfold RPCBridge.FreeMemory
        rw [if_pos h0]
      rw [hf] at hok
      exact absurd hok (by simp)
    · cases hfind : mapFind h.bridge.allocations address with
      | none =>
        have hf : RPCBridge.FreeMemory env h address = (false, h) := by
          unfold RPCBridge.FreeMemory
          rw [if_neg h0, hfind]
        rw [hf] at hok
        exact absurd hok (by simp)
      | some block =>
        by_cases hv : env.VirtualFree address = true
        · have hf : RPCBridge.FreeMemory env h address =
              (true, { h with
                memory := h.memory.release address block.size,
                bridge := { h.bridge with
                  allocations := mapErase h.bridge.allocations address } }) := by
            unfold RPCBridge.FreeMemory
            rw [if_neg h0, hfind]
            dsimp only
            rw [if_pos hv]
          rw [hf]
          exact ⟨rfl, rfl, mapFind_mapErase_self _ _,
            fun k hk => mapFind_mapErase_ne _ _ _ hk⟩
        · have hf : RPCBridge.FreeMemory env h address = (false, h) := by
            unfold RPCBridge.FreeMemory
            rw [if_neg h0, hfind]
            dsimp only
            rw [if_neg hv]
          rw [hf] at hok
          exact absurd hok (by simp)

/-- C9 at a concrete input: freeing the registered block at `0x7000` empties the registry,
freeing the unknown address `0x8000` fails. -/
theorem free_memory_registry_witness :
    (RPCBridge.FreeMemory {} oneBlockHost 0x7000).1 = true ∧
    (RPCBridge.FreeMemory {} oneBlockHost 0x7000).2.bridge.allocations = [] ∧
    (RPCBridge.FreeMemory {} oneBlockHost 0x8000).1 = false :=
  have hok : (RPCBridge.FreeMemory {} oneBlockHost 0x7000).1 = true := by decide
  ⟨hok,
   ((free_memory_registry {} oneBlockHost 0x7000).2 hok).2.1.trans (by decide),
   ((free_memory_registry {} oneBlockHost 0x8000).1 (by decide)).1⟩

theorem AllocateMemory_eq (env : Env) (h : Host) (size protection : Nat)
    (hsize : 0 < size ∧ size ≤ MAX_ALLOC_SIZE)
    (hret : (RPCBridge.AllocateMemory env h size protection).1 ≠ 0) :
    RPCBridge.AllocateMemory env h size protection =
      (env.VirtualAlloc size protection,
       { h with
         memory := h.memory.commit (env.VirtualAlloc size protection) size protection,
         bridge := { h.bridge with
           allocations := mapAssign h.bridge.allocations (env.VirtualAlloc size protection)
             { address := env.VirtualAlloc size protection, size := size,
               original_protection := protection } } }) := by
  have hg : ¬ (size = 0 ∨ size > MAX_ALLOC_SIZE) := by omega
  unfold RPCBridge.AllocateMemory at hret ⊢
  rw [if_neg hg] at hret ⊢
  dsimp only at hret ⊢
  by_cases ha : env.VirtualAlloc size protection = 0
  · rw [if_pos ha] at hret
    exact absurd rfl hret
  · rw [if_neg ha]

/-- C10, amended: for a size `n` with `0 < n ≤ 1 MiB`, if `AllocateMemory(n)` returns a
non-zero address `a`, then `a` is a key of the registry recorded with size `n` and the
requested protection; and if `a` was not already a key before the allocation, freeing `a`
(when the OS release succeeds) restores the registry to exactly its state before the
allocation. -/
theorem allocate_then_free (env env2 : Env) (h : Host) (size protection : Nat)
    (hsize : 0 < size ∧ size ≤ MAX_ALLOC_SIZE)
    (hret : (RPCBridge.AllocateMemory env h size protection).1 ≠ 0) :
    mapFind (RPCBridge.AllocateMemory env h size protection).2.bridge.allocations
        (RPCBridge.AllocateMemory env h size protection).1
      = some { address := (RPCBridge.AllocateMemory env h size protection).1, size := size,
               original_protection := protection } ∧
    (mapFind h.bridge.allocations (RPCBridge.AllocateMemory env h size protection).1 = none →
      env2.VirtualFree (RPCBridge.AllocateMemory env h size protection).1 = true →
      (RPCBridge.FreeMemory env2 (RPCBridge.AllocateMemory env h size protection).2
        (RPCBridge.AllocateMemory env h size protection).1).1 = true ∧
      (RPCBridge.FreeMemory env2 (RPCBridge.AllocateMemory env h size protection).2
        (RPCBridge.AllocateMemory env h size protection).1).2.bridge.allocations
        = h.bridge.allocations) := by
  have ha : env.VirtualAlloc size protection ≠ 0 := by
    have := hret
    rw [AllocateMemory_eq env h size protection hsize hret] at this
    exact this
  rw [AllocateMemory_eq env h size protection hsize hret]
  dsimp only
  refine ⟨mapFind_mapAssign_self _ _ _, ?_⟩
  intro hfresh hfree
  unfold RPCBridge.FreeMemory
  rw [if_neg ha]
  dsimp only
  rw [mapFind_mapAssign_self]
  dsimp only
  rw [if_pos hfree]
  exact ⟨rfl, mapErase_mapAssign_fresh _ _ _ hfresh⟩

/-- C10 (amended) at a concrete input: 16 bytes allocated at `0x7000` on an empty registry
and freed again. -/
theorem allocate_then_free_witness :
    ((0 < 16 ∧ 16 ≤ MAX_ALLOC_SIZE) ∧
      (RPCBridge.AllocateMemory allocAt7000 (runningHost emptyMemory) 16 PAGE_READWRITE).1 ≠ 0) ∧
    mapFind (RPCBridge.AllocateMemory allocAt7000 (runningHost emptyMemory) 16
        PAGE_READWRITE).2.bridge.allocations 0x7000
      = some { address := 0x7000, size := 16, original_protection := PAGE_READWRITE } ∧
    (RPCBridge.FreeMemory {}
        (RPCBridge.AllocateMemory allocAt7000 (runningHost emptyMemory) 16 PAGE_READWRITE).2
        0x7000).2.bridge.allocations = [] :=
  have hs : 0 < 16 ∧ 16 ≤ MAX_ALLOC_SIZE := by decide
  have hr : (RPCBridge.AllocateMemory allocAt7000 (runningHost emptyMemory) 16
      PAGE_READWRITE).1 ≠ 0 := by decide
  have h := allocate_then_free allocAt7000 {} (runningHost emptyMemory) 16 PAGE_READWRITE hs hr
  ⟨⟨hs, hr⟩, h.1, (h.2 rfl rfl).2⟩

/-- C10 as stated fails: when the registry already holds a block under the address the
allocator hands out, the allocation overwrites that entry and the following free removes it,
so the registry does not return to its prior state. -/
theorem stale_key_allocation :
    (RPCBridge.AllocateMemory allocAt7000 oneBlockHost 16 PAGE_READWRITE).1 = 0x7000 ∧
    (RPCBridge.FreeMemory {}
      (RPCBridge.AllocateMemory allocAt7000 oneBlockHost 16 PAGE_READWRITE).2 0x7000).1 = true ∧
    (RPCBridge.FreeMemory {}
      (RPCBridge.AllocateMemory allocAt7000 oneBlockHost 16 PAGE_READWRITE).2
      0x7000).2.bridge.allocations ≠ oneBlockHost.bridge.allocations := by
  decide

/-! ## Function registry -/

theorem HandleFunctionRequest_handled (env : Env) (h : Host) (request : PipeRequest)
    (response : PipeResponse)
    (ht : request.type = REGISTER_FUNCTION ∨ request.type = UNREGISTER_FUNCTION ∨
      request.type = CALL_FUNCTION ∨ request.type = LIST_FUNCTIONS) :
    (RPCBridge.HandleFunctionRequest env h request response).1 = true := by
  simp only [RPCBridge.HandleFunctionRequest]
  rcases ht with ht | ht | ht | ht <;> simp [ht]
  split_ifs <;> rfl

theorem dispatch_function (env : Env) (h : Host) (request : PipeRequest)
    (hrun : h.server.running = true) (hlive : IsDllShuttingDown h.g_dllState = false)
    (ht : request.type = REGISTER_FUNCTION ∨ request.type = UNREGISTER_FUNCTION ∨
      request.type = CALL_FUNCTION ∨ request.type = LIST_FUNCTIONS) :
    dispatch env h request =
      { response := (RPCBridge.HandleFunctionRequest env h request zeroResponse).2.1,
        host := (RPCBridge.HandleFunctionRequest env h request zeroResponse).2.2,
        handlers := [Handler.HandleFunctionRequest] } := by
  have hge : REGISTER_FUNCTION ≤ request.type := by
    rcases ht with ht | ht | ht | ht <;> rw [ht] <;> decide
  rw [dispatch_bridge env h request hrun hlive hge, bridge_route_function env h request _ ht]
  simp only [HandleFunctionRequest_handled env h request zeroResponse ht, if_true]

theorem RegisterFunction_host (env : Env) (h : Host) (name : String) (address pc cv : Nat)
    (hr : Bool) :
    (RPCBridge.RegisterFunction env h name address pc cv hr).2 =
      if (RPCBridge.RegisterFunction env h name address pc cv hr).1 = true then
        { h with
          bridge :=
            { h.bridge with
              functions :=
                assignFunction env h.bridge.functions name
                  { name := name, address := address, param_count := pc, convention := cv,
                    has_return := hr } } }
      else h := by
  unfold RPCBridge.RegisterFunction
  by_cases h0 : address = 0
  · simp [h0]
  · rw [if_neg h0]
    cases VirtualQuery h.memory address with
    | none => simp
    | some mbi =>
      dsimp only
      by_cases hx : mbi.Protect &&& executeMask = 0
      · simp [hx]
      · simp [hx]

theorem dispatch_register (env : Env) (h : Host) (name : String) (address pc cv hr : Nat)
    (hrun : h.server.running = true) (hlive : IsDllShuttingDown h.g_dllState = false) :
    (dispatch env h (registerRequest name address pc cv hr)).host
      = (RPCBridge.RegisterFunction env h name address pc cv (hr != 0)).2 ∧
    (dispatch env h (registerRequest name address pc cv hr)).response.success
      = boolByte (RPCBridge.RegisterFunction env h name address pc cv (hr != 0)).1 := by
  rw [dispatch_function env h _ hrun hlive (Or.inl rfl)]
  by_cases h0 : address = 0
  · subst h0
    have hf : RPCBridge.RegisterFunction env h name 0 pc cv (hr != 0) = (false, h) := by
      unfold RPCBridge.RegisterFunction
      rw [if_pos rfl]
    simp [RPCBridge.HandleFunctionRequest, registerRequest, hf, boolByte]
  · cases hres : (RPCBridge.RegisterFunction env h name address pc cv (hr != 0)).1 <;>
      simp [RPCBridge.HandleFunctionRequest, registerRequest, h0, hres, boolByte]

theorem dispatch_unregister (env : Env) (h : Host) (name : String)
    (hrun : h.server.running = true) (hlive : IsDllShuttingDown h.g_dllState = false) :
    (dispatch env h (unregisterRequest name)).host = (RPCBridge.UnregisterFunction h name).2 ∧
    (dispatch env h (unregisterRequest name)).response.success
      = boolByte (RPCBridge.UnregisterFunction h name).1 ∧
    (dispatch env h (unregisterRequest name)).response.error_message
      = (if (RPCBridge.UnregisterFunction h name).1 = true then "" else "Function not found") := by
  rw [dispatch_function env h _ hrun hlive (Or.inr (Or.inl rfl))]
  cases hres : (RPCBridge.UnregisterFunction h name).1 <;>
    simp [RPCBridge.HandleFunctionRequest, unregisterRequest, hres, boolByte, zeroResponse]

theorem dispatch_list (env : Env) (h : Host)
    (hrun : h.server.running = true) (hlive : IsDllShuttingDown h.g_dllState = false) :
    (dispatch env h listRequest).host = h ∧
    listedNames env h = (h.bridge.functions.map (fun e => e.1)).take 20 := by
  unfold listedNames
  rw [dispatch_function env h _ hrun hlive (Or.inr (Or.inr (Or.inr rfl)))]
  simp [RPCBridge.HandleFunctionRequest, listRequest]

theorem mapFind_isSome_of_mem {κ β : Type} [DecidableEq κ] (m : List (κ × β)) (k : κ)
    (v : β) (hm : (k, v) ∈ m) : ∃ w, mapFind m k = some w := by
  cases hf : mapFind m k with
  | none =>
    rw [mapFind_eq_none_iff] at hf
    exact absurd rfl (hf _ hm)
  | some w => exact ⟨w, rfl⟩

theorem mapErase_perm_fresh {κ β : Type} [DecidableEq κ] (m l : List (κ × β)) (k : κ)
    (v : β) (hk : mapFind m k = none) (hl : l.Perm (mapAssign m k v)) :
    (mapErase l k).Perm m := by
  have h1 : (mapErase l k).Perm (mapErase (mapAssign m k v) k) := by
    unfold mapErase
    exact hl.filter _
  rw [mapErase_mapAssign_fresh m k v hk] at h1
  exact h1

theorem registerListUnregister_fresh (env : Env) (h : Host) (name : String)
    (address pc cv hr : Nat)
    (hrun : h.server.running = true) (hlive : IsDllShuttingDown h.g_dllState = false)
    (hperm : ∀ l, (env.rehash l).Perm l)
    (hfresh : mapFind h.bridge.functions name = none)
    (hreg : (dispatch env h (registerRequest name address pc cv hr)).response.success = 1) :
    (registerListUnregister env h name address pc cv hr).server = h.server ∧
    (registerListUnregister env h name address pc cv hr).g_dllState = h.g_dllState ∧
    ((registerListUnregister env h name address pc cv hr).bridge.functions).Perm
      h.bridge.functions := by
  obtain ⟨hhost, hsucc⟩ := dispatch_register env h name address pc cv hr hrun hlive
  have hok : (RPCBridge.RegisterFunction env h name address pc cv (hr != 0)).1 = true := by
    rw [hsucc] at hreg
    cases hb : (RPCBridge.RegisterFunction env h name address pc cv (hr != 0)).1
    · rw [hb] at hreg
      exact absurd hreg (by decide)
    · rfl
  have h1 := RegisterFunction_host env h name address pc cv (hr != 0)
  rw [if_pos hok] at h1
  unfold registerListUnregister
  rw [hhost, h1]
  generalize hH : ({ h with
    bridge :=
      { h.bridge with
        functions :=
          assignFunction env h.bridge.functions name
            { name := name, address := address, param_count := pc, convention := cv,
              has_return := (hr != 0) } } } : Host) = H1
  have hrun1 : H1.server.running = true := by rw [← hH]; exact hrun
  have hlive1 : IsDllShuttingDown H1.g_dllState = false := by rw [← hH]; exact hlive
  rw [(dispatch_list env H1 hrun1 hlive1).1, (dispatch_unregister env H1 name hrun1 hlive1).1]
  have hfun : H1.bridge.functions = env.rehash (mapAssign h.bridge.functions name
      { name := name, address := address, param_count := pc, convention := cv,
        has_return := (hr != 0) }) := by
    rw [← hH]
    simp [assignFunction, hfresh]
  have hmem : ∃ v, (name, v) ∈ H1.bridge.functions := by
    rw [hfun]
    simp only [(hperm _).mem_iff, mapAssign, hfresh, Option.isSome_none, Bool.false_eq_true,
      if_false]
    exact ⟨_, List.mem_append_right _ (List.mem_singleton_self _)⟩
  obtain ⟨v, hmem⟩ := hmem
  obtain ⟨w, hfind⟩ := mapFind_isSome_of_mem _ _ _ hmem
  unfold RPCBridge.UnregisterFunction
  rw [hfind]
  dsimp only
  refine ⟨by rw [← hH], by rw [← hH], ?_⟩
  rw [hfun]
  exact mapErase_perm_fresh _ _ _ _ hfresh (hperm _)

theorem listedNames_complete (env : Env) (h : Host)
    (hrun : h.server.running = true) (hlive : IsDllShuttingDown h.g_dllState = false)
    (hsize : h.bridge.functions.length ≤ 20) :
    listedNames env h = h.bridge.functions.map (fun e => e.1) := by
  rw [(dispatch_list env h hrun hlive).2]
  apply List.take_of_length_le
  rw [List.length_map]
  exact hsize

/-- C11, amended: for a running host whose function registry holds at most 20 functions, a
name that is not yet in the registry and an address for which the registration succeeds,
registering the function, listing, unregistering it and listing again yields a final list
that equals, as a set of names, the list obtained before the registration; the registry
holds the records it held before. -/
theorem register_list_roundtrip (env : Env) (h : Host) (name : String)
    (address pc cv hr : Nat)
    (hrun : h.server.running = true) (hlive : IsDllShuttingDown h.g_dllState = false)
    (hperm : ∀ l, (env.rehash l).Perm l)
    (hsize : h.bridge.functions.length ≤ 20)
    (hfresh : mapFind h.bridge.functions name = none)
    (hreg : (dispatch env h (registerRequest name address pc cv hr)).response.success = 1) :
    (∀ n, n ∈ listedNames env (registerListUnregister env h name address pc cv hr) ↔
      n ∈ listedNames env h) ∧
    ((registerListUnregister env h name address pc cv hr).bridge.functions).Perm
      h.bridge.functions := by
  obtain ⟨hs, hd, hp⟩ :=
    registerListUnregister_fresh env h name address pc cv hr hrun hlive hperm hfresh hreg
  refine ⟨fun n => ?_, hp⟩
  rw [listedNames_complete env _ (by rw [hs]; exact hrun) (by rw [hd]; exact hlive)
      (by rw [hp.length_eq]; exact hsize),
    listedNames_complete env h hrun hlive hsize]
  exact (hp.map _).mem_iff

/-- C11 (amended) at a concrete input: `G` registered at `0x9000` next to an existing `F`. -/
theorem register_list_roundtrip_witness :
    (mapFind (codeHost [("F", sampleSignature "F" 0x9010 2 CONV_CDECL true)]).bridge.functions
        "G" = none ∧
      (dispatch {} (codeHost [("F", sampleSignature "F" 0x9010 2 CONV_CDECL true)])
        (registerRequest "G" 0x9000 1 CONV_STDCALL 0)).response.success = 1) ∧
    (∀ n, n ∈ listedNames {} (registerListUnregister {}
        (codeHost [("F", sampleSignature "F" 0x9010 2 CONV_CDECL true)])
        "G" 0x9000 1 CONV_STDCALL 0) ↔
      n ∈ listedNames {} (codeHost [("F", sampleSignature "F" 0x9010 2 CONV_CDECL true)])) :=
  have hf : mapFind (codeHost [("F", sampleSignature "F" 0x9010 2 CONV_CDECL true)]).bridge.functions
      "G" = none := by decide
  have hr : (dispatch {} (codeHost [("F", sampleSignature "F" 0x9010 2 CONV_CDECL true)])
      (registerRequest "G" 0x9000 1 CONV_STDCALL 0)).response.success = 1 := by decide
  have h := register_list_roundtrip {}
    (codeHost [("F", sampleSignature "F" 0x9010 2 CONV_CDECL true)]) "G" 0x9000 1 CONV_STDCALL 0
    rfl rfl (fun _ => List.Perm.refl _) (by decide) hf hr
  ⟨⟨hf, hr⟩, h.1⟩

/-- C11 as stated fails. When the name is already registered, the registration overwrites
the entry and the unregistration removes it, so the name listed before is missing from the
final list. When the registry holds more than 20 functions, a list is the first 20 names in
iteration order, and the insertion may change that order: here it is reversed, and the
first name listed before is missing from the final list. -/
theorem register_roundtrip_fails :
    ("F" ∈ listedNames {} (codeHost [("F", sampleSignature "F" 0x9010 2 CONV_CDECL true)]) ∧
      "F" ∉ listedNames {} (registerListUnregister {}
        (codeHost [("F", sampleSignature "F" 0x9010 2 CONV_CDECL true)])
        "F" 0x9000 1 CONV_STDCALL 0)) ∧
    (mapFind (codeHost manyFunctions).bridge.functions "G" = none ∧
      "f00" ∈ listedNames reversingEnv (codeHost manyFunctions) ∧
      "f00" ∉ listedNames reversingEnv (registerListUnregister reversingEnv
        (codeHost manyFunctions) "G" 0x9000 1 CONV_STDCALL 0)) := by
  decide

/-! ## Failing registrations -/

theorem MH_create_then_remove (env : Env) (engine e1 : List (Nat × Bool)) (target detour : Nat)
    (hc : MH_CreateHook env engine target detour = (true, e1)) :
    MH_RemoveHook e1 target = engine := by
  unfold MH_CreateHook at hc
  split_ifs at hc with hok
  · simp only [Bool.and_eq_true, Option.isNone_iff_eq_none] at hok
    have he : e1 = mapAssign engine target false := by
      simp only [mapAssign, hok.2, Option.isSome_none, Bool.false_eq_true, if_false]
      exact (Prod.mk.inj hc).2.symm
    rw [he]
    exact mapErase_mapAssign_fresh engine target false hok.2
  · exact absurd (Prod.mk.inj hc).1 (by decide)

theorem InstallHook_failure_host (env : Env) (h : Host) (name : String) (target detour : Nat)
    (hf : (RPCBridge.InstallHook env h name target detour).1 = false) :
    (RPCBridge.InstallHook env h name target detour).2 = h := by
  unfold RPCBridge.InstallHook at hf ⊢
  by_cases h0 : target = 0 ∨ detour = 0
  · rw [if_pos h0]
  · rw [if_neg h0] at hf ⊢
    cases hq : VirtualQuery h.memory target with
    | none => rfl
    | some mbi =>
      rw [hq] at hf
      dsimp only at hf ⊢
      by_cases hx : mbi.Protect &&& executeMask = 0
      · rw [if_pos hx]
      · rw [if_neg hx] at hf ⊢
        by_cases hd : (mapFind h.bridge.hooks name).isSome = true
        · rw [if_pos hd]
        · rw [if_neg hd] at hf ⊢
          rcases hc : MH_CreateHook env h.engine target detour with ⟨c, e1⟩
          rw [hc] at hf
          cases c with
          | false => rfl
          | true =>
            dsimp only at hf ⊢
            rcases he : MH_EnableHook env e1 target with ⟨b, e2⟩
            rw [he] at hf
            cases b with
            | false =>
              dsimp only
              rw [MH_create_then_remove env h.engine e1 target detour hc]
            | true =>
              dsimp only at hf
              exact Bool.noConfusion hf

/-- C12: a registration that fails leaves the host as it was. `RegisterFunction` fails on a
null address, on an address `VirtualQuery` cannot describe and on a non-executable address,
and whenever it fails the host (hence the function registry) is unchanged. `InstallHook`
fails on a null target or detour, a non-executable target, a name already in the detour
registry, a failure of the engine to create the detour and a failure to enable it after
creation, and whenever it fails the host is unchanged: the detour registry is as before and
the engine holds no detour created by the call. -/
theorem failed_registration_unchanged (env : Env) (h : Host) (name : String)
    (address pc cv target detour : Nat) (hr : Bool) :
    ((address = 0 ∨ VirtualQuery h.memory address = none ∨
        (∃ mbi, VirtualQuery h.memory address = some mbi ∧ mbi.Protect &&& executeMask = 0)) →
      (RPCBridge.RegisterFunction env h name address pc cv hr).1 = false) ∧
    ((RPCBridge.RegisterFunction env h name address pc cv hr).1 = false →
      (RPCBridge.RegisterFunction env h name address pc cv hr).2 = h) ∧
    ((target = 0 ∨ detour = 0 ∨ VirtualQuery h.memory target = none ∨
        (∃ mbi, VirtualQuery h.memory target = some mbi ∧ mbi.Protect &&& executeMask = 0) ∨
        (mapFind h.bridge.hooks name).isSome = true ∨
        (MH_CreateHook env h.engine target detour).1 = false ∨
        (MH_EnableHook env (MH_CreateHook env h.engine target detour).2 target).1 = false) →
      (RPCBridge.InstallHook env h name target detour).1 = false) ∧
    ((RPCBridge.InstallHook env h name target detour).1 = false →
      (RPCBridge.InstallHook env h name target detour).2 = h ∧
      (RPCBridge.InstallHook env h name target detour).2.bridge.hooks = h.bridge.hooks ∧
      (RPCBridge.InstallHook env h name target detour).2.engine = h.engine) := by
  refine ⟨?_, ?_, ?_, ?_⟩
  · intro hc
    unfold RPCBridge.RegisterFunction
    rcases hc with h0 | hq | ⟨mbi, hq, hx⟩
    · rw [if_pos h0]
    · split_ifs
      · rfl
      · rw [hq]
    · split_ifs
      · rfl
      · rw [hq]
        dsimp only
        rw [if_pos hx]
  · intro hf
    have h1 := RegisterFunction_host env h name address pc cv hr
    rw [hf] at h1
    exact h1
  · intro hc
    unfold RPCBridge.InstallHook
    by_cases h0 : target = 0 ∨ detour = 0
    · rw [if_pos h0]
    · rw [if_neg h0]
      cases hq : VirtualQuery h.memory target with
      | none => rfl
      | some mbi =>
        dsimp only
        by_cases hx : mbi.Protect &&& executeMask = 0
        · rw [if_pos hx]
        · rw [if_neg hx]
          by_cases hd : (mapFind h.bridge.hooks name).isSome = true
          · rw [if_pos hd]
          · rw [if_neg hd]
            rcases hcr : MH_CreateHook env h.engine target detour with ⟨c, e1⟩
            cases c with
            | false => rfl
            | true =>
              dsimp only
              rcases hen : MH_EnableHook env e1 target with ⟨b, e2⟩
              cases b with
              | false => rfl
              | true =>
                exfalso
                rcases hc with ht | hdz | hqn | ⟨m, hqm, hxm⟩ | hdup | hcf | hef
                · exact h0 (Or.inl ht)
                · exact h0 (Or.inr hdz)
                · rw [hq] at hqn
                  exact Option.noConfusion hqn
                · rw [hq] at hqm
                  exact hx ((Option.some.inj hqm) ▸ hxm)
                · exact hd hdup
                · rw [hcr] at hcf
                  exact Bool.noConfusion hcf
                · rw [hcr] at hef
                  dsimp only at hef
                  rw [hen] at hef
                  exact Bool.noConfusion hef
  · intro hf
    have h1 := InstallHook_failure_host env h name target detour hf
    exact ⟨h1, by rw [h1], by rw [h1]⟩

/-! ## Drain of the pending calls -/

theorem drainFirstLoop_eq (now : Nat) (q : List PendingCall) :
    drainFirstLoop now q =
      ((q.filter (fun c => decide (c.timeout < now))).map
          (fun c => ({ call := c, value := false } : Resolution)),
        q.filter (fun c => !decide (c.timeout < now))) := by
  induction q with
  | nil => rfl
  | cons c q ih =>
    unfold drainFirstLoop
    rw [ih]
    by_cases hc : c.timeout < now
    · simp [hc]
    · simp [hc]

theorem drainSecondLoop_eq (invoke : PendingCall → MarshalResult) (q : List PendingCall) :
    drainSecondLoop invoke q =
      (q.map (fun c =>
          ({ call := c,
             value := ((invoke c).result).getD false,
             stored := (invoke c).stored } : Resolution)),
        (q.map (fun c => (invoke c).invocations)).flatten) := by
  induction q with
  | nil => rfl
  | cons c q ih =>
    unfold drainSecondLoop
    rw [ih]
    simp

theorem ProcessPendingCalls_resolutions (invoke : PendingCall → MarshalResult) (now : Nat)
    (q : List PendingCall) :
    (RPCBridge.ProcessPendingCalls invoke now q).resolutions =
      (q.filter (fun c => decide (c.timeout < now))).map
          (fun c => ({ call := c, value := false } : Resolution)) ++
        (q.filter (fun c => !decide (c.timeout < now))).map
          (fun c =>
            ({ call := c,
               value := ((invoke c).result).getD false,
               stored := (invoke c).stored } : Resolution)) := by
  simp only [RPCBridge.ProcessPendingCalls, drainFirstLoop_eq, drainSecondLoop_eq]

theorem ProcessPendingCalls_invocations (invoke : PendingCall → MarshalResult) (now : Nat)
    (q : List PendingCall) :
    (RPCBridge.ProcessPendingCalls invoke now q).invocations =
      ((q.filter (fun c => !decide (c.timeout < now))).map
        (fun c => (invoke c).invocations)).flatten := by
  simp only [RPCBridge.ProcessPendingCalls, drainFirstLoop_eq, drainSecondLoop_eq]

/-- C15: for every queue of pending calls, every invoker and every drain time `now`,
`ProcessPendingCalls` leaves the queue empty; the calls whose promise it sets are the
queued calls, each exactly once (a rearrangement of the queue); a call whose deadline is
earlier than `now` is resolved with failure and is not among the invoked calls; the invoked
calls are all the others, in queue (FIFO) order, and the native calls made are those of the
invokers in that order; each invoked call is resolved with the outcome of its invoker, or
with failure when the invoker throws (no outcome). -/
theorem drain_resolves_queue (invoke : PendingCall → MarshalResult) (now : Nat)
    (q : List PendingCall) :
    (RPCBridge.ProcessPendingCalls invoke now q).pending_calls = [] ∧
    (((RPCBridge.ProcessPendingCalls invoke now q).resolutions).map (fun r => r.call)).Perm q ∧
    (∀ r ∈ (RPCBridge.ProcessPendingCalls invoke now q).resolutions,
      r.call.timeout < now → r.value = false) ∧
    (∀ c ∈ (RPCBridge.ProcessPendingCalls invoke now q).invoked, ¬ c.timeout < now) ∧
    (RPCBridge.ProcessPendingCalls invoke now q).invoked
      = q.filter (fun c => !decide (c.timeout < now)) ∧
    (RPCBridge.ProcessPendingCalls invoke now q).invocations
      = (((RPCBridge.ProcessPendingCalls invoke now q).invoked).map
          (fun c => (invoke c).invocations)).flatten ∧
    (∀ r ∈ (RPCBridge.ProcessPendingCalls invoke now q).resolutions,
      ¬ r.call.timeout < now →
        (invoke r.call).result = none → r.value = false) ∧
    (∀ r ∈ (RPCBridge.ProcessPendingCalls invoke now q).resolutions,
      ¬ r.call.timeout < now →
        ∀ b, (invoke r.call).result = some b → r.value = b) := by
  have hinv : (RPCBridge.ProcessPendingCalls invoke now q).invoked
      = q.filter (fun c => !decide (c.timeout < now)) := by
    simp only [RPCBridge.ProcessPendingCalls, drainFirstLoop_eq]
  have hmem : ∀ r ∈ (RPCBridge.ProcessPendingCalls invoke now q).resolutions,
      (r.call.timeout < now ∧ r.value = false) ∨
      (¬ r.call.timeout < now ∧ r.value = ((invoke r.call).result).getD false) := by
    intro r hr
    rw [ProcessPendingCalls_resolutions, List.mem_append] at hr
    rcases hr with hr | hr
    · obtain ⟨c, hc, rfl⟩ := List.mem_map.mp hr
      rw [List.mem_filter] at hc
      exact Or.inl ⟨of_decide_eq_true hc.2, rfl⟩
    · obtain ⟨c, hc, rfl⟩ := List.mem_map.mp hr
      rw [List.mem_filter] at hc
      refine Or.inr ⟨?_, rfl⟩
      intro hlt
      simp [hlt] at hc
  refine ⟨rfl, ?_, ?_, ?_, hinv, ?_, ?_, ?_⟩
  · rw [ProcessPendingCalls_resolutions, List.map_append, List.map_map, List.map_map]
    have h1 : ((fun r : Resolution => r.call) ∘
        (fun c => ({ call := c, value := false } : Resolution))) = id := rfl
    have h2 : ((fun r : Resolution => r.call) ∘
        (fun c =>
          ({ call := c,
             value := ((invoke c).result).getD false,
             stored := (invoke c).stored } : Resolution))) = id := rfl
    rw [h1, h2, List.map_id, List.map_id]
    exact List.filter_append_perm _ q
  · intro r hr hlt
    rcases hmem r hr with h | h
    · exact h.2
    · exact absurd hlt h.1
  · intro c hc hlt
    rw [hinv, List.mem_filter] at hc
    simp [hlt] at hc
  · rw [hinv, ProcessPendingCalls_invocations]
  · intro r hr hge hnone
    rcases hmem r hr with h | h
    · exact h.2
    · rw [h.2, hnone]
      rfl
  · intro r hr hge b hb
    rcases hmem r hr with h | h
    · exact absurd h.1 hge
    · rw [h.2, hb]
      rfl

/-! ## Calls through the pending queue -/

theorem submittedQueue_eq (env : Env) (h : Host) (request : PipeRequest) :
    submittedQueue env h request =
      purgeExpiredFront env.now h.bridge.pending_calls ++ [pendingOf env h request] := by
  unfold submittedQueue RPCBridge.CallFunction pendingOf
  cases env.await <;> rfl

theorem paramSource_of_le (env : Env) (params : List FunctionParam)
    (hlen : params.length ≤ 10) : paramSource env params params.length = params := by
  unfold paramSource
  apply List.ext_getElem
  · simp
  · intro i h1 h2
    simp only [List.getElem_map, List.getElem_range]
    rw [if_pos (by omega)]
    exact List.getD_eq_getElem _ _ h2

theorem pendingOf_func_name (env : Env) (h : Host) (request : PipeRequest) :
    (pendingOf env h request).func_name = request.call_func.name := rfl

theorem pendingOf_callRequest (env : Env) (h : Host) (name : String)
    (params : List FunctionParam) (hlen : params.length ≤ 10) :
    pendingOf env h (callRequest name params) =
      { func_name := name, params_copy := params,
        has_result_ptr := callResultBuffer h (callRequest name params),
        timeout := env.now + 5000 } := by
  unfold pendingOf callRequest
  dsimp only
  rw [paramSource_of_le env params hlen]
  cases params with
  | nil => rfl
  | cons p ps => simp

theorem awaitAfterDrain_live (env : Env) (h : Host) (request : PipeRequest) (t : Nat)
    (hdrain : ¬ env.now + 5000 < t) (hwait : promiseTime env h request t ≤ waitEnd env) :
    awaitAfterDrain env h request (some t) =
      .ready ((((pendingOf env h request).func env h).result).getD false)
        ((pendingOf env h request).func env h).stored := by
  have hlive : ¬ (pendingOf env h request).timeout < t := hdrain
  unfold awaitAfterDrain
  dsimp only
  rw [if_neg (by omega), if_neg hdrain, ProcessPendingCalls_resolutions, submittedQueue_eq]
  simp only [List.filter_append, List.map_append, List.filter_cons, List.filter_nil, hlive,
    decide_False, Bool.not_false, if_true, Bool.false_eq_true, if_false, List.map_cons,
    List.map_nil, List.append_nil]
  rw [← List.append_assoc, List.getLast?_concat]

theorem awaitAfterDrain_late (env : Env) (h : Host) (request : PipeRequest) (t : Nat)
    (hdrain : env.now + 5000 < t) :
    awaitAfterDrain env h request (some t) = .timedOut ∨
    awaitAfterDrain env h request (some t) = .ready false none := by
  unfold awaitAfterDrain
  dsimp only
  by_cases hw : waitEnd env < promiseTime env h request t
  · rw [if_pos hw]
    exact Or.inl rfl
  · rw [if_neg hw, if_pos hdrain]
    exact Or.inr rfl

theorem awaitAfterDrain_slow (env : Env) (h : Host) (request : PipeRequest) (t : Nat)
    (hwait : waitEnd env < promiseTime env h request t) :
    awaitAfterDrain env h request (some t) = .timedOut := by
  unfold awaitAfterDrain
  dsimp only
  rw [if_pos hwait]

theorem serveCall_ready_true (env : Env) (h : Host) (request : PipeRequest)
    (drain : Option Nat) (stored : Option Nat)
    (hrun : h.server.running = true) (hlive : IsDllShuttingDown h.g_dllState = false)
    (ht : request.type = CALL_FUNCTION)
    (ha : awaitAfterDrain env h request drain = .ready true stored) :
    (serveCall env h request drain).response.success = 1 ∧
    (serveCall env h request drain).response.error_message = "" ∧
    (callResultBuffer h request = true →
      (serveCall env h request drain).response.call_result
        = { has_return := 1, int_val := toInt32 (stored.getD 0) }) ∧
    (callResultBuffer h request = false →
      (serveCall env h request drain).response.call_result.has_return = 0) := by
  unfold serveCall
  rw [dispatch_function _ h request hrun hlive (Or.inr (Or.inr (Or.inl ht)))]
  unfold callResultBuffer
  simp only [RPCBridge.HandleFunctionRequest, RPCBridge.CallFunction, ha, ht]
  cases hb : (match mapFind h.bridge.functions request.call_func.name with
      | some sig => sig.has_return
      | none => false) <;> simp [zeroResponse, boolByte]

theorem serveCall_failed (env : Env) (h : Host) (request : PipeRequest) (drain : Option Nat)
    (hrun : h.server.running = true) (hlive : IsDllShuttingDown h.g_dllState = false)
    (ht : request.type = CALL_FUNCTION)
    (ha : ∀ stored, awaitAfterDrain env h request drain ≠ .ready true stored) :
    (serveCall env h request drain).response.success = 0 ∧
    (serveCall env h request drain).response.error_message = "Function call failed" := by
  unfold serveCall
  rw [dispatch_function _ h request hrun hlive (Or.inr (Or.inr (Or.inl ht)))]
  simp only [RPCBridge.HandleFunctionRequest, RPCBridge.CallFunction, ht]
  cases hw : awaitAfterDrain env h request drain with
  | timedOut => simp [boolByte]
  | ready b stored =>
    cases b with
    | true => exact absurd hw (ha stored)
    | false => simp [boolByte]

theorem serveCall_host (env : Env) (h : Host) (request : PipeRequest) (drain : Option Nat)
    (hrun : h.server.running = true) (hlive : IsDllShuttingDown h.g_dllState = false)
    (ht : request.type = CALL_FUNCTION) :
    (serveCall env h request drain).host =
      { h with bridge := { h.bridge with pending_calls := submittedQueue env h request } } := by
  unfold serveCall
  rw [dispatch_function _ h request hrun hlive (Or.inr (Or.inr (Or.inl ht)))]
  unfold submittedQueue callResultBuffer
  simp only [RPCBridge.HandleFunctionRequest, RPCBridge.CallFunction, ht]
  cases awaitAfterDrain env h request drain <;> cases env.await <;> simp [paramSource]

/-! ## Marshallers -/

theorem stdcallArg_of_supported (env : Env) (i : Nat) (p : FunctionParam)
    (hs : supportedType p.type = true) :
    stdcallArg env i p = some ((stdcallArg env i p).getD 0) := by
  unfold stdcallArg
  simp only [supportedType, Bool.or_eq_true, beq_iff_eq] at hs
  split_ifs with h1 h2 h3 h4 h5
  · rfl
  · rfl
  · rfl
  · rfl
  · rfl
  · exfalso
    rcases hs with (((((hs | hs) | hs) | hs) | hs) | hs) | hs
    · exact h1 (Or.inl hs)
    · exact h1 (Or.inr (Or.inl hs))
    · exact h1 (Or.inr (Or.inr hs))
    · exact h3 hs
    · exact h2 hs
    · exact h4 hs
    · exact h5 hs

theorem stdcallArg_of_unsupported (env : Env) (i : Nat) (p : FunctionParam)
    (hs : supportedType p.type = false) : stdcallArg env i p = none := by
  unfold stdcallArg
  simp only [supportedType, Bool.or_eq_false_iff, beq_eq_false_iff_ne] at hs
  obtain ⟨⟨⟨⟨⟨⟨h1, h2⟩, h3⟩, h4⟩, h5⟩, h6⟩, h7⟩ := hs
  simp [h1, h2, h3, h4, h5, h6, h7]

theorem lowerLoop_supported (env : Env) (params : List FunctionParam) (n i : Nat)
    (args : List Nat)
    (hs : ∀ j, i ≤ j → j < i + n → supportedType (params.getD j noParam).type = true) :
    lowerLoop env params n i args =
      some (args ++ (List.range' i n).map
        (fun j => (stdcallArg env j (params.getD j noParam)).getD 0)) := by
  induction n generalizing i args with
  | zero => simp [lowerLoop]
  | succ n ih =>
    unfold lowerLoop
    rw [stdcallArg_of_supported env i _ (hs i (Nat.le_refl _) (by omega))]
    dsimp only
    rw [ih (i + 1) _ (fun j h1 h2 => hs j (by omega) (by omega))]
    simp [List.range'_succ]

theorem getD_of_mem_supported (params : List FunctionParam)
    (hs : ∀ p ∈ params, supportedType p.type = true) (j : Nat) (hj : j < params.length) :
    supportedType (params.getD j noParam).type = true := by
  rw [List.getD_eq_getElem _ _ hj]
  exact hs _ (List.getElem_mem _)

theorem lowerLoop_words (env : Env) (params : List FunctionParam)
    (hs : ∀ p ∈ params, supportedType p.type = true) (hlen : params.length ≤ 10) :
    lowerLoop env params (min params.length 10) 0 [] = some (stdcallWords env params) := by
  rw [Nat.min_eq_left hlen,
    lowerLoop_supported env params params.length 0 []
      (fun j _ h2 => getD_of_mem_supported params hs j (by omega))]
  simp [stdcallWords, List.range_eq_range']

theorem range_map_getD (l : List Nat) :
    (List.range l.length).map (fun i => l.getD i 0) = l := by
  apply List.ext_getElem
  · simp
  · intro i h1 h2
    simp only [List.getElem_map, List.getElem_range]
    exact List.getD_eq_getElem _ _ h2

theorem stdcallWords_length (env : Env) (params : List FunctionParam) :
    (stdcallWords env params).length = params.length := by
  simp [stdcallWords]

theorem invokeNative_words (env : Env) (func : FunctionSignature) (conv : Nat)
    (args : List Nat) (hrp : Bool) :
    invokeNative env func conv args args.length hrp =
      match env.native func.address conv args with
      | .returned retval =>
        { result := some true,
          stored := if hrp && func.has_return then some retval else none,
          invocations := [{ address := func.address, convention := conv, args := args }] }
      | .accessViolation =>
        { result := some false,
          invocations := [{ address := func.address, convention := conv, args := args }] }
      | .thrown =>
        { result := none,
          invocations := [{ address := func.address, convention := conv, args := args }] } := by
  unfold invokeNative
  simp only [range_map_getD]

theorem CallCdecl_supported (env : Env) (func : FunctionSignature)
    (params : List FunctionParam) (hrp : Bool)
    (hcount : params.length = func.param_count) (hmax : func.param_count ≤ 5)
    (hs : ∀ p ∈ params, supportedType p.type = true) :
    RPCBridge.CallCdecl env func params hrp =
      invokeNative env func CONV_CDECL (stdcallWords env params)
        (stdcallWords env params).length hrp := by
  unfold RPCBridge.CallCdecl
  rw [← hcount, lowerLoop_words env params hs (by omega)]
  dsimp only
  rw [if_pos (by omega), stdcallWords_length]

theorem CallStdcall_supported (env : Env) (func : FunctionSignature)
    (params : List FunctionParam) (hrp : Bool)
    (hcount : params.length = func.param_count) (hmax : func.param_count ≤ 6)
    (hs : ∀ p ∈ params, supportedType p.type = true) :
    RPCBridge.CallStdcall env func params hrp =
      invokeNative env func CONV_STDCALL (stdcallWords env params)
        (stdcallWords env params).length hrp := by
  unfold RPCBridge.CallStdcall
  rw [← hcount, lowerLoop_words env params hs (by omega)]
  dsimp only
  rw [if_pos (by omega), stdcallWords_length]

theorem pendingFunc_cdecl (env : Env) (h : Host) (c : PendingCall) (sig : FunctionSignature)
    (hreg : mapFind h.bridge.functions c.func_name = some sig)
    (hconv : sig.convention = CONV_CDECL)
    (hcount : c.params_copy.length = sig.param_count) (hmax : sig.param_count ≤ 5)
    (hs : ∀ p ∈ c.params_copy, supportedType p.type = true) :
    c.func env h =
      match env.native sig.address CONV_CDECL (stdcallWords env c.params_copy) with
      | .returned retval =>
        { result := some true,
          stored := if c.has_result_ptr && sig.has_return then some retval else none,
          invocations := [{ address := sig.address, convention := CONV_CDECL,
                            args := stdcallWords env c.params_copy }] }
      | _ =>
        { result := some false,
          invocations := [{ address := sig.address, convention := CONV_CDECL,
                            args := stdcallWords env c.params_copy }] } := by
  unfold PendingCall.func
  rw [hreg]
  dsimp only
  rw [if_neg (by rw [hcount]; exact fun hne => hne rfl), if_pos hconv,
    CallCdecl_supported env sig c.params_copy c.has_result_ptr hcount hmax hs,
    invokeNative_words]
  cases env.native sig.address CONV_CDECL (stdcallWords env c.params_copy) <;> rfl

theorem pendingFunc_stdcall (env : Env) (h : Host) (c : PendingCall) (sig : FunctionSignature)
    (hreg : mapFind h.bridge.functions c.func_name = some sig)
    (hconv : sig.convention = CONV_STDCALL)
    (hcount : c.params_copy.length = sig.param_count) (hmax : sig.param_count ≤ 6)
    (hs : ∀ p ∈ c.params_copy, supportedType p.type = true) :
    c.func env h =
      match env.native sig.address CONV_STDCALL (stdcallWords env c.params_copy) with
      | .returned retval =>
        { result := some true,
          stored := if c.has_result_ptr && sig.has_return then some retval else none,
          invocations := [{ address := sig.address, convention := CONV_STDCALL,
                            args := stdcallWords env c.params_copy }] }
      | _ =>
        { result := some false,
          invocations := [{ address := sig.address, convention := CONV_STDCALL,
                            args := stdcallWords env c.params_copy }] } := by
  unfold PendingCall.func
  rw [hreg]
  dsimp only
  have hne : ¬ sig.convention = CONV_CDECL := by rw [hconv]; decide
  rw [if_neg (by rw [hcount]; exact fun hne => hne rfl), if_neg hne, if_pos hconv,
    CallStdcall_supported env sig c.params_copy c.has_result_ptr hcount hmax hs,
    invokeNative_words]
  cases env.native sig.address CONV_STDCALL (stdcallWords env c.params_copy) <;> rfl

/-- C13, amended: for a running host, a function registered as cdecl with at most 5
parameters, and a call request whose parameters match the registered count and have
supported types (i8, i16, i32, f32, pointer, ansi-string, wide-string), if the native code
returns `r` for the lowered arguments and the queue is drained once, the drain starting not
later than the deadline and setting the promise of the call before the five-second wait of
the worker has ended, the response has success=1; when the function is registered with
has-return the response has has_return=1 and int_val equal to `r` truncated to 32 bits, and
when it is registered without has-return the response has has_return=0. -/
theorem cdecl_call_returns (env : Env) (h : Host) (name : String) (sig : FunctionSignature)
    (params : List FunctionParam) (t r : Nat)
    (hrun : h.server.running = true) (hlive : IsDllShuttingDown h.g_dllState = false)
    (hreg : mapFind h.bridge.functions name = some sig)
    (hconv : sig.convention = CONV_CDECL)
    (hcount : params.length = sig.param_count) (hmax : sig.param_count ≤ 5)
    (hs : ∀ p ∈ params, supportedType p.type = true)
    (hdrain : ¬ env.now + 5000 < t)
    (hwait : promiseTime env h (callRequest name params) t ≤ waitEnd env)
    (hnative : env.native sig.address CONV_CDECL (stdcallWords env params) = .returned r) :
    (serveCall env h (callRequest name params) (some t)).response.success = 1 ∧
    (sig.has_return = true →
      (serveCall env h (callRequest name params) (some t)).response.call_result.has_return = 1 ∧
      (serveCall env h (callRequest name params) (some t)).response.call_result.int_val
        = toInt32 r) ∧
    (sig.has_return = false →
      (serveCall env h (callRequest name params) (some t)).response.call_result.has_return
        = 0) := by
  have hbuf : callResultBuffer h (callRequest name params) = sig.has_return := by
    unfold callResultBuffer callRequest
    dsimp only
    rw [hreg]
  have hp := pendingOf_callRequest env h name params (by omega)
  have hf := pendingFunc_cdecl env h (pendingOf env h (callRequest name params)) sig
    (by rw [hp]; exact hreg) hconv (by rw [hp]; exact hcount) hmax (by rw [hp]; exact hs)
  have hw : (pendingOf env h (callRequest name params)).params_copy = params := by rw [hp]
  have hq : (pendingOf env h (callRequest name params)).has_result_ptr = sig.has_return := by
    rw [hp]
    exact hbuf
  rw [hw, hnative] at hf
  dsimp only at hf
  rw [hq] at hf
  have ha := awaitAfterDrain_live env h (callRequest name params) t hdrain hwait
  rw [hf] at ha
  dsimp only [Option.getD] at ha
  obtain ⟨h1, _, h3, h4⟩ := serveCall_ready_true env h (callRequest name params) (some t) _
    hrun hlive rfl ha
  refine ⟨h1, ?_, ?_⟩
  · intro hret
    rw [h3 (hbuf.trans hret)]
    simp [hret]
  · intro hret
    exact h4 (hbuf.trans hret)

/-- C13 (amended) at a concrete input: `int add(a, b)` registered as cdecl and called with
i32 7 and i32 35 gives 42; the drain starts 10 ms after the submission and the native code
takes no measurable time. -/
theorem cdecl_call_returns_witness :
    (mapFind addHost.bridge.functions "add"
        = some (sampleSignature "add" 0x9010 2 CONV_CDECL true) ∧
      promiseTime addEnv addHost (callRequest "add" [paramInt32 7, paramInt32 35]) 10
        ≤ waitEnd addEnv ∧
      addEnv.native 0x9010 CONV_CDECL (stdcallWords addEnv [paramInt32 7, paramInt32 35])
        = .returned 42) ∧
    (serveCall addEnv addHost (callRequest "add" [paramInt32 7, paramInt32 35])
        (some 10)).response.success = 1 ∧
    (serveCall addEnv addHost (callRequest "add" [paramInt32 7, paramInt32 35])
        (some 10)).response.call_result.has_return = 1 ∧
    (serveCall addEnv addHost (callRequest "add" [paramInt32 7, paramInt32 35])
        (some 10)).response.call_result.int_val = 42 :=
  have hreg : mapFind addHost.bridge.functions "add"
      = some (sampleSignature "add" 0x9010 2 CONV_CDECL true) := by decide
  have hwait : promiseTime addEnv addHost (callRequest "add" [paramInt32 7, paramInt32 35]) 10
      ≤ waitEnd addEnv := by decide
  have hnative : addEnv.native 0x9010 CONV_CDECL
      (stdcallWords addEnv [paramInt32 7, paramInt32 35]) = .returned 42 := by decide
  have h := cdecl_call_returns addEnv addHost "add"
    (sampleSignature "add" 0x9010 2 CONV_CDECL true) [paramInt32 7, paramInt32 35] 10 42
    rfl rfl hreg rfl rfl (by decide) (by decide) (by decide) hwait hnative
  ⟨⟨hreg, hwait, hnative⟩, h.1, (h.2.1 rfl).1, (h.2.1 rfl).2.trans (by decide)⟩

/-- C13 as stated fails in three ways.  A function registered as cdecl with six i32
parameters and has-return, whose native code returns, called with six matching parameters
and drained once before the deadline, yields success=0 and has_return=0, and the native
code is not invoked.  The same holds for a cdecl function of one parameter called with an
i64 value.  And the call of `int add(a, b)` with i32 7 and i32 35 whose drain
starts 4800 ms after the submission, before the deadline, and whose native code takes
400 ms to return 42, is answered success=0 with the message "Function call failed": the
promise is set at 5200 ms, after the wait of the worker has ended at 5000 ms, although the
native code was invoked once with the arguments 7 and 35. -/
theorem cdecl_calls_fail :
    (mapFind sixHost.bridge.functions "F"
      = some (sampleSignature "F" 0x9010 6 CONV_CDECL true) ∧
    sixParams.length = 6 ∧
    (∀ w, addEnv.native 0x9010 CONV_CDECL w ≠ .accessViolation ∧
      addEnv.native 0x9010 CONV_CDECL w ≠ .thrown) ∧
    (serveCall addEnv sixHost (callRequest "F" sixParams) (some 10)).response.success = 0 ∧
    (serveCall addEnv sixHost (callRequest "F" sixParams)
      (some 10)).response.call_result.has_return = 0 ∧
    serveCallInvocations addEnv sixHost (callRequest "F" sixParams) (some 10) = []) ∧
    (mapFind wideHost.bridge.functions "G"
      = some (sampleSignature "G" 0x9010 1 CONV_CDECL true) ∧
    (serveCall addEnv wideHost (callRequest "G" [int64One]) (some 10)).response.success = 0 ∧
    (serveCall addEnv wideHost (callRequest "G" [int64One])
      (some 10)).response.call_result.has_return = 0 ∧
    serveCallInvocations addEnv wideHost (callRequest "G" [int64One]) (some 10) = []) ∧
    (mapFind addHost.bridge.functions "add"
      = some (sampleSignature "add" 0x9010 2 CONV_CDECL true) ∧
    ¬ slowEnv.now + 5000 < 4800 ∧
    slowEnv.native 0x9010 CONV_CDECL (stdcallWords slowEnv [paramInt32 7, paramInt32 35])
      = .returned 42 ∧
    promiseTime slowEnv addHost (callRequest "add" [paramInt32 7, paramInt32 35]) 4800
      = 5200 ∧
    waitEnd slowEnv = 5000 ∧
    serveCallInvocations slowEnv addHost (callRequest "add" [paramInt32 7, paramInt32 35])
      (some 4800) = [{ address := 0x9010, convention := CONV_CDECL, args := [7, 35] }] ∧
    (serveCall slowEnv addHost (callRequest "add" [paramInt32 7, paramInt32 35])
      (some 4800)).response.success = 0 ∧
    (serveCall slowEnv addHost (callRequest "add" [paramInt32 7, paramInt32 35])
      (some 4800)).response.error_message = "Function call failed") := by
  refine ⟨⟨by decide, by decide, ?_, by decide, by decide, by decide⟩,
    ⟨by decide, by decide, by decide, by decide⟩,
    by decide, by decide, by decide, by decide, by decide, by decide, by decide, by decide⟩
  intro w
  exact ⟨fun hc => NativeOutcome.noConfusion hc, fun hc => NativeOutcome.noConfusion hc⟩

theorem awaitAfterDrain_cases (env : Env) (h : Host) (request : PipeRequest)
    (drain : Option Nat) :
    awaitAfterDrain env h request drain = .timedOut ∨
    awaitAfterDrain env h request drain = .ready false none ∨
    awaitAfterDrain env h request drain =
      .ready ((((pendingOf env h request).func env h).result).getD false)
        ((pendingOf env h request).func env h).stored := by
  cases drain with
  | none => exact Or.inl rfl
  | some t =>
    by_cases hw : waitEnd env < promiseTime env h request t
    · exact Or.inl (awaitAfterDrain_slow env h request t hw)
    · by_cases hd : env.now + 5000 < t
      · rcases awaitAfterDrain_late env h request t hd with hc | hc
        · exact Or.inl hc
        · exact Or.inr (Or.inl hc)
      · exact Or.inr (Or.inr (awaitAfterDrain_live env h request t hd (by omega)))

theorem serveCall_invoker_fails (env : Env) (h : Host) (request : PipeRequest)
    (drain : Option Nat)
    (hrun : h.server.running = true) (hlive : IsDllShuttingDown h.g_dllState = false)
    (ht : request.type = CALL_FUNCTION)
    (hf : ((pendingOf env h request).func env h).result = some false) :
    (serveCall env h request drain).response.success = 0 ∧
    (serveCall env h request drain).response.error_message = "Function call failed" := by
  apply serveCall_failed env h request drain hrun hlive ht
  intro stored hw
  rcases awaitAfterDrain_cases env h request drain with hc | hc | hc
  · rw [hc] at hw
    exact AwaitOutcome.noConfusion hw
  · rw [hc] at hw
    have hb := (AwaitOutcome.ready.inj hw).1
    exact Bool.noConfusion hb
  · rw [hc, hf] at hw
    have hb := (AwaitOutcome.ready.inj hw).1
    exact Bool.noConfusion hb

/-- C14, amended: for a running host, a call-function request whose pending call is not
drained within the 5-second wait (no drain at all, or a drain later than the deadline)
yields a response with success=0 and the error message "Function call failed". -/
theorem undrained_call_fails (env : Env) (h : Host) (name : String)
    (params : List FunctionParam)
    (hrun : h.server.running = true) (hlive : IsDllShuttingDown h.g_dllState = false) :
    ((serveCall env h (callRequest name params) none).response.success = 0 ∧
      (serveCall env h (callRequest name params) none).response.error_message
        = "Function call failed") ∧
    (∀ t, env.now + 5000 < t →
      (serveCall env h (callRequest name params) (some t)).response.success = 0 ∧
      (serveCall env h (callRequest name params) (some t)).response.error_message
        = "Function call failed") := by
  refine ⟨serveCall_failed env h _ none hrun hlive rfl ?_, fun t ht => ?_⟩
  · intro stored hw
    exact AwaitOutcome.noConfusion hw
  · refine serveCall_failed env h _ (some t) hrun hlive rfl ?_
    intro stored hw
    rcases awaitAfterDrain_late env h _ t ht with hc | hc
    · rw [hc] at hw
      exact AwaitOutcome.noConfusion hw
    · rw [hc] at hw
      have hb := (AwaitOutcome.ready.inj hw).1
      exact Bool.noConfusion hb

/-- C14 (amended) at a concrete input: `add` is registered and the call is never drained. -/
theorem undrained_call_fails_witness :
    mapFind addHost.bridge.functions "add"
      = some (sampleSignature "add" 0x9010 2 CONV_CDECL true) ∧
    (serveCall addEnv addHost (callRequest "add" [paramInt32 7, paramInt32 35])
      none).response.success = 0 ∧
    (serveCall addEnv addHost (callRequest "add" [paramInt32 7, paramInt32 35])
      none).response.error_message = "Function call failed" :=
  ⟨by decide,
    (undrained_call_fails addEnv addHost "add" [paramInt32 7, paramInt32 35] rfl rfl).1⟩

/-- C14 as stated fails: the call of the registered function `add` that is never drained
yields success=0 with the message "Function call failed", not "Timeout". -/
theorem undrained_call_message :
    mapFind addHost.bridge.functions "add"
      = some (sampleSignature "add" 0x9010 2 CONV_CDECL true) ∧
    (serveCall addEnv addHost (callRequest "add" [paramInt32 7, paramInt32 35])
      none).response.success = 0 ∧
    (serveCall addEnv addHost (callRequest "add" [paramInt32 7, paramInt32 35])
      none).response.error_message ≠ "Timeout" := by
  decide

/-- C16, amended: for a function registered as cdecl with parameter count n in 0..5, or as
stdcall with n in 0..6, and a queued call with n parameters of supported types (i8, i16,
i32, f32, pointer, ansi-string, wide-string), the marshaller invokes the native address
exactly once, with the convention of the function and the n lowered argument words in
order, and reports success exactly when the native code returns. -/
theorem marshaller_invokes_once (env : Env) (h : Host) (c : PendingCall)
    (sig : FunctionSignature)
    (hreg : mapFind h.bridge.functions c.func_name = some sig)
    (hconv : (sig.convention = CONV_CDECL ∧ sig.param_count ≤ 5) ∨
      (sig.convention = CONV_STDCALL ∧ sig.param_count ≤ 6))
    (hcount : c.params_copy.length = sig.param_count)
    (hs : ∀ p ∈ c.params_copy, supportedType p.type = true) :
    (c.func env h).invocations =
      [{ address := sig.address, convention := sig.convention,
         args := stdcallWords env c.params_copy }] ∧
    (stdcallWords env c.params_copy).length = sig.param_count ∧
    ((c.func env h).result = some true ↔
      ∃ r, env.native sig.address sig.convention (stdcallWords env c.params_copy)
        = .returned r) := by
  refine ⟨?_, by rw [stdcallWords_length, hcount], ?_⟩
  · rcases hconv with ⟨hc, hm⟩ | ⟨hc, hm⟩
    · rw [pendingFunc_cdecl env h c sig hreg hc hcount hm hs, hc]
      cases env.native sig.address CONV_CDECL (stdcallWords env c.params_copy) <;> rfl
    · rw [pendingFunc_stdcall env h c sig hreg hc hcount hm hs, hc]
      cases env.native sig.address CONV_STDCALL (stdcallWords env c.params_copy) <;> rfl
  · rcases hconv with ⟨hc, hm⟩ | ⟨hc, hm⟩
    · rw [pendingFunc_cdecl env h c sig hreg hc hcount hm hs, hc]
      cases env.native sig.address CONV_CDECL (stdcallWords env c.params_copy) <;> simp
    · rw [pendingFunc_stdcall env h c sig hreg hc hcount hm hs, hc]
      cases env.native sig.address CONV_STDCALL (stdcallWords env c.params_copy) <;> simp

/-- C16 (amended) at a concrete input: the stdcall function `S` called with one i32. -/
theorem marshaller_invokes_once_witness :
    mapFind stdHost.bridge.functions "S"
      = some (sampleSignature "S" 0x9010 1 CONV_STDCALL true) ∧
    ((pendingOf addEnv stdHost (callRequest "S" [paramInt32 7])).func addEnv
        stdHost).invocations
      = [{ address := 0x9010, convention := CONV_STDCALL, args := [7] }] ∧
    ((pendingOf addEnv stdHost (callRequest "S" [paramInt32 7])).func addEnv stdHost).result
      = some true :=
  have hreg : mapFind stdHost.bridge.functions
      (pendingOf addEnv stdHost (callRequest "S" [paramInt32 7])).func_name
      = some (sampleSignature "S" 0x9010 1 CONV_STDCALL true) := by decide
  have h := marshaller_invokes_once addEnv stdHost
    (pendingOf addEnv stdHost (callRequest "S" [paramInt32 7]))
    (sampleSignature "S" 0x9010 1 CONV_STDCALL true) hreg
    (Or.inr ⟨rfl, by decide⟩) (by decide) (by decide)
  ⟨hreg, h.1.trans (by decide), h.2.2.mpr ⟨7, by decide⟩⟩

/-- C16 as stated fails: for the function registered as cdecl with six parameters, called
with six i32 parameters, the marshaller does not invoke the native address and reports
failure; and for the stdcall function with one parameter whose native code raises an access
violation, the marshaller reports failure. -/
theorem marshaller_six_cdecl_rejected :
    (mapFind sixHost.bridge.functions "F"
        = some (sampleSignature "F" 0x9010 6 CONV_CDECL true) ∧
      (∀ p ∈ sixParams, supportedType p.type = true) ∧
      ((pendingOf addEnv sixHost (callRequest "F" sixParams)).func addEnv
        sixHost).invocations = [] ∧
      ((pendingOf addEnv sixHost (callRequest "F" sixParams)).func addEnv sixHost).result
        = some false) ∧
    (mapFind stdHost.bridge.functions "S"
        = some (sampleSignature "S" 0x9010 1 CONV_STDCALL true) ∧
      ((pendingOf faultEnv stdHost (callRequest "S" [paramInt32 7])).func faultEnv
        stdHost).result = some false) := by
  decide

/-! ## Fastcall -/

theorem pendingFunc_fastcall (env : Env) (h : Host) (c : PendingCall)
    (sig : FunctionSignature)
    (hreg : mapFind h.bridge.functions c.func_name = some sig)
    (hconv : sig.convention = CONV_FASTCALL) :
    (c.func env h).result = some false ∧ (c.func env h).invocations = [] := by
  unfold PendingCall.func
  rw [hreg]
  dsimp only
  have h1 : ¬ sig.convention = CONV_CDECL := by rw [hconv]; decide
  have h2 : ¬ sig.convention = CONV_STDCALL := by rw [hconv]; decide
  have h3 : ¬ sig.convention = CONV_THISCALL := by rw [hconv]; decide
  rw [if_neg h1, if_neg h2, if_neg h3, if_pos hconv]
  split_ifs <;> exact ⟨rfl, rfl⟩

/-- C18: for a running host, a function registered with the fastcall convention and every
parameter list, the call request fails (success=0) whether and whenever the queue is
drained, and the invoker of the call makes no native call. -/
theorem fastcall_rejected (env : Env) (h : Host) (name : String) (sig : FunctionSignature)
    (params : List FunctionParam) (drain : Option Nat)
    (hrun : h.server.running = true) (hlive : IsDllShuttingDown h.g_dllState = false)
    (hreg : mapFind h.bridge.functions name = some sig)
    (hconv : sig.convention = CONV_FASTCALL) :
    (serveCall env h (callRequest name params) drain).response.success = 0 ∧
    ((pendingOf env h (callRequest name params)).func env h).invocations = [] ∧
    (RPCBridge.CallFastcall env sig params sig.has_return).invocations = [] ∧
    (h.bridge.pending_calls = [] →
      serveCallInvocations env h (callRequest name params) drain = []) := by
  have hf := pendingFunc_fastcall env h (pendingOf env h (callRequest name params)) sig
    hreg hconv
  refine ⟨(serveCall_invoker_fails env h _ drain hrun hlive rfl hf.1).1, hf.2, rfl, ?_⟩
  intro hq
  cases drain with
  | none => rfl
  | some t =>
    unfold serveCallInvocations
    dsimp only
    rw [ProcessPendingCalls_invocations, submittedQueue_eq, hq]
    simp only [purgeExpiredFront, List.nil_append, List.filter_cons, List.filter_nil]
    split_ifs
    · simp only [List.map_cons, List.map_nil, List.flatten_cons, List.flatten_nil,
        List.append_nil]
      exact hf.2
    · rfl

/-- C18 at a concrete input: `Q` registered as fastcall, called with one i32 and drained. -/
theorem fastcall_rejected_witness :
    mapFind fastHost.bridge.functions "Q"
      = some (sampleSignature "Q" 0x9010 1 CONV_FASTCALL true) ∧
    (serveCall addEnv fastHost (callRequest "Q" [paramInt32 7]) (some 10)).response.success
      = 0 ∧
    serveCallInvocations addEnv fastHost (callRequest "Q" [paramInt32 7]) (some 10) = [] :=
  have hreg : mapFind fastHost.bridge.functions "Q"
      = some (sampleSignature "Q" 0x9010 1 CONV_FASTCALL true) := by decide
  have h := fastcall_rejected addEnv fastHost "Q"
    (sampleSignature "Q" 0x9010 1 CONV_FASTCALL true) [paramInt32 7] (some 10)
    rfl rfl hreg rfl
  ⟨hreg, h.1, h.2.2.2 rfl⟩

/-! ## Thiscall against stdcall -/

theorem thiscallLoop_eq (env : Env) (params : List FunctionParam) (n i : Nat)
    (args : List Nat) :
    thiscallLoop env params n i args =
      args ++ (List.range' i n).map (fun j => thiscallArg env (params.getD j noParam)) := by
  induction n generalizing i args with
  | zero => simp [thiscallLoop]
  | succ n ih =>
    unfold thiscallLoop
    rw [ih (i + 1)]
    simp [List.range'_succ]

/-- C17 evaluated at two parameter lists whose first parameter is the pointer `0x9000` into
committed memory. For the list (pointer, ansi-string "AB") the thiscall marshaller passes
the first four bytes of the string, `0x4241`, as second argument word, where the stdcall
marshaller passes the address of the string buffer. For the list (pointer, i64) the
stdcall marshaller rejects the list without a native call, where the thiscall marshaller
makes the native call with the low 32 bits of the value and reports success. -/
theorem thiscall_diverges_from_stdcall :
    ((RPCBridge.CallThiscall bufferEnv codeMemory
        (sampleSignature "M" 0x9010 2 CONV_THISCALL true) [thisPointer, stringAB]
        true).invocations
      = [{ address := 0x9010, convention := CONV_THISCALL, args := [0x9000, 0x4241] }] ∧
    (RPCBridge.CallStdcall bufferEnv
        (sampleSignature "M" 0x9010 2 CONV_STDCALL true) [thisPointer, stringAB]
        true).invocations
      = [{ address := 0x9010, convention := CONV_STDCALL, args := [0x9000, 0x20108] }] ∧
    thiscallWords bufferEnv [thisPointer, stringAB]
      ≠ stdcallWords bufferEnv [thisPointer, stringAB]) ∧
    ((RPCBridge.CallStdcall bufferEnv
        (sampleSignature "M" 0x9010 2 CONV_STDCALL true) [thisPointer, int64One]
        true).result = some false ∧
    (RPCBridge.CallStdcall bufferEnv
        (sampleSignature "M" 0x9010 2 CONV_STDCALL true) [thisPointer, int64One]
        true).invocations = [] ∧
    (RPCBridge.CallThiscall bufferEnv codeMemory
        (sampleSignature "M" 0x9010 2 CONV_THISCALL true) [thisPointer, int64One]
        true).result = some true ∧
    (RPCBridge.CallThiscall bufferEnv codeMemory
        (sampleSignature "M" 0x9010 2 CONV_THISCALL true) [thisPointer, int64One]
        true).invocations
      = [{ address := 0x9010, convention := CONV_THISCALL, args := [0x9000, 1] }]) := by
  decide

/-! ## Requests that name an absent entry -/

theorem dispatch_hook (env : Env) (h : Host) (request : PipeRequest)
    (hrun : h.server.running = true) (hlive : IsDllShuttingDown h.g_dllState = false)
    (ht : request.type = REMOVE_HOOK ∨ request.type = ENABLE_HOOK ∨
      request.type = DISABLE_HOOK) :
    dispatch env h request =
      { response := (RPCBridge.HandleHookRequest env h request zeroResponse).2.1,
        host := (RPCBridge.HandleHookRequest env h request zeroResponse).2.2,
        handlers := [Handler.HandleHookRequest] } := by
  have hge : REGISTER_FUNCTION ≤ request.type := by
    rcases ht with ht | ht | ht <;> rw [ht] <;> decide
  have hh : (RPCBridge.HandleHookRequest env h request zeroResponse).1 = true := by
    simp only [RPCBridge.HandleHookRequest]
    rcases ht with ht | ht | ht <;> simp [ht]
  rw [dispatch_bridge env h request hrun hlive hge,
    bridge_route_hook env h request _ (Or.inr ht)]
  simp only [hh, if_true]

theorem dispatch_event (env : Env) (h : Host) (request : PipeRequest)
    (hrun : h.server.running = true) (hlive : IsDllShuttingDown h.g_dllState = false)
    (ht : request.type = GET_PENDING_EVENTS ∨ request.type = UNREGISTER_EVENT_BUFFER) :
    dispatch env h request =
      { response := (RPCBridge.HandleEventRequest env h request zeroResponse).2.1,
        host := (RPCBridge.HandleEventRequest env h request zeroResponse).2.2,
        handlers := [Handler.HandleEventRequest] } := by
  have hge : REGISTER_FUNCTION ≤ request.type := by
    rcases ht with ht | ht <;> rw [ht] <;> decide
  have hh : (RPCBridge.HandleEventRequest env h request zeroResponse).1 = true := by
    simp only [RPCBridge.HandleEventRequest]
    rcases ht with ht | ht <;> simp [ht]
  have ht3 : request.type = GET_PENDING_EVENTS ∨ request.type = REGISTER_EVENT_BUFFER ∨
      request.type = UNREGISTER_EVENT_BUFFER := by
    rcases ht with ht | ht
    · exact Or.inl ht
    · exact Or.inr (Or.inr ht)
  rw [dispatch_bridge env h request hrun hlive hge, bridge_route_event env h request _ ht3]
  simp only [hh, if_true]

theorem pendingFunc_absent (env : Env) (h : Host) (c : PendingCall)
    (habs : mapFind h.bridge.functions c.func_name = none) :
    (c.func env h).result = some false ∧ (c.func env h).invocations = [] := by
  unfold PendingCall.func
  rw [habs]
  exact ⟨rfl, rfl⟩

/-- C19, amended: on a running host, a request that names a function, detour or event ring
absent from its registry yields success=0 and a non-empty error message for
unregister-function ("Function not found"), call-function ("Function call failed", however
the queue is drained), remove/enable/disable detour ("Failed to remove hook", "Failed to
enable hook", "Failed to disable hook") and unregister-event-buffer ("Failed to unregister
event buffer"); poll-events yields success=1 with zero events and an empty message. Each of
them leaves every registry unchanged (a call-function request only adds its call to the
pending queue). -/
theorem absent_name_requests (env : Env) (h : Host) (request : PipeRequest)
    (hrun : h.server.running = true) (hlive : IsDllShuttingDown h.g_dllState = false) :
    (request.type = UNREGISTER_FUNCTION →
      mapFind h.bridge.functions request.call_func.name = none →
        (dispatch env h request).response.success = 0 ∧
        (dispatch env h request).response.error_message = "Function not found" ∧
        (dispatch env h request).host = h) ∧
    (request.type = CALL_FUNCTION →
      mapFind h.bridge.functions request.call_func.name = none →
        ∀ drain,
          (serveCall env h request drain).response.success = 0 ∧
          (serveCall env h request drain).response.error_message = "Function call failed" ∧
          (serveCall env h request drain).host.bridge.functions = h.bridge.functions ∧
          (serveCall env h request drain).host.bridge.allocations = h.bridge.allocations ∧
          (serveCall env h request drain).host.bridge.hooks = h.bridge.hooks ∧
          (serveCall env h request drain).host.bridge.event_buffers
            = h.bridge.event_buffers ∧
          (serveCall env h request drain).host.engine = h.engine) ∧
    (request.type = REMOVE_HOOK → mapFind h.bridge.hooks request.hook.name = none →
        (dispatch env h request).response.success = 0 ∧
        (dispatch env h request).response.error_message = "Failed to remove hook" ∧
        (dispatch env h request).host = h) ∧
    (request.type = ENABLE_HOOK → mapFind h.bridge.hooks request.hook.name = none →
        (dispatch env h request).response.success = 0 ∧
        (dispatch env h request).response.error_message = "Failed to enable hook" ∧
        (dispatch env h request).host = h) ∧
    (request.type = DISABLE_HOOK → mapFind h.bridge.hooks request.hook.name = none →
        (dispatch env h request).response.success = 0 ∧
        (dispatch env h request).response.error_message = "Failed to disable hook" ∧
        (dispatch env h request).host = h) ∧
    (request.type = UNREGISTER_EVENT_BUFFER →
      mapFind h.bridge.event_buffers request.event.name = none →
        (dispatch env h request).response.success = 0 ∧
        (dispatch env h request).response.error_message
          = "Failed to unregister event buffer" ∧
        (dispatch env h request).host = h) ∧
    (request.type = GET_PENDING_EVENTS →
      mapFind h.bridge.event_buffers request.event.name = none →
        (dispatch env h request).response.success = 1 ∧
        (dispatch env h request).response.event_data.event_count = 0 ∧
        (dispatch env h request).response.error_message = "" ∧
        (dispatch env h request).host = h) := by
  refine ⟨?_, ?_, ?_, ?_, ?_, ?_, ?_⟩
  · intro ht habs
    rw [dispatch_function env h request hrun hlive (Or.inr (Or.inl ht))]
    simp [RPCBridge.HandleFunctionRequest, ht, RPCBridge.UnregisterFunction, habs, boolByte]
  · intro ht habs drain
    have hf := pendingFunc_absent env h (pendingOf env h request) habs
    obtain ⟨h1, h2⟩ := serveCall_invoker_fails env h request drain hrun hlive ht hf.1
    rw [serveCall_host env h request drain hrun hlive ht]
    exact ⟨h1, h2, rfl, rfl, rfl, rfl, rfl⟩
  · intro ht habs
    rw [dispatch_hook env h request hrun hlive (Or.inl ht)]
    simp [RPCBridge.HandleHookRequest, ht, RPCBridge.RemoveHook, habs, boolByte]
  · intro ht habs
    rw [dispatch_hook env h request hrun hlive (Or.inr (Or.inl ht))]
    simp [RPCBridge.HandleHookRequest, ht, RPCBridge.EnableHook, habs, boolByte]
  · intro ht habs
    rw [dispatch_hook env h request hrun hlive (Or.inr (Or.inr ht))]
    simp [RPCBridge.HandleHookRequest, ht, RPCBridge.DisableHook, habs, boolByte]
  · intro ht habs
    rw [dispatch_event env h request hrun hlive (Or.inr ht)]
    simp [RPCBridge.HandleEventRequest, ht, RPCBridge.UnregisterEventBuffer, habs, boolByte]
  · intro ht habs
    rw [dispatch_event env h request hrun hlive (Or.inl ht)]
    simp [RPCBridge.HandleEventRequest, ht, RPCBridge.GetPendingEvents, habs, zeroResponse]

/-- C19 (amended) at a concrete input: removing the detour `D` from a host without
detours. -/
theorem absent_name_requests_witness :
    mapFind (codeHost []).bridge.hooks (hookRequest REMOVE_HOOK "D").hook.name = none ∧
    (dispatch {} (codeHost []) (hookRequest REMOVE_HOOK "D")).response.success = 0 ∧
    (dispatch {} (codeHost []) (hookRequest REMOVE_HOOK "D")).response.error_message
      = "Failed to remove hook" ∧
    (dispatch {} (codeHost []) (hookRequest REMOVE_HOOK "D")).host = codeHost [] :=
  ⟨rfl, (absent_name_requests {} (codeHost []) (hookRequest REMOVE_HOOK "D") rfl rfl).2.2.1
    rfl rfl⟩

/-- C19 as stated fails: a poll-events request that names an event ring absent from the
registry yields success=1 and an empty error message. -/
theorem poll_absent_ring_succeeds :
    mapFind (codeHost []).bridge.event_buffers
      (eventRequest GET_PENDING_EVENTS "ring").event.name = none ∧
    (dispatch {} (codeHost []) (eventRequest GET_PENDING_EVENTS "ring")).response.success
      = 1 ∧
    (dispatch {} (codeHost [])
      (eventRequest GET_PENDING_EVENTS "ring")).response.error_message = "" := by
  decide

/-! ## What a request does to the function registry -/

theorem AllocateMemory_functions (env : Env) (h : Host) (size protection : Nat) :
    (RPCBridge.AllocateMemory env h size protection).2.bridge.functions
      = h.bridge.functions := by
  simp only [RPCBridge.AllocateMemory]
  repeat' split
  all_goals rfl

theorem FreeMemory_functions (env : Env) (h : Host) (address : Nat) :
    (RPCBridge.FreeMemory env h address).2.bridge.functions = h.bridge.functions := by
  simp only [RPCBridge.FreeMemory]
  repeat' split
  all_goals rfl

theorem WriteMemory_functions (env : Env) (h : Host) (address : Nat) (data : List Nat)
    (size : Nat) :
    (RPCBridge.WriteMemory env h address data size).2.bridge.functions
      = h.bridge.functions := by
  simp only [RPCBridge.WriteMemory]
  repeat' split
  all_goals rfl

theorem ProtectMemory_functions (h : Host) (address size protection : Nat) :
    (RPCBridge.ProtectMemory h address size protection).2.bridge.functions
      = h.bridge.functions := by
  simp only [RPCBridge.ProtectMemory]
  repeat' split
  all_goals rfl

theorem InstallHook_functions (env : Env) (h : Host) (name : String) (target detour : Nat) :
    (RPCBridge.InstallHook env h name target detour).2.bridge.functions
      = h.bridge.functions := by
  simp only [RPCBridge.InstallHook]
  repeat' split
  all_goals rfl

theorem RemoveHook_functions (env : Env) (h : Host) (name : String) :
    (RPCBridge.RemoveHook env h name).2.bridge.functions = h.bridge.functions := by
  unfold RPCBridge.RemoveHook
  cases mapFind h.bridge.hooks name <;> rfl

theorem EnableHook_functions (env : Env) (h : Host) (name : String) :
    (RPCBridge.EnableHook env h name).2.bridge.functions = h.bridge.functions := by
  unfold RPCBridge.EnableHook
  cases mapFind h.bridge.hooks name <;> rfl

theorem DisableHook_functions (env : Env) (h : Host) (name : String) :
    (RPCBridge.DisableHook env h name).2.bridge.functions = h.bridge.functions := by
  unfold RPCBridge.DisableHook
  cases mapFind h.bridge.hooks name <;> rfl

theorem RegisterEventBuffer_functions (h : Host) (name : String)
    (buffer size max_events : Nat) :
    (RPCBridge.RegisterEventBuffer h name buffer size max_events).2.bridge.functions
      = h.bridge.functions := by
  simp only [RPCBridge.RegisterEventBuffer]
  repeat' split
  all_goals rfl

theorem UnregisterEventBuffer_functions (h : Host) (name : String) :
    (RPCBridge.UnregisterEventBuffer h name).2.bridge.functions = h.bridge.functions := by
  unfold RPCBridge.UnregisterEventBuffer
  cases mapFind h.bridge.event_buffers name <;> rfl

theorem GetPendingEvents_functions (b : RPCBridge) (name : String) (max_count : Nat) :
    (RPCBridge.GetPendingEvents b name max_count).2.functions = b.functions := by
  simp only [RPCBridge.GetPendingEvents]
  repeat' split
  all_goals rfl

theorem HandleServerControlRequest_functions (env : Env) (h : Host) (request : PipeRequest)
    (response : PipeResponse) :
    (RPCBridge.HandleServerControlRequest env h request response).2.2.bridge.functions
      = h.bridge.functions := by
  simp only [RPCBridge.HandleServerControlRequest]
  repeat' split
  all_goals rfl

theorem HandleDLLControlRequest_functions (env : Env) (h : Host) (request : PipeRequest)
    (response : PipeResponse) :
    (RPCBridge.HandleDLLControlRequest env h request response).2.2.bridge.functions
      = h.bridge.functions := by
  simp only [RPCBridge.HandleDLLControlRequest]
  repeat' split
  all_goals rfl

theorem HandleArrayRequest_functions (env : Env) (h : Host) (request : PipeRequest)
    (response : PipeResponse) :
    (RPCBridge.HandleArrayRequest env h request response).2.2.bridge.functions
      = h.bridge.functions := by
  simp only [RPCBridge.HandleArrayRequest]
  repeat' split
  all_goals rfl

theorem HandleBatchReadRequest_functions (h : Host) (request : PipeRequest)
    (response : PipeResponse) :
    (RPCBridge.HandleBatchReadRequest h request response).2.2.bridge.functions
      = h.bridge.functions := by
  simp only [RPCBridge.HandleBatchReadRequest]
  repeat' split
  all_goals rfl

theorem HandleMemoryRequest_functions (env : Env) (h : Host) (request : PipeRequest)
    (response : PipeResponse) :
    (RPCBridge.HandleMemoryRequest env h request response).2.2.bridge.functions
      = h.bridge.functions := by
  simp only [RPCBridge.HandleMemoryRequest]
  repeat' split
  all_goals first
    | rfl
    | exact AllocateMemory_functions _ _ _ _
    | exact FreeMemory_functions _ _ _
    | exact WriteMemory_functions _ _ _ _ _
    | exact ProtectMemory_functions _ _ _ _

theorem HandleHookRequest_functions (env : Env) (h : Host) (request : PipeRequest)
    (response : PipeResponse) :
    (RPCBridge.HandleHookRequest env h request response).2.2.bridge.functions
      = h.bridge.functions := by
  simp only [RPCBridge.HandleHookRequest]
  repeat' split
  all_goals first
    | rfl
    | exact InstallHook_functions _ _ _ _ _
    | exact RemoveHook_functions _ _ _
    | exact EnableHook_functions _ _ _
    | exact DisableHook_functions _ _ _

theorem HandleEventRequest_functions (env : Env) (h : Host) (request : PipeRequest)
    (response : PipeResponse) :
    (RPCBridge.HandleEventRequest env h request response).2.2.bridge.functions
      = h.bridge.functions := by
  simp only [RPCBridge.HandleEventRequest]
  repeat' split
  all_goals first
    | rfl
    | exact RegisterEventBuffer_functions _ _ _ _ _
    | exact UnregisterEventBuffer_functions _ _
    | exact GetPendingEvents_functions _ _ _

theorem mem_mapAssign {κ β : Type} [DecidableEq κ] (m : List (κ × β)) (k : κ) (v : β)
    (e : κ × β) (he : e ∈ mapAssign m k v) : e ∈ m ∨ e = (k, v) := by
  unfold mapAssign at he
  split_ifs at he
  · obtain ⟨a, ha, hae⟩ := List.mem_map.mp he
    by_cases hk : a.1 = k
    · rw [if_pos hk] at hae
      exact Or.inr hae.symm
    · rw [if_neg hk] at hae
      exact Or.inl (hae ▸ ha)
  · rcases List.mem_append.mp he with h1 | h1
    · exact Or.inl h1
    · exact Or.inr (List.mem_singleton.mp h1)

theorem mem_assignFunction (env : Env) (m : List (String × FunctionSignature))
    (name : String) (sig : FunctionSignature) (hperm : ∀ l, (env.rehash l).Perm l)
    (e : String × FunctionSignature) (he : e ∈ assignFunction env m name sig) :
    e ∈ m ∨ e = (name, sig) := by
  unfold assignFunction at he
  split_ifs at he
  · exact mem_mapAssign m name sig e he
  · exact mem_mapAssign m name sig e ((hperm _).mem_iff.mp he)

theorem mem_mapErase {κ β : Type} [DecidableEq κ] (m : List (κ × β)) (k : κ)
    (e : κ × β) (he : e ∈ mapErase m k) : e ∈ m :=
  (List.mem_filter.mp he).1

theorem HandleFunctionRequest_functions_mem (env : Env) (h : Host) (request : PipeRequest)
    (response : PipeResponse) (hperm : ∀ l, (env.rehash l).Perm l)
    (e : String × FunctionSignature)
    (he : e ∈ (RPCBridge.HandleFunctionRequest env h request response).2.2.bridge.functions) :
    e ∈ h.bridge.functions ∨
    (request.type = REGISTER_FUNCTION ∧ e = (request.register_func.name,
      registeredRecord request)) := by
  unfold RPCBridge.HandleFunctionRequest at he
  by_cases h1 : request.type = REGISTER_FUNCTION
  · rw [if_pos h1] at he
    by_cases h0 : request.register_func.address = 0
    · rw [if_pos h0] at he
      exact Or.inl he
    · rw [if_neg h0] at he
      dsimp only at he
      rw [RegisterFunction_host] at he
      split_ifs at he
      · rcases mem_assignFunction env _ _ _ hperm e he with hm | hm
        · exact Or.inl hm
        · exact Or.inr ⟨h1, hm⟩
      · exact Or.inl he
  · rw [if_neg h1] at he
    by_cases h2 : request.type = UNREGISTER_FUNCTION
    · rw [if_pos h2] at he
      dsimp only at he
      unfold RPCBridge.UnregisterFunction at he
      cases hf : mapFind h.bridge.functions request.call_func.name with
      | none =>
        rw [hf] at he
        exact Or.inl he
      | some v =>
        rw [hf] at he
        exact Or.inl (mem_mapErase _ _ _ he)
    · rw [if_neg h2] at he
      by_cases h3 : request.type = CALL_FUNCTION
      · rw [if_pos h3] at he
        dsimp only at he
        unfold RPCBridge.CallFunction at he
        cases hw : env.await <;> rw [hw] at he <;> exact Or.inl he
      · rw [if_neg h3] at he
        split_ifs at he <;> exact Or.inl he

theorem ite_prop {α : Type} (P : α → Prop) (c : Prop) [Decidable c] (a b : α)
    (ha : P a) (hb : P b) : P (if c then a else b) := by
  split_ifs
  · exact ha
  · exact hb

theorem bridge_host_functions (env : Env) (h : Host) (request : PipeRequest)
    (response : PipeResponse) :
    (RPCBridge.HandleRequest env h request response).2.host.bridge.functions
        = h.bridge.functions ∨
    (RPCBridge.HandleRequest env h request response).2.host
        = (RPCBridge.HandleFunctionRequest env h request zeroResponse).2.2 := by
  let Q : Bool × Dispatched → Prop := fun r =>
    r.2.host.bridge.functions = h.bridge.functions ∨
    r.2.host = (RPCBridge.HandleFunctionRequest env h request zeroResponse).2.2
  show Q (RPCBridge.HandleRequest env h request response)
  simp only [RPCBridge.HandleRequest]
  refine ite_prop Q _ _ _ ?_ (ite_prop Q _ _ _ ?_ (ite_prop Q _ _ _ ?_ (ite_prop Q _ _ _ ?_
    (ite_prop Q _ _ _ ?_ (ite_prop Q _ _ _ ?_ (ite_prop Q _ _ _ ?_ (ite_prop Q _ _ _ ?_
    (ite_prop Q _ _ _ ?_ (ite_prop Q _ _ _ ?_ ?_)))))))))
  · exact Or.inl (HandleServerControlRequest_functions _ _ _ _)
  · exact Or.inl (HandleDLLControlRequest_functions _ _ _ _)
  · exact Or.inl rfl
  · exact Or.inr rfl
  · exact Or.inl (HandleMemoryRequest_functions _ _ _ _)
  · exact Or.inl (HandleHookRequest_functions _ _ _ _)
  · exact Or.inl (HandleEventRequest_functions _ _ _ _)
  · exact Or.inl (HandleArrayRequest_functions _ _ _ _)
  · exact Or.inl (HandleBatchReadRequest_functions _ _ _)
  · exact Or.inl rfl
  · exact Or.inl rfl

theorem dispatch_host_functions (env : Env) (h : Host) (request : PipeRequest) :
    (dispatch env h request).host.bridge.functions = h.bridge.functions ∨
    (dispatch env h request).host
      = (RPCBridge.HandleFunctionRequest env h request zeroResponse).2.2 := by
  unfold dispatch NamedPipeServer.HandleRequest
  by_cases hg : (!h.server.running || IsDllShuttingDown h.g_dllState) = true
  · rw [if_pos hg]
    exact Or.inl rfl
  · rw [if_neg hg]
    by_cases hk : request.type ≥ REGISTER_FUNCTION
    · rw [if_pos hk]
      dsimp only
      by_cases hr : (RPCBridge.HandleRequest env h request zeroResponse).1 = true
      · rw [if_pos hr]
        exact bridge_host_functions env h request zeroResponse
      · rw [if_neg hr]
        exact bridge_host_functions env h request zeroResponse
    · rw [if_neg hk]
      cases legacySwitch env h.memory request zeroResponse <;> exact Or.inl rfl

theorem dispatch_functions_mem (env : Env) (h : Host) (request : PipeRequest)
    (hperm : ∀ l, (env.rehash l).Perm l) (e : String × FunctionSignature)
    (he : e ∈ (dispatch env h request).host.bridge.functions) :
    e ∈ h.bridge.functions ∨
    (request.type = REGISTER_FUNCTION ∧ e = (request.register_func.name,
      registeredRecord request)) := by
  rcases dispatch_host_functions env h request with hd | hd
  · rw [hd] at he
    exact Or.inl he
  · rw [hd] at he
    exact HandleFunctionRequest_functions_mem env h request zeroResponse hperm e he

theorem serveAll_functions_mem (steps : List (Env × PipeRequest)) (h : Host)
    (hperm : ∀ s ∈ steps, ∀ l, (s.1.rehash l).Perm l) (e : String × FunctionSignature)
    (he : e ∈ (serveAll h steps).bridge.functions) :
    e ∈ h.bridge.functions ∨
    ∃ s ∈ steps, s.2.type = REGISTER_FUNCTION ∧
      e = (s.2.register_func.name, registeredRecord s.2) := by
  induction steps generalizing h with
  | nil => exact Or.inl he
  | cons s rest ih =>
    unfold serveAll at he
    rcases ih (dispatch s.1 h s.2).host
        (fun x hx => hperm x (List.mem_cons_of_mem _ hx)) he with h1 | ⟨x, hx, h2⟩
    · rcases dispatch_functions_mem s.1 h s.2 (hperm s (List.mem_cons_self _ _)) e h1
        with h3 | h3
      · exact Or.inl h3
      · exact Or.inr ⟨s, List.mem_cons_self _ _, h3⟩
    · exact Or.inr ⟨x, List.mem_cons_of_mem _ hx, h2⟩

/-- C20, amended: in every state reached from an empty function registry by any sequence
of requests, every record in the function registry is the record built from a
register-function request of the sequence: it has the parameter count and the calling
convention that request carried, unchecked. When these request fields are bytes, as the
frame layout makes them, every record has parameter-count <= 255 and a calling convention
<= 255. -/
theorem registry_records_unchecked (h0 : Host) (steps : List (Env × PipeRequest))
    (hstart : h0.bridge.functions = [])
    (hperm : ∀ s ∈ steps, ∀ l, (s.1.rehash l).Perm l) :
    (∀ e ∈ (serveAll h0 steps).bridge.functions,
      ∃ s ∈ steps, s.2.type = REGISTER_FUNCTION ∧
        e = (s.2.register_func.name, registeredRecord s.2)) ∧
    ((∀ s ∈ steps, s.2.register_func.param_count < 256 ∧
        s.2.register_func.convention < 256) →
      ∀ e ∈ (serveAll h0 steps).bridge.functions,
        e.2.param_count ≤ 255 ∧ e.2.convention ≤ 255) := by
  have hmem : ∀ e ∈ (serveAll h0 steps).bridge.functions,
      ∃ s ∈ steps, s.2.type = REGISTER_FUNCTION ∧
        e = (s.2.register_func.name, registeredRecord s.2) := by
    intro e he
    rcases serveAll_functions_mem steps h0 hperm e he with h1 | h1
    · rw [hstart] at h1
      exact absurd h1 (List.not_mem_nil _)
    · exact h1
  refine ⟨hmem, fun hbytes e he => ?_⟩
  obtain ⟨s, hs, _, rfl⟩ := hmem e he
  have hb := hbytes s hs
  exact ⟨Nat.le_of_lt_succ hb.1, Nat.le_of_lt_succ hb.2⟩

/-- C20 (amended) at a concrete input: one register-function request on a host with an
empty registry. -/
theorem registry_records_unchecked_witness :
    (codeHost []).bridge.functions = [] ∧
    ∀ e ∈ (serveAll (codeHost [])
        [(({} : Env), registerRequest "F" 0x9000 2 CONV_STDCALL 1)]).bridge.functions,
      e.2.param_count ≤ 255 ∧ e.2.convention ≤ 255 :=
  ⟨rfl, (registry_records_unchecked (codeHost [])
    [(({} : Env), registerRequest "F" 0x9000 2 CONV_STDCALL 1)] rfl
    (fun s hs l => by
      rw [List.mem_singleton.mp hs]
      exact List.Perm.refl l)).2
    (fun s hs => by
      rw [List.mem_singleton.mp hs]
      decide)⟩

/-- C20 as stated fails: a register-function request with parameter count 200 and
convention byte 9 at an executable address is accepted, and the registry then holds a
record with parameter count 200 and convention 9. -/
theorem register_stores_any_bytes :
    (codeHost []).bridge.functions = [] ∧
    (dispatch {} (codeHost []) (registerRequest "F" 0x9000 200 9 0)).response.success = 1 ∧
    mapFind (serveAll (codeHost [])
        [(({} : Env), registerRequest "F" 0x9000 200 9 0)]).bridge.functions "F"
      = some (sampleSignature "F" 0x9000 200 9 false) ∧
    ¬ (∀ e ∈ (serveAll (codeHost [])
        [(({} : Env), registerRequest "F" 0x9000 200 9 0)]).bridge.functions,
      e.2.param_count ≤ 10 ∧
      (e.2.convention = CONV_CDECL ∨ e.2.convention = CONV_STDCALL ∨
        e.2.convention = CONV_FASTCALL ∨ e.2.convention = CONV_THISCALL)) := by
  decide

/-! ## Further facts on the marshallers and on failing installs -/

theorem thiscallArg_agrees (env : Env) (i : Nat) (p : FunctionParam)
    (ht : p.type = PARAM_INT8 ∨ p.type = PARAM_INT16 ∨ p.type = PARAM_INT32 ∨
      p.type = PARAM_POINTER) :
    stdcallArg env i p = some (thiscallArg env p) := by
  unfold stdcallArg thiscallArg
  rcases ht with ht | ht | ht | ht <;>
    simp [ht, PARAM_INT8, PARAM_INT16, PARAM_INT32, PARAM_POINTER]

theorem install_enable_failure_detaches :
    (RPCBridge.InstallHook { enableHookOk := fun _ => false } (codeHost []) "D" 0x9000
      0x9010).1 = false ∧
    (RPCBridge.InstallHook { enableHookOk := fun _ => false } (codeHost []) "D" 0x9000
      0x9010).2.engine = [] ∧
    (RPCBridge.InstallHook { enableHookOk := fun _ => false } (codeHost []) "D" 0x9000
      0x9010).2.bridge.hooks = [] := by
  decide

/-! ## Lifecycle -/

theorem gate_closed (env : Env) (h : Host) (request : PipeRequest)
    (hg : h.server.running = false ∨ IsDllShuttingDown h.g_dllState = true) :
    dispatch env h request =
      { response := { zeroResponse with success := 0,
                                        error_message := "Server is shutting down" },
        host := h, handlers := [] } := by
  have hc : (!h.server.running || IsDllShuttingDown h.g_dllState) = true := by
    rcases hg with hg | hg <;> simp [hg]
  simp only [dispatch, NamedPipeServer.HandleRequest, hc, if_true]

/-- C26: `RequestShutdown` takes Running to ShuttingDown and leaves Initializing,
ShuttingDown and Stopped unchanged; applying it twice gives the state of applying it once,
and its result is never Running. -/
theorem request_shutdown_transitions :
    RequestShutdown DllState.Running = DllState.ShuttingDown ∧
    RequestShutdown DllState.Initializing = DllState.Initializing ∧
    RequestShutdown DllState.ShuttingDown = DllState.ShuttingDown ∧
    RequestShutdown DllState.Stopped = DllState.Stopped ∧
    (∀ s, RequestShutdown (RequestShutdown s) = RequestShutdown s) ∧
    (∀ s, RequestShutdown s ≠ DllState.Running) := by
  refine ⟨by decide, by decide, by decide, by decide, ?_, ?_⟩
  · intro s
    cases s <;> decide
  · intro s
    cases s <;> decide

/-! ## Start requests -/

theorem dispatch_server_start_running (env : Env) (h : Host) (request : PipeRequest)
    (ht : request.type = SERVER_START)
    (hrun : h.server.running = true) (hlive : IsDllShuttingDown h.g_dllState = false) :
    dispatch env h request =
      { response := { zeroResponse with success := 0,
                                        error_message := "Server is already running" },
        host := h, handlers := [Handler.HandleServerControlRequest] } := by
  have hge : REGISTER_FUNCTION ≤ request.type := by rw [ht]; decide
  rw [dispatch_bridge env h request hrun hlive hge,
    bridge_route_server env h request _ (Or.inr (Or.inr (Or.inl ht)))]
  simp [RPCBridge.HandleServerControlRequest, ht, hrun]

/-- C29, amended: every SERVER_START request handled by the dispatcher of the endpoint
server yields success=0. When the server is not running, or the lifecycle state is
ShuttingDown or Stopped, the request is rejected by the shutdown gate before routing
(message "Server is shutting down", no handler runs); otherwise the control handler answers
"Server is already running". In every case the process state, and with it the running flag
and the pipe name of the server, is unchanged. -/
theorem server_start_rejected (env : Env) (h : Host) (request : PipeRequest)
    (ht : request.type = SERVER_START) :
    (dispatch env h request).response.success = 0 ∧
    (dispatch env h request).host = h ∧
    (dispatch env h request).host.server.running = h.server.running ∧
    (dispatch env h request).host.server.pipeName = h.server.pipeName ∧
    (h.server.running = false ∨ IsDllShuttingDown h.g_dllState = true →
      (dispatch env h request).response.error_message = "Server is shutting down" ∧
      (dispatch env h request).handlers = []) ∧
    (h.server.running = true ∧ IsDllShuttingDown h.g_dllState = false →
      (dispatch env h request).response.error_message = "Server is already running" ∧
      (dispatch env h request).handlers = [Handler.HandleServerControlRequest]) := by
  by_cases hg : h.server.running = false ∨ IsDllShuttingDown h.g_dllState = true
  · rw [gate_closed env h request hg]
    refine ⟨rfl, rfl, rfl, rfl, fun _ => ⟨rfl, rfl⟩, ?_⟩
    rintro ⟨h1, h2⟩
    rcases hg with hg | hg
    · rw [h1] at hg
      exact Bool.noConfusion hg
    · rw [h2] at hg
      exact Bool.noConfusion hg
  · have hrun : h.server.running = true := by
      cases hr : h.server.running
      · exact absurd (Or.inl hr) hg
      · rfl
    have hlive : IsDllShuttingDown h.g_dllState = false := by
      cases hl : IsDllShuttingDown h.g_dllState
      · rfl
      · exact absurd (Or.inr hl) hg
    rw [dispatch_server_start_running env h request ht hrun hlive]
    exact ⟨rfl, rfl, rfl, rfl, fun hc => absurd hc hg, fun _ => ⟨rfl, rfl⟩⟩

/-- C29 (amended) at a concrete input: a start request at a running host. -/
theorem server_start_rejected_witness :
    (dispatch {} (runningHost emptyMemory) (serverStartRequest "p")).response.success = 0 ∧
    (dispatch {} (runningHost emptyMemory) (serverStartRequest "p")).host
      = runningHost emptyMemory :=
  ⟨(server_start_rejected {} (runningHost emptyMemory) (serverStartRequest "p") rfl).1,
    (server_start_rejected {} (runningHost emptyMemory) (serverStartRequest "p") rfl).2.1⟩

/-- C29 as stated fails: with the server running and the lifecycle state ShuttingDown, a
SERVER_START request is rejected by the gate: the message is "Server is shutting down" and
the control handler does not run. -/
theorem server_start_while_shutting_down :
    shuttingDownHost.server.running = true ∧
    (dispatch {} shuttingDownHost (serverStartRequest "p")).response.error_message
      ≠ "Server is already running" ∧
    (dispatch {} shuttingDownHost (serverStartRequest "p")).response.error_message
      = "Server is shutting down" ∧
    (dispatch {} shuttingDownHost (serverStartRequest "p")).handlers = [] := by
  decide

/-! ## Write-memory requests longer than the payload field -/

theorem bytes_getD (m : Memory) (a n i : Nat) (hi : i < n) :
    (m.bytes a n).getD i 0 = m.byte (a + i) % 256 := by
  simp [Memory.bytes, List.getD_eq_getElem?_getD, List.getElem?_map, List.getElem?_range hi]

/-- C23 evaluated at a write-memory request of size 2048 whose payload field holds 1024
bytes `0x11`, sent to a running host with 2048 writable bytes at `0x4000`, the storage
behind the payload field holding `0xEE`: the size exceeds the 1024-byte capacity, the
request is accepted with success=1, 2048 bytes are copied, and the target bytes from offset
1024 on are `0xEE`: they come from behind the payload field. -/
theorem write_copies_past_payload :
    (writeRequest 0x4000 twoKiB).memory.size = 2048 ∧
    (writeRequest 0x4000 twoKiB).memory.data.length = 1024 ∧
    (dispatch staleEnv roundtripHost (writeRequest 0x4000 twoKiB)).response.success = 1 ∧
    (payloadSource staleEnv (writeRequest 0x4000 twoKiB).memory.data
      (writeRequest 0x4000 twoKiB).memory.size).length = 2048 ∧
    (dispatch staleEnv roundtripHost (writeRequest 0x4000 twoKiB)).host.memory.bytes
      (0x4000 + 1023) 2 = [0x11, 0xEE] ∧
    (dispatch staleEnv roundtripHost (writeRequest 0x4000 twoKiB)).host.memory.bytes
      (0x4000 + 2047) 1 = [0xEE] := by
  have hlen : twoKiB.length = 2048 := by
    simp only [twoKiB, List.length_replicate]
  have hw : roundtripHost.memory.rangeWritable 0x4000 twoKiB.length = true :=
    regionMemory_rangeWritable 0x4000 _ _ _ (by decide)
      (by rw [hlen, List.length_replicate])
  have hg : ¬ ((0x4000 : Nat) = 0 ∨ twoKiB.length = 0 ∨ twoKiB.length > MAX_WRITE_SIZE) := by
    rw [hlen]
    decide
  obtain ⟨w1, _, _, _, _, w6⟩ :=
    WriteMemory_writable staleEnv roundtripHost 0x4000 twoKiB.length (twoKiB.take 1024)
      (by decide) (by rw [hlen]; decide) (by rw [hlen]; decide) hw
  have hbyte : ∀ i, i < 2048 →
      (dispatch staleEnv roundtripHost (writeRequest 0x4000 twoKiB)).host.memory.byte
        (0x4000 + i) % 256 =
      (if i < 1024 then (twoKiB.take 1024).getD i 0 else 0xEE) % 256 := by
    intro i hi
    rw [dispatch_write staleEnv roundtripHost 0x4000 twoKiB rfl rfl, if_neg hg]
    dsimp only
    rw [← bytes_getD _ 0x4000 twoKiB.length i (by rw [hlen]; exact hi), w6,
      List.getD_eq_getElem?_getD, List.getElem?_map,
      List.getElem?_eq_getElem (by rw [payloadSource_length, hlen]; exact hi)]
    simp only [Option.map_some', Option.getD_some]
    rw [← List.getD_eq_getElem _ 0, payloadSource_getD_field _ _ _ _ (by rw [hlen]; exact hi)
      (List.length_take_le _ _)]
    rfl
  have h11 : (twoKiB.take 1024).getD 1023 0 = 0x11 := by
    rw [twoKiB, List.take_replicate, List.getD_eq_getElem _ _ (by rw [List.length_replicate]; decide),
      List.getElem_replicate]
  have hsize : (writeRequest 0x4000 twoKiB).memory.size = 2048 := hlen
  have hdata : (writeRequest 0x4000 twoKiB).memory.data.length = 1024 := by
    show (twoKiB.take 1024).length = 1024
    rw [List.length_take, hlen]
    decide
  have hsucc : (dispatch staleEnv roundtripHost
      (writeRequest 0x4000 twoKiB)).response.success = 1 := by
    rw [dispatch_write staleEnv roundtripHost 0x4000 twoKiB rfl rfl, if_neg hg]
    dsimp only
    rw [if_pos w1]
  refine ⟨hsize, hdata, hsucc, ?_, ?_, ?_⟩
  · rw [payloadSource_length, hsize]
  · have a1 := hbyte 1023 (by decide)
    have a2 := hbyte 1024 (by decide)
    rw [if_pos (by decide), h11] at a1
    rw [if_neg (by decide)] at a2
    simp only [Memory.bytes, List.range_succ, List.range_zero, List.nil_append, List.map_append,
      List.map_cons, List.map_nil, List.singleton_append, Nat.add_zero]
    rw [a1, show (0x4000 + 1023 + 1 : Nat) = 0x4000 + 1024 from rfl, a2]
  · have a3 := hbyte 2047 (by decide)
    rw [if_neg (by decide)] at a3
    simp only [Memory.bytes, List.range_succ, List.range_zero, List.nil_append, List.map_append,
      List.map_cons, List.map_nil, Nat.add_zero]
    rw [a3]

/-! ## Call requests with more parameters than the array holds -/

/-- C28 evaluated at a call request with `param_count` 11: the request is not rejected at
submission, the call the worker queues holds 11 parameter records, and the eleventh is the
record that lies behind the 10-element array of the request. -/
theorem call_copies_past_params :
    overlongCall.call_func.params.length = 10 ∧
    overlongCall.call_func.param_count = 11 ∧
    (dispatch markEnv addHost overlongCall).handlers = [Handler.HandleFunctionRequest] ∧
    ((dispatch markEnv addHost overlongCall).host.bridge.pending_calls).map
      (fun c => c.params_copy.length) = [11] ∧
    ((dispatch markEnv addHost overlongCall).host.bridge.pending_calls).map
      (fun c => (c.params_copy.getD 9 noParam).raw) = [[9, 0, 0, 0]] ∧
    ((dispatch markEnv addHost overlongCall).host.bridge.pending_calls).map
      (fun c => (c.params_copy.getD 10 noParam).raw) = [[0xEE, 0xEE, 0xEE, 0xEE]] := by
  decide

/-! ## The event copy of a poll -/

/-- C22 evaluated at a poll of a ring that holds four events of 256 data bytes `0x41`: the
poll succeeds with count 4 (at most 10), the copy is 4 * 268 = 1072 bytes long, more than
the 1024 bytes of the event payload field, and the frame byte right behind that field,
cleared before, holds the data byte `0x41` of the fourth record. -/
theorem event_copy_overruns_payload :
    (dispatch {} (filledHost 4) (eventRequest GET_PENDING_EVENTS "E")).response.success = 1 ∧
    (dispatch {} (filledHost 4)
      (eventRequest GET_PENDING_EVENTS "E")).response.event_data.event_count = 4 ∧
    sizeofEventData = 268 ∧
    eventCopySize (dispatch {} (filledHost 4)
      (eventRequest GET_PENDING_EVENTS "E")).response.event_data.event_count = 1072 ∧
    eventPayloadCapacity < 1072 ∧
    pollFrameByte {} (filledHost 4) (eventRequest GET_PENDING_EVENTS "E")
      (offsetofEventPayload + eventPayloadCapacity) = 0x41 := by
  refine ⟨by decide, by decide, by decide, by decide, by decide, ?_⟩
  set_option maxRecDepth 4096 in decide

/-- C21 evaluated at a poll of a ring that holds ten events of 256 data bytes `0x41`: the
poll succeeds (success=1, count 10), the copy is 2680 bytes long and reaches the trailing
error-message field at offset 2604, whose first byte then holds the data byte `0x41`. -/
theorem poll_success_with_message_byte :
    (dispatch {} (filledHost 10) (eventRequest GET_PENDING_EVENTS "E")).response.success = 1 ∧
    (dispatch {} (filledHost 10)
      (eventRequest GET_PENDING_EVENTS "E")).response.event_data.event_count = 10 ∧
    pollFrameByte {} (filledHost 10) (eventRequest GET_PENDING_EVENTS "E") 0 = 1 ∧
    offsetofErrorMessage = 2604 ∧
    sizeofPipeResponse = 2860 ∧
    offsetofEventPayload + eventCopySize 10 = 2688 ∧
    pollFrameByte {} (filledHost 10) (eventRequest GET_PENDING_EVENTS "E")
      offsetofErrorMessage = 0x41 := by
  refine ⟨by decide, by decide, by decide, by decide, by decide, by decide, ?_⟩
  set_option maxRecDepth 4096 in decide

/-! ## Success flag and error message of the handlers -/

theorem flagOk_zero : flagOk zeroResponse := ⟨Or.inl rfl, fun _ => rfl⟩

theorem flagOk_fail (r : PipeResponse) (msg : String) :
    flagOk { r with success := 0, error_message := msg } :=
  ⟨Or.inl rfl, fun h => Nat.noConfusion h⟩

theorem HandleFunctionRequest_flag (env : Env) (h : Host) (request : PipeRequest) :
    flagOk (RPCBridge.HandleFunctionRequest env h request zeroResponse).2.1 := by
  simp only [RPCBridge.HandleFunctionRequest, flagOk]
  repeat' split
  all_goals simp_all [zeroResponse, boolByte]

theorem HandleMemoryRequest_flag (env : Env) (h : Host) (request : PipeRequest) :
    flagOk (RPCBridge.HandleMemoryRequest env h request zeroResponse).2.1 := by
  simp only [RPCBridge.HandleMemoryRequest, flagOk]
  repeat' split
  all_goals simp_all [zeroResponse, boolByte]

theorem HandleHookRequest_flag (env : Env) (h : Host) (request : PipeRequest) :
    flagOk (RPCBridge.HandleHookRequest env h request zeroResponse).2.1 := by
  simp only [RPCBridge.HandleHookRequest, flagOk]
  repeat' split
  all_goals simp_all [zeroResponse, boolByte]

theorem HandleEventRequest_flag (env : Env) (h : Host) (request : PipeRequest)
    (hpoll : request.type = GET_PENDING_EVENTS →
      (RPCBridge.GetPendingEvents h.bridge request.event.name 10).1.length < 10) :
    flagOk (RPCBridge.HandleEventRequest env h request zeroResponse).2.1 := by
  simp only [RPCBridge.HandleEventRequest]
  by_cases h1 : request.type = REGISTER_EVENT_BUFFER
  · rw [if_pos h1]
    simp only [flagOk]
    repeat' split
    all_goals simp_all [zeroResponse, boolByte]
  rw [if_neg h1]
  by_cases h2 : request.type = UNREGISTER_EVENT_BUFFER
  · rw [if_pos h2]
    simp only [flagOk]
    repeat' split
    all_goals simp_all [zeroResponse, boolByte]
  rw [if_neg h2]
  by_cases h3 : request.type = GET_PENDING_EVENTS
  · rw [if_pos h3]
    dsimp only
    refine ⟨Or.inr rfl, fun _ => ?_⟩
    dsimp only
    by_cases hc : (RPCBridge.GetPendingEvents h.bridge request.event.name 10).1.length > 0
    · rw [if_pos hc, eventCopy_message _ _ _ (hpoll h3)]
      rfl
    · rw [if_neg hc]
      rfl
  · rw [if_neg h3]
    exact flagOk_zero

theorem HandleServerControlRequest_flag (env : Env) (h : Host) (request : PipeRequest) :
    flagOk (RPCBridge.HandleServerControlRequest env h request zeroResponse).2.1 := by
  simp only [RPCBridge.HandleServerControlRequest, flagOk]
  repeat' split
  all_goals simp_all [zeroResponse, boolByte]

theorem HandleDLLControlRequest_flag (env : Env) (h : Host) (request : PipeRequest) :
    flagOk (RPCBridge.HandleDLLControlRequest env h request zeroResponse).2.1 := by
  simp only [RPCBridge.HandleDLLControlRequest, flagOk]
  repeat' split
  all_goals simp_all [zeroResponse, boolByte]

theorem HandleArrayRequest_flag (env : Env) (h : Host) (request : PipeRequest) :
    flagOk (RPCBridge.HandleArrayRequest env h request zeroResponse).2.1 := by
  simp only [RPCBridge.HandleArrayRequest, flagOk]
  repeat' split
  all_goals simp_all [zeroResponse, boolByte]

theorem HandleBatchReadRequest_flag (h : Host) (request : PipeRequest) :
    flagOk (RPCBridge.HandleBatchReadRequest h request zeroResponse).2.1 := by
  simp only [RPCBridge.HandleBatchReadRequest, flagOk]
  repeat' split
  all_goals simp_all [zeroResponse, boolByte]

theorem HandleHeartbeatRequest_flag (env : Env) (h : Host) (request : PipeRequest) :
    flagOk (RPCBridge.HandleHeartbeatRequest env h request zeroResponse).2.1 := by
  simp [RPCBridge.HandleHeartbeatRequest, flagOk, zeroResponse]

theorem invalidPointerMessage_length (i a : Nat) : 0 < (invalidPointerMessage i a).length := by
  simp only [invalidPointerMessage, String.length_append]
  have : 0 < ("Invalid pointer at step ").length := by decide
  omega

theorem pointerChainLoop_flag (env : Env) (m : Memory) (offsets : List Int) :
    ∀ (n i : Nat) (st : Nat × PipeResponse),
      (pointerChainLoop env m offsets n i st).2 = st.2 ∨
      ((pointerChainLoop env m offsets n i st).2.success = 0 ∧
        0 < (pointerChainLoop env m offsets n i st).2.error_message.length) := by
  intro n
  induction n with
  | zero => intro i st; exact Or.inl rfl
  | succ n ih =>
    intro i st
    simp only [pointerChainLoop]
    split_ifs
    · exact Or.inr ⟨rfl, invalidPointerMessage_length i st.1⟩
    · exact ih _ _

theorem caseReadPointerChain_flag (env : Env) (m : Memory) (request : PipeRequest) :
    flagOk (caseReadPointerChain env m request zeroResponse) := by
  have hloop := pointerChainLoop_flag env m request.pointer_chain.offsets
    request.pointer_chain.offset_count 0 (request.pointer_chain.base_address, zeroResponse)
  simp only [caseReadPointerChain]
  generalize pointerChainLoop env m request.pointer_chain.offsets
    request.pointer_chain.offset_count 0 (request.pointer_chain.base_address, zeroResponse)
    = st at hloop
  by_cases h1 : request.pointer_chain.offset_count > 16
  · rw [if_pos h1]
    exact flagOk_fail _ _
  rw [if_neg h1]
  by_cases h2 : request.pointer_chain.final_size ≠ 1 ∧ request.pointer_chain.final_size ≠ 2 ∧
      request.pointer_chain.final_size ≠ 4 ∧ request.pointer_chain.final_size ≠ 8
  · rw [if_pos h2]
    exact flagOk_fail _ _
  rw [if_neg h2]
  by_cases h3 : st.2.success = 0 ∧ st.2.error_message.length > 0
  · rw [if_pos h3]
    exact ⟨Or.inl h3.1, fun hc => absurd (h3.1.symm.trans hc) (by decide)⟩
  rw [if_neg h3]
  by_cases h4 : IsBadReadPtr m st.1 request.pointer_chain.final_size = true
  · rw [if_pos h4]
    exact flagOk_fail _ _
  rw [if_neg h4]
  refine ⟨Or.inr rfl, fun _ => ?_⟩
  rcases hloop with hl | hl
  · show st.2.error_message = ""
    rw [hl]
    rfl
  · exact absurd ⟨hl.1, hl.2⟩ h3

theorem scanOutcome_flag (address : Nat) (notFound : String) :
    flagOk (scanOutcome zeroResponse address notFound) := by
  simp only [scanOutcome, flagOk]
  repeat' split
  all_goals simp_all [zeroResponse]

theorem caseReadMemory_flag (m : Memory) (request : PipeRequest) :
    flagOk (caseReadMemory m request zeroResponse) := by
  simp only [caseReadMemory, flagOk]
  repeat' split
  all_goals simp_all [zeroResponse]

theorem legacySwitch_flag (env : Env) (m : Memory) (request : PipeRequest) (r : PipeResponse)
    (hsw : legacySwitch env m request zeroResponse = some r) : flagOk r := by
  simp only [legacySwitch] at hsw
  by_cases h1 : request.type = SCAN_FIND
  · rw [if_pos h1] at hsw
    cases hsw
    exact scanOutcome_flag _ _
  rw [if_neg h1] at hsw
  by_cases h2 : request.type = SCAN_FIND_ASSERTION
  · rw [if_pos h2] at hsw
    cases hsw
    exact scanOutcome_flag _ _
  rw [if_neg h2] at hsw
  by_cases h3 : request.type = SCAN_FIND_IN_RANGE
  · rw [if_pos h3] at hsw
    cases hsw
    exact scanOutcome_flag _ _
  rw [if_neg h3] at hsw
  by_cases h4 : request.type = SCAN_TO_FUNCTION_START
  · rw [if_pos h4] at hsw
    cases hsw
    exact scanOutcome_flag _ _
  rw [if_neg h4] at hsw
  by_cases h5 : request.type = SCAN_FUNCTION_FROM_NEAR_CALL
  · rw [if_pos h5] at hsw
    cases hsw
    exact scanOutcome_flag _ _
  rw [if_neg h5] at hsw
  by_cases h6 : request.type = READ_MEMORY
  · rw [if_pos h6] at hsw
    cases hsw
    exact caseReadMemory_flag m request
  rw [if_neg h6] at hsw
  by_cases h7 : request.type = GET_SECTION_INFO
  · rw [if_pos h7] at hsw
    cases hsw
    simp only [flagOk]
    repeat' split
    all_goals simp_all [zeroResponse]
  rw [if_neg h7] at hsw
  by_cases h8 : request.type = READ_POINTER_CHAIN
  · rw [if_pos h8] at hsw
    cases hsw
    exact caseReadPointerChain_flag env m request
  rw [if_neg h8] at hsw
  exact Option.noConfusion hsw

theorem bridge_flag (env : Env) (h : Host) (request : PipeRequest) (response : PipeResponse)
    (hpoll : request.type = GET_PENDING_EVENTS →
      (RPCBridge.GetPendingEvents h.bridge request.event.name 10).1.length < 10) :
    flagOk (RPCBridge.HandleRequest env h request response).2.response := by
  let Q : Bool × Dispatched → Prop := fun r => flagOk r.2.response
  show Q (RPCBridge.HandleRequest env h request response)
  simp only [RPCBridge.HandleRequest]
  refine ite_prop Q _ _ _ ?_ (ite_prop Q _ _ _ ?_ (ite_prop Q _ _ _ ?_ (ite_prop Q _ _ _ ?_
    (ite_prop Q _ _ _ ?_ (ite_prop Q _ _ _ ?_ (ite_prop Q _ _ _ ?_ (ite_prop Q _ _ _ ?_
    (ite_prop Q _ _ _ ?_ (ite_prop Q _ _ _ ?_ ?_)))))))))
  · exact HandleServerControlRequest_flag env h request
  · exact HandleDLLControlRequest_flag env h request
  · exact flagOk_fail _ _
  · exact HandleFunctionRequest_flag env h request
  · exact HandleMemoryRequest_flag env h request
  · exact HandleHookRequest_flag env h request
  · exact HandleEventRequest_flag env h request hpoll
  · exact HandleArrayRequest_flag env h request
  · exact HandleBatchReadRequest_flag h request
  · exact HandleHeartbeatRequest_flag env h request
  · exact ⟨Or.inl rfl, fun hc => Nat.noConfusion hc⟩

/-- The response of the dispatcher has success 0 or 1 and carries no error message when
success is 1, for every request but a poll that returns ten events: the copy of ten event
records runs over the error message. -/
theorem dispatch_flag (env : Env) (h : Host) (request : PipeRequest)
    (hpoll : request.type = GET_PENDING_EVENTS →
      (RPCBridge.GetPendingEvents h.bridge request.event.name 10).1.length < 10) :
    flagOk (dispatch env h request).response := by
  unfold dispatch NamedPipeServer.HandleRequest
  by_cases hg : (!h.server.running || IsDllShuttingDown h.g_dllState) = true
  · rw [if_pos hg]
    exact flagOk_fail _ _
  · rw [if_neg hg]
    by_cases hk : request.type ≥ REGISTER_FUNCTION
    · rw [if_pos hk]
      dsimp only
      by_cases hr : (RPCBridge.HandleRequest env h request zeroResponse).1 = true
      · rw [if_pos hr]
        exact bridge_flag env h request zeroResponse hpoll
      · rw [if_neg hr]
        dsimp only
        split_ifs
        · exact ⟨Or.inl rfl, fun hc => Nat.noConfusion hc⟩
        · exact ⟨Or.inl rfl, fun hc => Nat.noConfusion hc⟩
    · rw [if_neg hk]
      cases hl : legacySwitch env h.memory request zeroResponse with
      | none => exact flagOk_fail _ _
      | some r => exact legacySwitch_flag env h.memory request r hl

/-! ## Probes and loads of the pointer-chain case -/

theorem wellProbed_pair (s : Option Nat) (a w : Nat) (rest : List MemAccess) :
    wellProbed (MemAccess.probe s a w true :: MemAccess.load s a w :: rest) = wellProbed rest := by
  simp [wellProbed]

theorem probedPairs_pair (s : Option Nat) (a w : Nat) (rest : List MemAccess) :
    probedPairs (MemAccess.probe s a w true :: MemAccess.load s a w :: rest) = probedPairs rest := by
  simp [probedPairs]

theorem probedPairs_append (pre rest : List MemAccess) (hp : probedPairs pre = true)
    (hr : wellProbed rest = true) : wellProbed (pre ++ rest) = true := by
  induction pre using probedPairs.induct with
  | case1 => exact hr
  | case2 s a w s1 a1 w1 rest1 ih =>
    simp only [probedPairs, Bool.and_eq_true, decide_eq_true_eq] at hp
    obtain ⟨⟨⟨h1, h2⟩, h3⟩, h4⟩ := hp
    subst h1 h2 h3
    rw [List.cons_append, List.cons_append, wellProbed_pair]
    exact ih h4
  | case3 t h1 h2 =>
    exfalso
    unfold probedPairs at hp
    split at hp
    · exact h1 rfl
    · exact h2 _ _ _ _ _ _ _ rfl
    · exact Bool.noConfusion hp

theorem wellProbed_failed_last : ∀ (t : List MemAccess), wellProbed t = true →
    ∀ l1 l2 s a w, t = l1 ++ MemAccess.probe s a w false :: l2 → l2 = [] := by
  intro t
  induction t using wellProbed.induct with
  | case1 =>
    intro _ l1 l2 s a w h
    cases l1 <;> simp at h
  | case2 s0 a0 w0 =>
    intro _ l1 l2 s a w h
    cases l1 with
    | nil =>
      simp only [List.nil_append, List.cons.injEq] at h
      exact h.2.symm
    | cons x xs =>
      simp only [List.cons_append, List.cons.injEq] at h
      have := h.2
      cases xs <;> simp at this
  | case3 s0 a0 w0 s1 a1 w1 rest ih =>
    intro hw l1 l2 s a w h
    simp only [wellProbed, Bool.and_eq_true, decide_eq_true_eq] at hw
    cases l1 with
    | nil => simp at h
    | cons x xs =>
      cases xs with
      | nil => simp at h
      | cons y ys =>
        simp only [List.cons_append, List.cons.injEq] at h
        exact ih hw.2 ys l2 s a w h.2.2
  | case4 t h1 h2 h3 =>
    intro hw
    exfalso
    unfold wellProbed at hw
    split at hw
    · exact h1 rfl
    · exact h2 _ _ _ rfl
    · exact h3 _ _ _ _ _ _ _ rfl
    · exact Bool.noConfusion hw

theorem wellProbed_load_guarded : ∀ (t : List MemAccess), wellProbed t = true →
    ∀ l1 l2 s a w, t = l1 ++ MemAccess.load s a w :: l2 →
      ∃ l0, l1 = l0 ++ [MemAccess.probe s a w true] := by
  intro t
  induction t using wellProbed.induct with
  | case1 =>
    intro _ l1 l2 s a w h
    cases l1 <;> simp at h
  | case2 s0 a0 w0 =>
    intro _ l1 l2 s a w h
    cases l1 with
    | nil => simp at h
    | cons x xs =>
      simp only [List.cons_append, List.cons.injEq] at h
      have := h.2
      cases xs <;> simp at this
  | case3 s0 a0 w0 s1 a1 w1 rest ih =>
    intro hw l1 l2 s a w h
    simp only [wellProbed, Bool.and_eq_true, decide_eq_true_eq] at hw
    obtain ⟨⟨⟨e1, e2⟩, e3⟩, hrest⟩ := hw
    subst e1 e2 e3
    cases l1 with
    | nil => simp at h
    | cons x xs =>
      cases xs with
      | nil =>
        simp only [List.cons_append, List.nil_append, List.cons.injEq, MemAccess.load.injEq] at h
        obtain ⟨hx, ⟨h1, h2, h3⟩, _⟩ := h
        subst h1 h2 h3
        exact ⟨[], by rw [← hx]; rfl⟩
      | cons y ys =>
        simp only [List.cons_append, List.cons.injEq] at h
        obtain ⟨l0, hl0⟩ := ih hrest ys l2 s a w h.2.2
        exact ⟨x :: y :: l0, by rw [hl0]; rfl⟩
  | case4 t h1 h2 h3 =>
    intro hw
    exfalso
    unfold wellProbed at hw
    split at hw
    · exact h1 rfl
    · exact h2 _ _ _ rfl
    · exact h3 _ _ _ _ _ _ _ rfl
    · exact Bool.noConfusion hw

theorem probedPairs_no_failure : ∀ (t : List MemAccess), probedPairs t = true →
    ∀ s a w, MemAccess.probe s a w false ∉ t := by
  intro t
  induction t using probedPairs.induct with
  | case1 =>
    intro _ s a w h
    exact absurd h (List.not_mem_nil _)
  | case2 s0 a0 w0 s1 a1 w1 rest ih =>
    intro hp s a w h
    simp only [probedPairs, Bool.and_eq_true, decide_eq_true_eq] at hp
    simp only [List.mem_cons, MemAccess.probe.injEq, Bool.false_eq_true, and_false, false_or] at h
    rcases h with h | h
    · exact MemAccess.noConfusion h
    · exact ih hp.2 s a w h
  | case3 t h1 h2 =>
    intro hp
    exfalso
    unfold probedPairs at hp
    split at hp
    · exact h1 rfl
    · exact h2 _ _ _ _ _ _ _ rfl
    · exact Bool.noConfusion hp

theorem pointerChainLoop_accesses (env : Env) (m : Memory) (offsets : List Int) :
    ∀ (n i a : Nat) (r : PipeResponse),
      ((pointerChainLoop env m offsets n i (a, r)).2 = r ∧
        probedPairs (pointerChainLoopAccesses env m offsets n i a) = true) ∨
      (∃ j b pre,
        (pointerChainLoop env m offsets n i (a, r)).2
          = { r with success := 0, error_message := invalidPointerMessage j b } ∧
        pointerChainLoopAccesses env m offsets n i a
          = pre ++ [MemAccess.probe (some j) b env.ptrBytes false] ∧
        probedPairs pre = true) := by
  intro n
  induction n with
  | zero =>
    intro i a r
    exact Or.inl ⟨rfl, rfl⟩
  | succ n ih =>
    intro i a r
    simp only [pointerChainLoop, pointerChainLoopAccesses]
    by_cases hb : IsBadReadPtr m a env.ptrBytes = true
    · rw [if_pos hb, if_pos hb]
      exact Or.inr ⟨i, a, [], rfl, rfl, rfl⟩
    · rw [if_neg hb, if_neg hb]
      rcases ih (i + 1) (ptrAdd env.ptrBytes (m.load a env.ptrBytes) (offsets.getD i 0)) r
        with ⟨h1, h2⟩ | ⟨j, b, pre, h1, h2, h3⟩
      · refine Or.inl ⟨h1, ?_⟩
        rw [probedPairs_pair]
        exact h2
      · refine Or.inr ⟨j, b, MemAccess.probe (some i) a env.ptrBytes true ::
          MemAccess.load (some i) a env.ptrBytes :: pre, h1, ?_, ?_⟩
        · rw [h2]
          rfl
        · rw [probedPairs_pair]
          exact h3

/-- What an access of the loop says about memory: a probe reports whether the pointer-sized
slot is readable, a dereference happens on a readable slot only, and both belong to a loop
step. -/
theorem pointerChainLoopAccesses_sound (env : Env) (m : Memory) (offsets : List Int) :
    ∀ (n i a : Nat), ∀ x ∈ pointerChainLoopAccesses env m offsets n i a,
      (∀ s b w ok, x = MemAccess.probe s b w ok →
        ok = m.rangeReadable b w ∧ w = env.ptrBytes ∧ s ≠ none) ∧
      (∀ s b w, x = MemAccess.load s b w →
        m.rangeReadable b w = true ∧ w = env.ptrBytes ∧ s ≠ none) := by
  intro n
  induction n with
  | zero =>
    intro i a x hx
    exact absurd hx (List.not_mem_nil _)
  | succ n ih =>
    intro i a x hx
    simp only [pointerChainLoopAccesses] at hx
    by_cases hb : IsBadReadPtr m a env.ptrBytes = true
    · rw [if_pos hb] at hx
      rw [List.mem_singleton] at hx
      subst hx
      have hr : m.rangeReadable a env.ptrBytes = false := by
        simpa [IsBadReadPtr] using hb
      refine ⟨?_, ?_⟩
      · intro s b w ok he
        cases he
        exact ⟨hr.symm, rfl, fun hc => Option.noConfusion hc⟩
      · intro s b w he
        exact MemAccess.noConfusion he
    · rw [if_neg hb] at hx
      have hr : m.rangeReadable a env.ptrBytes = true := by
        simpa [IsBadReadPtr] using hb
      rcases List.mem_cons.mp hx with hx | hx
      · subst hx
        refine ⟨?_, ?_⟩
        · intro s b w ok he
          cases he
          exact ⟨hr.symm, rfl, fun hc => Option.noConfusion hc⟩
        · intro s b w he
          exact MemAccess.noConfusion he
      · rcases List.mem_cons.mp hx with hx | hx
        · subst hx
          refine ⟨?_, ?_⟩
          · intro s b w ok he
            exact MemAccess.noConfusion he
          · intro s b w he
            cases he
            exact ⟨hr, rfl, fun hc => Option.noConfusion hc⟩
        · exact ih _ _ x hx

theorem chain_cases (env : Env) (m : Memory) (request : PipeRequest) :
    ((request.pointer_chain.offset_count > 16 ∨
        (request.pointer_chain.final_size ≠ 1 ∧ request.pointer_chain.final_size ≠ 2 ∧
          request.pointer_chain.final_size ≠ 4 ∧ request.pointer_chain.final_size ≠ 8)) ∧
      chainAccesses env m request = [] ∧ (chainResponse env m request).success = 0) ∨
    (∃ j b pre,
      chainAccesses env m request =
        pointerChainLoopAccesses env m request.pointer_chain.offsets
          request.pointer_chain.offset_count 0 request.pointer_chain.base_address ∧
      chainAccesses env m request = pre ++ [MemAccess.probe (some j) b env.ptrBytes false] ∧
      probedPairs pre = true ∧
      (chainResponse env m request).success = 0 ∧
      (chainResponse env m request).error_message = invalidPointerMessage j b) ∨
    (∃ c,
      chainAccesses env m request =
        pointerChainLoopAccesses env m request.pointer_chain.offsets
          request.pointer_chain.offset_count 0 request.pointer_chain.base_address ++
        [MemAccess.probe none c request.pointer_chain.final_size false] ∧
      probedPairs (pointerChainLoopAccesses env m request.pointer_chain.offsets
        request.pointer_chain.offset_count 0 request.pointer_chain.base_address) = true ∧
      m.rangeReadable c request.pointer_chain.final_size = false ∧
      (chainResponse env m request).success = 0 ∧
      (chainResponse env m request).error_message = invalidFinalMessage c) ∨
    (∃ c,
      chainAccesses env m request =
        pointerChainLoopAccesses env m request.pointer_chain.offsets
          request.pointer_chain.offset_count 0 request.pointer_chain.base_address ++
        [MemAccess.probe none c request.pointer_chain.final_size true,
         MemAccess.load none c request.pointer_chain.final_size] ∧
      probedPairs (pointerChainLoopAccesses env m request.pointer_chain.offsets
        request.pointer_chain.offset_count 0 request.pointer_chain.base_address) = true ∧
      m.rangeReadable c request.pointer_chain.final_size = true ∧
      (chainResponse env m request).success = 1) := by
  have hloop := pointerChainLoop_accesses env m request.pointer_chain.offsets
    request.pointer_chain.offset_count 0 request.pointer_chain.base_address zeroResponse
  simp only [chainAccesses, chainResponse, caseReadPointerChainAccesses, caseReadPointerChain]
  generalize pointerChainLoop env m request.pointer_chain.offsets
    request.pointer_chain.offset_count 0 (request.pointer_chain.base_address, zeroResponse)
    = st at hloop
  generalize pointerChainLoopAccesses env m request.pointer_chain.offsets
    request.pointer_chain.offset_count 0 request.pointer_chain.base_address = L at hloop
  by_cases h1 : request.pointer_chain.offset_count > 16
  · rw [if_pos h1, if_pos h1]
    exact Or.inl ⟨Or.inl h1, rfl, rfl⟩
  rw [if_neg h1, if_neg h1]
  by_cases h2 : request.pointer_chain.final_size ≠ 1 ∧ request.pointer_chain.final_size ≠ 2 ∧
      request.pointer_chain.final_size ≠ 4 ∧ request.pointer_chain.final_size ≠ 8
  · rw [if_pos h2, if_pos h2]
    exact Or.inl ⟨Or.inr h2, rfl, rfl⟩
  rw [if_neg h2, if_neg h2]
  rcases hloop with ⟨hl1, hl2⟩ | ⟨j, b, pre, hl1, hl2, hl3⟩
  · have h3 : ¬ (st.2.success = 0 ∧ st.2.error_message.length > 0) := by
      rw [hl1]
      rintro ⟨_, hc⟩
      exact absurd hc (by decide)
    rw [if_neg h3, if_neg h3]
    by_cases h4 : IsBadReadPtr m st.1 request.pointer_chain.final_size = true
    · rw [if_pos h4, if_pos h4]
      have hr : m.rangeReadable st.1 request.pointer_chain.final_size = false := by
        simpa [IsBadReadPtr] using h4
      exact Or.inr (Or.inr (Or.inl ⟨st.1, rfl, hl2, hr, rfl, rfl⟩))
    · rw [if_neg h4, if_neg h4]
      have hr : m.rangeReadable st.1 request.pointer_chain.final_size = true := by
        simpa [IsBadReadPtr] using h4
      exact Or.inr (Or.inr (Or.inr ⟨st.1, rfl, hl2, hr, rfl⟩))
  · have h3 : st.2.success = 0 ∧ st.2.error_message.length > 0 := by
      rw [hl1]
      exact ⟨rfl, invalidPointerMessage_length j b⟩
    rw [if_pos h3, if_pos h3, hl1]
    exact Or.inr (Or.inl ⟨j, b, pre, rfl, hl2, hl3, rfl, rfl⟩)

theorem chain_wellProbed (env : Env) (m : Memory) (request : PipeRequest) :
    wellProbed (chainAccesses env m request) = true := by
  rcases chain_cases env m request with ⟨_, hT, _⟩ | ⟨j, b, pre, _, hT, hp, _⟩ |
    ⟨c, hT, hp, _⟩ | ⟨c, hT, hp, _⟩
  · rw [hT]
    rfl
  · rw [hT]
    exact probedPairs_append pre _ hp rfl
  · rw [hT]
    exact probedPairs_append _ _ hp rfl
  · rw [hT]
    exact probedPairs_append _ _ hp (by simp [wellProbed])

theorem chain_sound (env : Env) (m : Memory) (request : PipeRequest) :
    ∀ x ∈ chainAccesses env m request,
      (∀ s b w ok, x = MemAccess.probe s b w ok → ok = m.rangeReadable b w) ∧
      (∀ s b w, x = MemAccess.load s b w → m.rangeReadable b w = true) := by
  intro x hx
  have hloop := pointerChainLoopAccesses_sound env m request.pointer_chain.offsets
    request.pointer_chain.offset_count 0 request.pointer_chain.base_address
  have hin : x ∈ pointerChainLoopAccesses env m request.pointer_chain.offsets
      request.pointer_chain.offset_count 0 request.pointer_chain.base_address →
      (∀ s b w ok, x = MemAccess.probe s b w ok → ok = m.rangeReadable b w) ∧
      (∀ s b w, x = MemAccess.load s b w → m.rangeReadable b w = true) := by
    intro hm
    obtain ⟨g1, g2⟩ := hloop x hm
    exact ⟨fun s b1 w ok he => (g1 s b1 w ok he).1, fun s b1 w he => (g2 s b1 w he).1⟩
  rcases chain_cases env m request with ⟨_, hT, _⟩ | ⟨j, b, pre, hL, _⟩ |
    ⟨c, hT, hp, hr, _⟩ | ⟨c, hT, hp, hr, _⟩
  · rw [hT] at hx
    exact absurd hx (List.not_mem_nil _)
  · rw [hL] at hx
    exact hin hx
  · rw [hT] at hx
    rcases List.mem_append.mp hx with hx | hx
    · exact hin hx
    · rw [List.mem_singleton] at hx
      subst hx
      refine ⟨?_, ?_⟩
      · intro s b1 w ok he
        cases he
        exact hr.symm
      · intro s b1 w he
        exact MemAccess.noConfusion he
  · rw [hT] at hx
    rcases List.mem_append.mp hx with hx | hx
    · exact hin hx
    · simp only [List.mem_cons, List.mem_singleton, List.not_mem_nil, or_false] at hx
      rcases hx with hx | hx
      · subst hx
        refine ⟨?_, ?_⟩
        · intro s b1 w ok he
          cases he
          exact hr.symm
        · intro s b1 w he
          exact MemAccess.noConfusion he
      · subst hx
        refine ⟨?_, ?_⟩
        · intro s b1 w ok he
          exact MemAccess.noConfusion he
        · intro s b1 w he
          cases he
          exact hr

theorem chain_step_failure (env : Env) (m : Memory) (request : PipeRequest) (i a w : Nat)
    (hm : MemAccess.probe (some i) a w false ∈ chainAccesses env m request) :
    (chainResponse env m request).error_message = invalidPointerMessage i a := by
  have hloop := pointerChainLoopAccesses_sound env m request.pointer_chain.offsets
    request.pointer_chain.offset_count 0 request.pointer_chain.base_address
  rcases chain_cases env m request with ⟨_, hT, _⟩ | ⟨j, b, pre, _, hT, hp, _, hmsg⟩ |
    ⟨c, hT, hp, _⟩ | ⟨c, hT, hp, _⟩
  · rw [hT] at hm
    exact absurd hm (List.not_mem_nil _)
  · rw [hT] at hm
    rcases List.mem_append.mp hm with hm | hm
    · exact absurd hm (probedPairs_no_failure _ hp _ _ _)
    · rw [List.mem_singleton] at hm
      cases hm
      exact hmsg
  · rw [hT] at hm
    rcases List.mem_append.mp hm with hm | hm
    · exact absurd hm (probedPairs_no_failure _ hp _ _ _)
    · rw [List.mem_singleton] at hm
      cases hm
  · rw [hT] at hm
    rcases List.mem_append.mp hm with hm | hm
    · exact absurd hm (probedPairs_no_failure _ hp _ _ _)
    · simp at hm

theorem chain_final_failure (env : Env) (m : Memory) (request : PipeRequest) (a w : Nat)
    (hm : MemAccess.probe none a w false ∈ chainAccesses env m request) :
    (chainResponse env m request).success = 0 ∧
    (chainResponse env m request).error_message = invalidFinalMessage a ∧
    ∀ a1 w1, MemAccess.load none a1 w1 ∉ chainAccesses env m request := by
  have hloop := pointerChainLoopAccesses_sound env m request.pointer_chain.offsets
    request.pointer_chain.offset_count 0 request.pointer_chain.base_address
  rcases chain_cases env m request with ⟨_, hT, _⟩ | ⟨j, b, pre, hL, _⟩ |
    ⟨c, hT, hp, _, hs, hmsg⟩ | ⟨c, hT, hp, _⟩
  · rw [hT] at hm
    exact absurd hm (List.not_mem_nil _)
  · rw [hL] at hm
    exact absurd rfl ((hloop _ hm).1 none a w false rfl).2.2
  · rw [hT] at hm
    rcases List.mem_append.mp hm with hm | hm
    · exact absurd hm (probedPairs_no_failure _ hp _ _ _)
    · rw [List.mem_singleton] at hm
      cases hm
      refine ⟨hs, hmsg, ?_⟩
      intro a1 w1 hl
      rw [hT] at hl
      rcases List.mem_append.mp hl with hl | hl
      · exact absurd rfl ((hloop _ hl).2 none a1 w1 rfl).2.2
      · rw [List.mem_singleton] at hl
        exact MemAccess.noConfusion hl
  · rw [hT] at hm
    rcases List.mem_append.mp hm with hm | hm
    · exact absurd hm (probedPairs_no_failure _ hp _ _ _)
    · simp at hm

theorem chain_failure_flag (env : Env) (m : Memory) (request : PipeRequest)
    (s : Option Nat) (a w : Nat)
    (hm : MemAccess.probe s a w false ∈ chainAccesses env m request) :
    (chainResponse env m request).success = 0 := by
  cases s with
  | none => exact (chain_final_failure env m request a w hm).1
  | some i =>
    rcases chain_cases env m request with ⟨_, _, hs⟩ | ⟨j, b, pre, _, _, _, hs, _⟩ |
      ⟨c, _, _, _, hs, _⟩ | ⟨c, hT, hp, _⟩
    · exact hs
    · exact hs
    · exact hs
    · rw [hT] at hm
      rcases List.mem_append.mp hm with hm | hm
      · exact absurd hm (probedPairs_no_failure _ hp _ _ _)
      · simp at hm

/-- C27: in the pointer-chain case, as the dispatcher of a running host runs it, every
dereference comes right after a probe of the same address and width that found it readable
(and the bytes are readable); a probe reports what memory allows; a failed probe is the last
access and the response has success=0; a failed probe at step `i` gives the message
"Invalid pointer at step i (0x..)", a failed probe of the final address gives success=0 and
no dereference of the final value; a request with more than 16 offsets or a final size
outside {1,2,4,8} is answered with success=0 without any access. -/
theorem pointer_chain_probes (env : Env) (h : Host) (request : PipeRequest) :
    (h.server.running = true → IsDllShuttingDown h.g_dllState = false →
      request.type = READ_POINTER_CHAIN →
        (dispatch env h request).response = chainResponse env h.memory request) ∧
    (∀ l1 l2 s a w, chainAccesses env h.memory request = l1 ++ MemAccess.load s a w :: l2 →
      (∃ l0, l1 = l0 ++ [MemAccess.probe s a w true]) ∧ h.memory.rangeReadable a w = true) ∧
    (∀ s a w ok, MemAccess.probe s a w ok ∈ chainAccesses env h.memory request →
      ok = h.memory.rangeReadable a w) ∧
    (∀ l1 l2 s a w,
      chainAccesses env h.memory request = l1 ++ MemAccess.probe s a w false :: l2 →
        l2 = [] ∧ (chainResponse env h.memory request).success = 0) ∧
    (∀ i a w, MemAccess.probe (some i) a w false ∈ chainAccesses env h.memory request →
      (chainResponse env h.memory request).error_message = invalidPointerMessage i a) ∧
    (∀ a w, MemAccess.probe none a w false ∈ chainAccesses env h.memory request →
      (chainResponse env h.memory request).success = 0 ∧
      (chainResponse env h.memory request).error_message = invalidFinalMessage a ∧
      ∀ a1 w1, MemAccess.load none a1 w1 ∉ chainAccesses env h.memory request) ∧
    ((request.pointer_chain.offset_count > 16 ∨
        (request.pointer_chain.final_size ≠ 1 ∧ request.pointer_chain.final_size ≠ 2 ∧
          request.pointer_chain.final_size ≠ 4 ∧ request.pointer_chain.final_size ≠ 8)) →
      chainAccesses env h.memory request = [] ∧
      (chainResponse env h.memory request).success = 0) := by
  refine ⟨?_, ?_, ?_, ?_, ?_, ?_, ?_⟩
  · intro hrun hlive ht
    rw [dispatch_legacy env h request hrun hlive (by rw [ht]; decide),
      legacySwitch_pointer_chain env h.memory request zeroResponse ht]
    rfl
  · intro l1 l2 s a w hT
    refine ⟨wellProbed_load_guarded _ (chain_wellProbed env h.memory request) l1 l2 s a w hT,
      ?_⟩
    have hm : MemAccess.load s a w ∈ chainAccesses env h.memory request := by
      rw [hT]
      exact List.mem_append_right _ (List.mem_cons_self _ _)
    exact (chain_sound env h.memory request _ hm).2 s a w rfl
  · intro s a w ok hm
    exact (chain_sound env h.memory request _ hm).1 s a w ok rfl
  · intro l1 l2 s a w hT
    refine ⟨wellProbed_failed_last _ (chain_wellProbed env h.memory request) l1 l2 s a w hT,
      ?_⟩
    have hm : MemAccess.probe s a w false ∈ chainAccesses env h.memory request := by
      rw [hT]
      exact List.mem_append_right _ (List.mem_cons_self _ _)
    exact chain_failure_flag env h.memory request s a w hm
  · intro i a w hm
    exact chain_step_failure env h.memory request i a w hm
  · intro a w hm
    exact chain_final_failure env h.memory request a w hm
  · intro hrej
    simp only [chainAccesses, chainResponse, caseReadPointerChainAccesses, caseReadPointerChain]
    by_cases h1 : request.pointer_chain.offset_count > 16
    · rw [if_pos h1, if_pos h1]
      exact ⟨rfl, rfl⟩
    · rw [if_neg h1, if_neg h1]
      have h2 := hrej.resolve_left h1
      rw [if_pos h2, if_pos h2]
      exact ⟨rfl, rfl⟩

/-- The accesses of the pointer-chain scenario: two steps and the final value, each
dereference behind its probe; and those of a chain whose second slot lies outside the
region: the failed probe of step 1 ends the trace and the message names step 1. -/
theorem pointer_chain_accesses_example :
    chainAccesses {} chainScenarioMemory (pointerChainRequest 0x1000 [0, 0] [] 4) =
      [MemAccess.probe (some 0) 0x1000 4 true, MemAccess.load (some 0) 0x1000 4,
       MemAccess.probe (some 1) 0x1008 4 true, MemAccess.load (some 1) 0x1008 4,
       MemAccess.probe none 0x1010 4 true, MemAccess.load none 0x1010 4] ∧
    chainAccesses {} chainScenarioMemory (pointerChainRequest 0x1000 [0x2000, 0] [] 4) =
      [MemAccess.probe (some 0) 0x1000 4 true, MemAccess.load (some 0) 0x1000 4,
       MemAccess.probe (some 1) 0x3008 4 false] ∧
    (chainResponse {} chainScenarioMemory
      (pointerChainRequest 0x1000 [0x2000, 0] [] 4)).success = 0 ∧
    (chainResponse {} chainScenarioMemory
      (pointerChainRequest 0x1000 [0x2000, 0] [] 4)).error_message
      = "Invalid pointer at step 1 (0x00003008)" := by
  decide

/-! ## Deadlines in the pending queue -/

theorem queueRun_append (invoke : PendingCall → MarshalResult) (s : QueueState)
    (xs ys : List QueueStep) :
    queueRun invoke s (xs ++ ys) = queueRun invoke (queueRun invoke s xs) ys := by
  induction xs generalizing s with
  | nil => rfl
  | cons x xs ih => exact ih _

theorem queueAfter_append (invoke : PendingCall → MarshalResult) (ops : List QueueOp)
    (op : QueueOp) :
    queueAfter invoke (ops ++ [op]) = queueRun invoke (queueAfter invoke ops) op.steps := by
  simp only [queueAfter, List.map_append, List.flatten_append, List.map_cons, List.map_nil,
    List.flatten_cons, List.flatten_nil, List.append_nil, queueRun_append]

/-- The two steps of a submission done at one clock reading give the queue of
`CallFunction`. -/
theorem queueRun_CallFunction (invoke : PendingCall → MarshalResult) (env : Env)
    (b : RPCBridge) (name : String) (params : List FunctionParam) (param_count : Nat)
    (has_result_ptr : Bool) :
    (queueRun invoke { now := env.now, pending_calls := b.pending_calls }
      [QueueStep.prepare 0 0 name
        (if param_count > 0 then paramSource env params param_count else []) has_result_ptr,
       QueueStep.enqueue 0 0]).pending_calls
      = (RPCBridge.CallFunction env b name params param_count has_result_ptr).2.2.pending_calls
    := by
  unfold RPCBridge.CallFunction
  cases env.await <;>
    simp [queueRun, queueStep, mapAssign, mapFind]

theorem purge_sublist (t : Nat) (q : List PendingCall) :
    (purgeExpiredFront t q).Sublist q := by
  induction q with
  | nil => exact List.Sublist.refl _
  | cons c q ih =>
    unfold purgeExpiredFront
    split_ifs
    · exact List.Sublist.cons _ ih
    · exact List.Sublist.refl _

theorem purge_sorted (t : Nat) (q : List PendingCall)
    (hs : q.Pairwise (fun a b => a.timeout ≤ b.timeout)) :
    purgeExpiredFront t q = q.filter (fun c => !decide (c.timeout < t)) := by
  induction q with
  | nil => rfl
  | cons c q ih =>
    have hq := (List.pairwise_cons.mp hs)
    unfold purgeExpiredFront
    by_cases hc : c.timeout < t
    · rw [if_pos hc, ih hq.2]
      simp [hc]
    · rw [if_neg hc]
      have hall : q.filter (fun c => !decide (c.timeout < t)) = q := by
        rw [List.filter_eq_self]
        intro x hx
        have := hq.1 x hx
        simp only [Bool.not_eq_true', decide_eq_false_iff_not, not_lt]
        omega
      simp [hc, hall]

/-- Between operations that are not interleaved: the deadlines are sorted, none is more
than five seconds after the latest clock reading, and no call is waiting to be queued. -/
theorem queueAfter_inv (invoke : PendingCall → MarshalResult) (ops : List QueueOp) :
    (queueAfter invoke ops).pending_calls.Pairwise (fun a b => a.timeout ≤ b.timeout) ∧
    (∀ c ∈ (queueAfter invoke ops).pending_calls,
      c.timeout ≤ (queueAfter invoke ops).now + 5000) ∧
    (queueAfter invoke ops).prepared = [] := by
  induction ops using List.reverseRecOn with
  | nil => exact ⟨List.Pairwise.nil, fun c hc => absurd hc (List.not_mem_nil _), rfl⟩
  | append_singleton ops op ih =>
    obtain ⟨h1, h2, h3⟩ := ih
    rw [queueAfter_append]
    generalize queueAfter invoke ops = s at h1 h2 h3
    cases op with
    | drain elapsed =>
      simp only [QueueOp.steps, queueRun, queueStep, RPCBridge.ProcessPendingCalls]
      exact ⟨List.Pairwise.nil, fun c hc => absurd hc (List.not_mem_nil _), h3⟩
    | submit wait0 wait1 name params hrp =>
      simp only [QueueOp.steps, queueRun, queueStep, h3, mapAssign, mapFind, List.find?_nil,
        Option.map_none', Option.isSome_none, Bool.false_eq_true, if_false, List.nil_append,
        List.find?_cons_of_pos, decide_True, Option.map_some', mapErase, List.filter_cons,
        Bool.not_true, List.filter_nil]
      refine ⟨?_, ?_, trivial⟩
      · rw [List.pairwise_append]
        refine ⟨h1.sublist (purge_sublist _ _), List.pairwise_singleton _ _, ?_⟩
        intro a ha b hb
        rw [List.mem_singleton] at hb
        subst hb
        have := h2 a ((purge_sublist _ _).subset ha)
        show a.timeout ≤ s.now + wait0 + 5000
        omega
      · intro c hc
        rcases List.mem_append.mp hc with hc | hc
        · have := h2 c ((purge_sublist _ _).subset hc)
          omega
        · rw [List.mem_singleton] at hc
          subst hc
          show s.now + wait0 + 5000 ≤ s.now + wait0 + wait1 + 5000
          omega

theorem queueRun_submit (invoke : PendingCall → MarshalResult) (s : QueueState)
    (h3 : s.prepared = []) (wait0 wait1 : Nat) (name : String) (params : List FunctionParam)
    (hrp : Bool) :
    (queueRun invoke s (QueueOp.submit wait0 wait1 name params hrp).steps).now
      = s.now + wait0 + wait1 ∧
    (queueRun invoke s (QueueOp.submit wait0 wait1 name params hrp).steps).pending_calls
      = purgeExpiredFront (s.now + wait0 + wait1) s.pending_calls ++
        [{ func_name := name, params_copy := params, has_result_ptr := hrp,
           timeout := s.now + wait0 + 5000 }] := by
  simp [QueueOp.steps, queueRun, queueStep, h3, mapAssign, mapFind]

/-- C30, amended: in every state reached from the empty queue by submissions that are not
interleaved with one another and by drains, the clock never running backwards, the deadlines
in the pending queue are non-decreasing from front to back; hence the front-only purge
removes exactly the expired calls, and immediately after a submission that took the lock at
time t, at most five seconds after it computed its deadline, no call with a deadline earlier
than t is queued. -/
theorem pending_deadlines_sorted (invoke : PendingCall → MarshalResult)
    (ops : List QueueOp) :
    (queueAfter invoke ops).pending_calls.Pairwise (fun a b => a.timeout ≤ b.timeout) ∧
    (∀ t, purgeExpiredFront t (queueAfter invoke ops).pending_calls
      = (queueAfter invoke ops).pending_calls.filter (fun c => !decide (c.timeout < t))) ∧
    (∀ ops1 wait0 wait1 name params hrp,
      ops = ops1 ++ [QueueOp.submit wait0 wait1 name params hrp] → wait1 ≤ 5000 →
        ∀ c ∈ (queueAfter invoke ops).pending_calls,
          ¬ c.timeout < (queueAfter invoke ops).now) := by
  refine ⟨(queueAfter_inv invoke ops).1,
    fun t => purge_sorted t _ (queueAfter_inv invoke ops).1, ?_⟩
  intro ops1 wait0 wait1 name params hrp hops hw c hc
  subst hops
  obtain ⟨h1, _, h3⟩ := queueAfter_inv invoke ops1
  rw [queueAfter_append] at hc ⊢
  obtain ⟨hn, hq⟩ := queueRun_submit invoke (queueAfter invoke ops1) h3 wait0 wait1 name
    params hrp
  rw [hq] at hc
  rw [hn]
  rcases List.mem_append.mp hc with hc | hc
  · rw [purge_sorted _ _ h1, List.mem_filter] at hc
    simpa using hc.2
  · rw [List.mem_singleton] at hc
    subst hc
    show ¬ (queueAfter invoke ops1).now + wait0 + 5000
      < (queueAfter invoke ops1).now + wait0 + wait1
    omega

/-- C30 as stated fails. Two workers compute their deadlines at times 0 and 10 and the
second takes the queue lock first: the queue holds the deadlines 5010, 5000, not in order;
the submission at time 5005 purges the front only, so the call with the deadline 5000
stays queued. And a single submission that takes the lock 6000 ms after it computed its
deadline queues a call that is expired already. -/
theorem interleaved_deadlines_unsorted :
    ((queueRun noInvoke {} (interleavedRun.take 4)).pending_calls.map (fun c => c.timeout)
        = [5010, 5000] ∧
      (queueRun noInvoke {} interleavedRun).now = 5005 ∧
      (queueRun noInvoke {} interleavedRun).pending_calls.map (fun c => c.timeout)
        = [5010, 5000, 10005] ∧
      ¬ (queueRun noInvoke {} interleavedRun).pending_calls.Pairwise
        (fun a b => a.timeout ≤ b.timeout) ∧
      ¬ (∀ c ∈ (queueRun noInvoke {} interleavedRun).pending_calls,
        ¬ c.timeout < (queueRun noInvoke {} interleavedRun).now)) ∧
    ((queueAfter noInvoke [QueueOp.submit 0 6000 "A" [] false]).now = 6000 ∧
      (queueAfter noInvoke [QueueOp.submit 0 6000 "A" [] false]).pending_calls.map
        (fun c => c.timeout) = [5000]) := by
  decide

/-! ## The per-client worker writes one response per served request -/

theorem Alternating_between : ∀ (t : List PipeEvent), Alternating t →
    ∀ l1 mid l2 r1 s1 e1 r2 s2 e2,
      t = l1 ++ PipeEvent.read r1 s1 e1 :: (mid ++ PipeEvent.read r2 s2 e2 :: l2) →
      (∀ x ∈ mid, x.isRead = false) →
      mid = [PipeEvent.write (dispatch e1 s1 r1).response sizeofPipeResponse true] := by
  intro t
  induction t using Alternating.induct with
  | case1 =>
    intro _ l1 mid l2 r1 s1 e1 r2 s2 e2 h
    cases l1 <;> simp at h
  | case2 r s e =>
    intro _ l1 mid l2 r1 s1 e1 r2 s2 e2 h
    cases l1 with
    | nil =>
      simp only [List.nil_append, List.cons.injEq] at h
      have := h.2
      cases mid <;> simp at this
    | cons x xs =>
      simp only [List.cons_append, List.cons.injEq] at h
      have := h.2
      cases xs <;> simp at this
  | case3 r s e resp size =>
    intro _ l1 mid l2 r1 s1 e1 r2 s2 e2 h
    exfalso
    have hlen := congrArg List.length h
    simp only [List.length_cons, List.length_nil, List.length_append] at hlen
    have hl1 : l1 = [] := List.length_eq_zero.mp (by omega)
    have hm0 : mid = [] := List.length_eq_zero.mp (by omega)
    subst hl1 hm0
    simp at h
  | case4 r s e resp size rest ih =>
    intro ha l1 mid l2 r1 s1 e1 r2 s2 e2 h hmid
    simp only [Alternating] at ha
    obtain ⟨hs, hr, hrest⟩ := ha
    cases l1 with
    | nil =>
      simp only [List.nil_append, List.cons.injEq, PipeEvent.read.injEq] at h
      obtain ⟨⟨h1, h2, h3⟩, h4⟩ := h
      subst h1 h2 h3
      cases mid with
      | nil => simp at h4
      | cons y ys =>
        simp only [List.cons_append, List.cons.injEq] at h4
        obtain ⟨hy, h5⟩ := h4
        cases ys with
        | nil => rw [← hy, hs, hr]
        | cons z zs =>
          exfalso
          have hz := hmid z (by simp)
          simp only [List.cons_append] at h5
          rw [h5] at hrest
          cases z with
          | read a b c => simp [PipeEvent.isRead] at hz
          | write a b c => simp [Alternating] at hrest
    | cons x xs =>
      cases xs with
      | nil =>
        simp only [List.cons_append, List.nil_append, List.cons.injEq] at h
        exact absurd h.2.1 (by simp)
      | cons y ys =>
        simp only [List.cons_append, List.cons.injEq] at h
        exact ih hrest ys mid l2 r1 s1 e1 r2 s2 e2 h.2.2 hmid
  | case5 t h1 h2 h3 h4 =>
    intro ha
    exfalso
    unfold Alternating at ha
    split at ha
    · exact h1 rfl
    · exact h2 _ _ _ rfl
    · exact h3 _ _ _ _ _ rfl
    · exact h4 _ _ _ _ _ _ rfl
    · exact ha

/-- The trace of the worker loop is made of exchanges, whatever the script. -/
theorem ProcessClient_alternating (script : List Pass) :
    ∀ h : Host, Alternating (ProcessClient script h).1 := by
  induction script with
  | nil => intro h; simp [ProcessClient, Alternating]
  | cons p ps ih =>
    intro h
    simp only [ProcessClient]
    by_cases h0 : (!((p.before h).server.running &&
        !IsDllShuttingDown (p.before h).g_dllState)) = true
    · rw [if_pos h0]; simp [Alternating]
    rw [if_neg h0]
    by_cases h1 : (!p.pipeInfoOk) = true
    · rw [if_pos h1]; simp [Alternating]
    rw [if_neg h1]
    cases hf : p.read.frame with
    | none =>
      simp only []
      by_cases hc : p.read.continues = true
      · rw [if_pos hc]; exact ih _
      · rw [if_neg hc]; simp [Alternating]
    | some fr =>
      obtain ⟨request, bytesRead⟩ := fr
      simp only []
      by_cases hb : bytesRead = 0
      · rw [if_pos hb]; simp [Alternating]
      rw [if_neg hb]
      by_cases hs : (!(p.during (p.before h)).server.running ||
          IsDllShuttingDown (p.during (p.before h)).g_dllState) = true
      · rw [if_pos hs]; simp [Alternating]
      rw [if_neg hs]
      by_cases hw : p.write.sent = true
      · rw [if_pos hw]
        simp only [Alternating]
        exact ⟨trivial, trivial, ih _⟩
      · rw [if_neg hw]; simp [Alternating]

/-- C24: in every run of the per-client worker (any script of pass outcomes, any state at
entry) the events on the pipe form exchanges, and between two consecutive reads of a
request frame the worker makes exactly one write: a completed write of
`sizeof(PipeResponse)` bytes holding the dispatcher's response to the earlier request, in
the state and environment in which that request was served. -/
theorem worker_one_response_between_reads (script : List Pass) (h : Host) :
    Alternating (ProcessClient script h).1 ∧
    ∀ (l1 mid l2 : List PipeEvent) (r1 r2 : PipeRequest) (s1 s2 : Host) (e1 e2 : Env),
      (ProcessClient script h).1 =
        l1 ++ PipeEvent.read r1 s1 e1 :: (mid ++ PipeEvent.read r2 s2 e2 :: l2) →
      (∀ x ∈ mid, x.isRead = false) →
      mid = [PipeEvent.write (dispatch e1 s1 r1).response sizeofPipeResponse true] :=
  ⟨ProcessClient_alternating script h,
   fun l1 mid l2 r1 r2 s1 s2 e1 e2 ht hmid =>
     Alternating_between _ (ProcessClient_alternating script h)
       l1 mid l2 r1 s1 e1 r2 s2 e2 ht hmid⟩

/-- A run with two served heartbeats and an idle timeout between them: read, write, read,
write; both writes have the frame size 2860 and carry success with the echoed tick. -/
theorem worker_heartbeat_run :
    (ProcessClient heartbeatScript (runningHost emptyMemory)).1.map PipeEvent.isRead =
      [true, false, true, false] ∧
    (ProcessClient heartbeatScript (runningHost emptyMemory)).1.map
      (fun ev => match ev with
        | PipeEvent.read request _ _ => (request.type, 0, 0)
        | PipeEvent.write response size _ => (response.success, size, 1)) =
      [((heartbeatRequest 5).type, 0, 0), (1, 2860, 1),
       ((heartbeatRequest 7).type, 0, 0), (1, 2860, 1)] := by
  decide

/-! ## A poll answered with the message of the unknown kinds -/

/-- C8 evaluated at a poll-events request, an enumerated kind other than BATCH_REQUEST, on a
running host whose ring `E` holds ten events, the tenth with the characters of "Unknown
request type" and a NUL from byte 172 of its data on.  The request is routed to the event
handler alone and answered with success=1 and ten events, and the copy of the ten records,
2680 bytes from offset 8 of the frame, runs over the error message at offset 2604: the
response carries the message "Unknown request type". -/
theorem poll_answers_unknown_message :
    (GET_PENDING_EVENTS ∈ requestTypes ∧ GET_PENDING_EVENTS ≠ BATCH_REQUEST) ∧
    (forgedHost.server.running = true ∧ IsDllShuttingDown forgedHost.g_dllState = false) ∧
    (dispatch {} forgedHost (eventRequest GET_PENDING_EVENTS "E")).handlers
      = [Handler.HandleEventRequest] ∧
    (dispatch {} forgedHost (eventRequest GET_PENDING_EVENTS "E")).response.success = 1 ∧
    (dispatch {} forgedHost
      (eventRequest GET_PENDING_EVENTS "E")).response.event_data.event_count = 10 ∧
    (dispatch {} forgedHost (eventRequest GET_PENDING_EVENTS "E")).response.error_message
      = "Unknown request type" := by
  refine ⟨by decide, by decide, by decide, by decide, by decide, ?_⟩
  set_option maxRecDepth 8192 in decide

/-! ## The lifecycle state along the life of the process -/

theorem RegisterFunction_state (env : Env) (h : Host) (name : String)
    (address param_count convention : Nat) (has_return : Bool) :
    (RPCBridge.RegisterFunction env h name address param_count convention
      has_return).2.g_dllState = h.g_dllState := by
  simp only [RPCBridge.RegisterFunction]
  repeat' split
  all_goals rfl

theorem UnregisterFunction_state (h : Host) (name : String) :
    (RPCBridge.UnregisterFunction h name).2.g_dllState = h.g_dllState := by
  simp only [RPCBridge.UnregisterFunction]
  repeat' split
  all_goals rfl

theorem AllocateMemory_state (env : Env) (h : Host) (size protection : Nat) :
    (RPCBridge.AllocateMemory env h size protection).2.g_dllState = h.g_dllState := by
  simp only [RPCBridge.AllocateMemory]
  repeat' split
  all_goals rfl

theorem FreeMemory_state (env : Env) (h : Host) (address : Nat) :
    (RPCBridge.FreeMemory env h address).2.g_dllState = h.g_dllState := by
  simp only [RPCBridge.FreeMemory]
  repeat' split
  all_goals rfl

theorem WriteMemory_state (env : Env) (h : Host) (address : Nat) (data : List Nat)
    (size : Nat) :
    (RPCBridge.WriteMemory env h address data size).2.g_dllState = h.g_dllState := by
  simp only [RPCBridge.WriteMemory]
  repeat' split
  all_goals rfl

theorem ProtectMemory_state (h : Host) (address size protection : Nat) :
    (RPCBridge.ProtectMemory h address size protection).2.g_dllState = h.g_dllState := by
  simp only [RPCBridge.ProtectMemory]
  repeat' split
  all_goals rfl

theorem InstallHook_state (env : Env) (h : Host) (name : String) (target detour : Nat) :
    (RPCBridge.InstallHook env h name target detour).2.g_dllState = h.g_dllState := by
  simp only [RPCBridge.InstallHook]
  repeat' split
  all_goals rfl

theorem RemoveHook_state (env : Env) (h : Host) (name : String) :
    (RPCBridge.RemoveHook env h name).2.g_dllState = h.g_dllState := by
  unfold RPCBridge.RemoveHook
  cases mapFind h.bridge.hooks name <;> rfl

theorem EnableHook_state (env : Env) (h : Host) (name : String) :
    (RPCBridge.EnableHook env h name).2.g_dllState = h.g_dllState := by
  unfold RPCBridge.EnableHook
  cases mapFind h.bridge.hooks name <;> rfl

theorem DisableHook_state (env : Env) (h : Host) (name : String) :
    (RPCBridge.DisableHook env h name).2.g_dllState = h.g_dllState := by
  unfold RPCBridge.DisableHook
  cases mapFind h.bridge.hooks name <;> rfl

theorem RegisterEventBuffer_state (h : Host) (name : String) (buffer size max_events : Nat) :
    (RPCBridge.RegisterEventBuffer h name buffer size max_events).2.g_dllState
      = h.g_dllState := by
  simp only [RPCBridge.RegisterEventBuffer]
  repeat' split
  all_goals rfl

theorem UnregisterEventBuffer_state (h : Host) (name : String) :
    (RPCBridge.UnregisterEventBuffer h name).2.g_dllState = h.g_dllState := by
  unfold RPCBridge.UnregisterEventBuffer
  cases mapFind h.bridge.event_buffers name <;> rfl

theorem HandleFunctionRequest_state (env : Env) (h : Host) (request : PipeRequest)
    (response : PipeResponse) :
    (RPCBridge.HandleFunctionRequest env h request response).2.2.g_dllState
      = h.g_dllState := by
  simp only [RPCBridge.HandleFunctionRequest]
  repeat' split
  all_goals first
    | rfl
    | exact RegisterFunction_state _ _ _ _ _ _ _
    | exact UnregisterFunction_state _ _

theorem HandleMemoryRequest_state (env : Env) (h : Host) (request : PipeRequest)
    (response : PipeResponse) :
    (RPCBridge.HandleMemoryRequest env h request response).2.2.g_dllState
      = h.g_dllState := by
  simp only [RPCBridge.HandleMemoryRequest]
  repeat' split
  all_goals first
    | rfl
    | exact AllocateMemory_state _ _ _ _
    | exact FreeMemory_state _ _ _
    | exact WriteMemory_state _ _ _ _ _
    | exact ProtectMemory_state _ _ _ _

theorem HandleHookRequest_state (env : Env) (h : Host) (request : PipeRequest)
    (response : PipeResponse) :
    (RPCBridge.HandleHookRequest env h request response).2.2.g_dllState = h.g_dllState := by
  simp only [RPCBridge.HandleHookRequest]
  repeat' split
  all_goals first
    | rfl
    | exact InstallHook_state _ _ _ _ _
    | exact RemoveHook_state _ _ _
    | exact EnableHook_state _ _ _
    | exact DisableHook_state _ _ _

theorem HandleEventRequest_state (env : Env) (h : Host) (request : PipeRequest)
    (response : PipeResponse) :
    (RPCBridge.HandleEventRequest env h request response).2.2.g_dllState = h.g_dllState := by
  simp only [RPCBridge.HandleEventRequest]
  repeat' split
  all_goals first
    | rfl
    | exact RegisterEventBuffer_state _ _ _ _ _
    | exact UnregisterEventBuffer_state _ _

theorem HandleServerControlRequest_state (env : Env) (h : Host) (request : PipeRequest)
    (response : PipeResponse) :
    (RPCBridge.HandleServerControlRequest env h request response).2.2.g_dllState
      = h.g_dllState := by
  simp only [RPCBridge.HandleServerControlRequest]
  repeat' split
  all_goals rfl

theorem HandleArrayRequest_state (env : Env) (h : Host) (request : PipeRequest)
    (response : PipeResponse) :
    (RPCBridge.HandleArrayRequest env h request response).2.2.g_dllState = h.g_dllState := by
  simp only [RPCBridge.HandleArrayRequest]
  repeat' split
  all_goals rfl

theorem HandleBatchReadRequest_state (h : Host) (request : PipeRequest)
    (response : PipeResponse) :
    (RPCBridge.HandleBatchReadRequest h request response).2.2.g_dllState = h.g_dllState := by
  simp only [RPCBridge.HandleBatchReadRequest]
  repeat' split
  all_goals rfl

theorem HandleDLLControlRequest_state (env : Env) (h : Host) (request : PipeRequest)
    (response : PipeResponse) :
    (RPCBridge.HandleDLLControlRequest env h request response).2.2.g_dllState = h.g_dllState ∨
    (RPCBridge.HandleDLLControlRequest env h request response).2.2.g_dllState
      = RequestShutdown h.g_dllState := by
  simp only [RPCBridge.HandleDLLControlRequest]
  repeat' split
  all_goals first
    | exact Or.inl rfl
    | exact Or.inr rfl

/-- A request leaves the lifecycle state as it is or applies `RequestShutdown` to it. -/
theorem bridge_state (env : Env) (h : Host) (request : PipeRequest)
    (response : PipeResponse) :
    (RPCBridge.HandleRequest env h request response).2.host.g_dllState = h.g_dllState ∨
    (RPCBridge.HandleRequest env h request response).2.host.g_dllState
      = RequestShutdown h.g_dllState := by
  let Q : Bool × Dispatched → Prop := fun r =>
    r.2.host.g_dllState = h.g_dllState ∨ r.2.host.g_dllState = RequestShutdown h.g_dllState
  show Q (RPCBridge.HandleRequest env h request response)
  simp only [RPCBridge.HandleRequest]
  refine ite_prop Q _ _ _ ?_ (ite_prop Q _ _ _ ?_ (ite_prop Q _ _ _ ?_ (ite_prop Q _ _ _ ?_
    (ite_prop Q _ _ _ ?_ (ite_prop Q _ _ _ ?_ (ite_prop Q _ _ _ ?_ (ite_prop Q _ _ _ ?_
    (ite_prop Q _ _ _ ?_ (ite_prop Q _ _ _ ?_ ?_)))))))))
  · exact Or.inl (HandleServerControlRequest_state _ _ _ _)
  · exact HandleDLLControlRequest_state _ _ _ _
  · exact Or.inl rfl
  · exact Or.inl (HandleFunctionRequest_state _ _ _ _)
  · exact Or.inl (HandleMemoryRequest_state _ _ _ _)
  · exact Or.inl (HandleHookRequest_state _ _ _ _)
  · exact Or.inl (HandleEventRequest_state _ _ _ _)
  · exact Or.inl (HandleArrayRequest_state _ _ _ _)
  · exact Or.inl (HandleBatchReadRequest_state _ _ _)
  · exact Or.inl rfl
  · exact Or.inl rfl

theorem dispatch_state (env : Env) (h : Host) (request : PipeRequest) :
    (dispatch env h request).host.g_dllState = h.g_dllState ∨
    (dispatch env h request).host.g_dllState = RequestShutdown h.g_dllState := by
  unfold dispatch NamedPipeServer.HandleRequest
  by_cases hg : (!h.server.running || IsDllShuttingDown h.g_dllState) = true
  · rw [if_pos hg]
    exact Or.inl rfl
  · rw [if_neg hg]
    by_cases hk : request.type ≥ REGISTER_FUNCTION
    · rw [if_pos hk]
      dsimp only
      by_cases hr : (RPCBridge.HandleRequest env h request zeroResponse).1 = true
      · rw [if_pos hr]
        exact bridge_state env h request zeroResponse
      · rw [if_neg hr]
        exact bridge_state env h request zeroResponse
    · rw [if_neg hk]
      cases legacySwitch env h.memory request zeroResponse <;> exact Or.inl rfl

theorem RequestShutdown_ne (s : DllState) (hs : s ≠ DllState.Initializing) :
    RequestShutdown s ≠ DllState.Initializing := by
  cases s <;> simp [RequestShutdown] at hs ⊢

/-- No step stores `Initializing`. -/
theorem processStep_state (h : Host) (step : ProcessStep)
    (hs : h.g_dllState ≠ DllState.Initializing) :
    (processStep h step).g_dllState ≠ DllState.Initializing := by
  cases step with
  | storeStopped => exact fun hc => DllState.noConfusion hc
  | requestShutdown => exact RequestShutdown_ne _ hs
  | startServer env pipeName => exact hs
  | stopServer => exact hs
  | connections c t => exact hs
  | serve env request =>
    show (dispatch env h request).host.g_dllState ≠ DllState.Initializing
    rcases dispatch_state env h request with hd | hd
    · rw [hd]; exact hs
    · rw [hd]; exact RequestShutdown_ne _ hs
  | other memory bridge engine => exact hs

theorem foldl_processStep_state (steps : List ProcessStep) :
    ∀ h : Host, h.g_dllState ≠ DllState.Initializing →
      (steps.foldl processStep h).g_dllState ≠ DllState.Initializing := by
  induction steps with
  | nil => intro h hs; exact hs
  | cons step rest ih =>
    intro h hs
    exact ih _ (processStep_state h step hs)

/-- Once `MainThread` has begun, the lifecycle state is never `Initializing` again. -/
theorem processRun_state (m : Memory) (steps : List ProcessStep) :
    (processRun m steps).g_dllState ≠ DllState.Initializing :=
  foldl_processStep_state steps _ (fun hc => DllState.noConfusion hc)

/-- In every state of the process, the lifecycle state `Initializing` goes with a server
that is not running. -/
theorem processStates_initializing (m : Memory) (steps : List ProcessStep) (h : Host)
    (hreach : h ∈ processStates m steps)
    (hinit : h.g_dllState = DllState.Initializing) : h.server.running = false := by
  simp only [processStates, List.mem_cons, List.mem_singleton, List.not_mem_nil, or_false]
    at hreach
  rcases hreach with hr | hr | hr
  · rw [hr]; rfl
  · rw [hr]; rfl
  · rw [hr] at hinit
    exact absurd hinit (processRun_state m steps)

/-- C25: in every state of the process in which the lifecycle state is not Running, that is
Initializing, ShuttingDown or Stopped, a request that arrives at the dispatcher fails with
success=0 and the message "Server is shutting down"; no handler runs and the state is left
as it is.  The states are those of `processStates`: the library attached, with or without
its main thread, and every state after `MainThread` has begun. -/
theorem lifecycle_gate (env : Env) (m : Memory) (steps : List ProcessStep) (h : Host)
    (request : PipeRequest)
    (hreach : h ∈ processStates m steps) (hstate : h.g_dllState ≠ DllState.Running) :
    (dispatch env h request).response.success = 0 ∧
    (dispatch env h request).response.error_message = "Server is shutting down" ∧
    (dispatch env h request).handlers = [] ∧
    (dispatch env h request).host = h := by
  have hg : h.server.running = false ∨ IsDllShuttingDown h.g_dllState = true := by
    cases hs : h.g_dllState with
    | Initializing => exact Or.inl (processStates_initializing m steps h hreach hs)
    | Running => exact absurd hs hstate
    | ShuttingDown => exact Or.inr rfl
    | Stopped => exact Or.inr rfl
  rw [gate_closed env h request hg]
  exact ⟨rfl, rfl, rfl, rfl⟩

/-- C25 at concrete inputs: a heartbeat at the attached library, state Initializing, and at
the process whose server was started and whose shutdown was then requested, state
ShuttingDown with the server still running. -/
theorem lifecycle_gate_witness :
    ((attachedHost emptyMemory ∈ processStates emptyMemory [] ∧
      (attachedHost emptyMemory).g_dllState = DllState.Initializing) ∧
     (dispatch {} (attachedHost emptyMemory) (heartbeatRequest 5)).response.success = 0 ∧
     (dispatch {} (attachedHost emptyMemory) (heartbeatRequest 5)).response.error_message
       = "Server is shutting down") ∧
    ((processRun emptyMemory shutdownSteps ∈ processStates emptyMemory shutdownSteps ∧
      (processRun emptyMemory shutdownSteps).g_dllState = DllState.ShuttingDown ∧
      (processRun emptyMemory shutdownSteps).server.running = true) ∧
     (dispatch {} (processRun emptyMemory shutdownSteps)
       (heartbeatRequest 5)).response.success = 0 ∧
     (dispatch {} (processRun emptyMemory shutdownSteps)
       (heartbeatRequest 5)).response.error_message = "Server is shutting down") :=
  have h1 : attachedHost emptyMemory ∈ processStates emptyMemory [] :=
    List.mem_cons_self _ _
  have h2 : processRun emptyMemory shutdownSteps ∈ processStates emptyMemory shutdownSteps :=
    List.mem_cons_of_mem _ (List.mem_cons_of_mem _ (List.mem_cons_self _ _))
  have a := lifecycle_gate {} emptyMemory [] (attachedHost emptyMemory) (heartbeatRequest 5)
    h1 (by decide)
  have b := lifecycle_gate {} emptyMemory shutdownSteps (processRun emptyMemory shutdownSteps)
    (heartbeatRequest 5) h2 (by decide)
  ⟨⟨⟨h1, rfl⟩, a.1, a.2.1⟩, ⟨⟨h2, by decide, by decide⟩, b.1, b.2.1⟩⟩

end GW
